import Mathlib

/-!
# Volume replication operator: reconciliation state machine

A shallow embedding of `controllers/volumereplication_controller.go`,
`controllers/replication/replication.go`, `controllers/finalizers.go`,
`controllers/vg.go` and `controllers/volumereplicationclass.go`.

Conventions of the embedding

* A Go `error` value is represented by what the program can observe of it:
  the text of `Error()`, the result of `status.FromError` and the result of
  `errors.IsNotFound`.  A nil error is `none`.
* The object store (`r.Client`) and the driver client (`r.Replication`) are
  the fields of `Env`.  Every write and every driver call is appended, with
  its answer, to a chronological trace; the answer of a write or of a driver
  call may depend on the trace so far, so a driver that fails once and then
  succeeds is an `Env`.
* Pointer receivers that the code mutates (`instance`, `pvc`, `vg`) are passed
  and returned explicitly.  A write to the store answers with its error only:
  the object in memory stays as the code set it.
* A nil-pointer dereference ends the pass with `Exit.panicked`.
-/

namespace VolRep

set_option linter.dupNamespace false

/-! ## Errors and gRPC codes -/

/-- The numeric gRPC status code, `codes.Code`. -/
abbrev Code := Nat

/-- The code `codes.NotFound`. -/
def codes.NotFound : Code := 5

/-- The code `codes.FailedPrecondition`. -/
def codes.FailedPrecondition : Code := 9

/-- A non-nil Go `error`, by its observations: `text` is `Error()`, `status` is
`some (code, message)` exactly when `status.FromError` reports a gRPC status
error, `notFound` is `errors.IsNotFound`. -/
structure GoError where
  text : String
  status : Option (Code × String) := none
  notFound : Bool := false
deriving DecidableEq, Repr

/-- The error built by `fmt.Errorf(text)` or `errors.New(text)`. -/
def GoError.new (text : String) : GoError := { text := text }

/-- The error built by `fmt.Errorf(head + " %w", err)`: a wrapping error whose
text ends with the text of `err` and which still unwraps to `err`. -/
def GoError.wrapf (head : String) (err : GoError) : GoError :=
  { text := head ++ err.text
    status := err.status.map (fun s => (s.1, head ++ err.text))
    notFound := err.notFound }

/-! ## API types

Only the fields the controller reads or writes are kept. -/

/-- A Go `map[string]string`. -/
abbrev StringMap := List (String × String)

/-- The value of `m[key]`, the empty string when the key is absent. -/
def StringMap.get (m : StringMap) (key : String) : String :=
  match m.find? (fun kv => kv.1 == key) with
  | some kv => kv.2
  | none => ""

/-- The type `metav1.Time`, as a number. -/
abbrev Time := Nat

/-- The type `time.Duration`, in nanoseconds. -/
abbrev Duration := Nat

/-- The constant `time.Second`. -/
def Second : Duration := 1000000000

/-- The desired state `Spec.ReplicationState`: the three declared constants, or
any other string. -/
inductive ReplicationState where
  | Primary
  | Secondary
  | Resync
  | other (raw : String)
deriving DecidableEq, Repr

/-- The observed state `Status.State`: the zero value (empty string), the three
declared constants, or any other string. -/
inductive State where
  | empty
  | UnknownState
  | PrimaryState
  | SecondaryState
  | other (raw : String)
deriving DecidableEq, Repr

/-- The condition setters the controller calls, one constructor each. -/
inductive ConditionKind where
  | Promoted
  | FailedPromotion
  | Demoted
  | FailedDemotion
  | Resync
  | FailedResync
  | NotDegraded
deriving DecidableEq, Repr

/-- One recorded condition: which setter wrote it and the generation it was
stamped with. -/
structure Condition where
  kind : ConditionKind
  observedGeneration : Int
deriving DecidableEq, Repr

/-- The field `Spec.DataSource`, a `corev1.TypedLocalObjectReference`. -/
structure DataSource where
  Kind : String
  Name : String
deriving DecidableEq, Repr

/-- The struct `VolumeReplicationSpec`. -/
structure VolumeReplicationSpec where
  VolumeReplicationClass : String
  ReplicationState : ReplicationState
  DataSource : DataSource
  AutoResync : Bool
  ReplicationHandle : String
deriving DecidableEq, Repr

/-- The struct `VolumeReplicationStatus`. -/
structure VolumeReplicationStatus where
  State : State := State.empty
  Message : String := ""
  Conditions : List Condition := []
  ObservedGeneration : Int := 0
  LastStartTime : Option Time := none
  LastCompletionTime : Option Time := none
deriving DecidableEq, Repr

/-- The intent object `VolumeReplication`. -/
structure VolumeReplication where
  Name : String
  Namespace : String
  Generation : Int
  DeletionTimestamp : Option Time
  Finalizers : List String
  Spec : VolumeReplicationSpec
  Status : VolumeReplicationStatus
deriving DecidableEq, Repr

/-- The struct `VolumeReplicationClassSpec`, as the controller reads it. -/
structure VolumeReplicationClassSpec where
  Provisioner : String
  Parameters : StringMap
deriving DecidableEq, Repr

/-- The cluster-scoped `VolumeReplicationClass`. -/
structure VolumeReplicationClass where
  Name : String
  Spec : VolumeReplicationClassSpec
deriving DecidableEq, Repr

/-- A `corev1.PersistentVolumeClaim`. -/
structure PersistentVolumeClaim where
  Name : String
  Namespace : String
  Finalizers : List String
deriving DecidableEq, Repr

/-- A `corev1.PersistentVolume`; `CSI` is the pointer `Spec.CSI`, holding the
volume handle. -/
structure PersistentVolume where
  Name : String
  CSI : Option String
deriving DecidableEq, Repr

/-- A `volumegroupv1.VolumeGroup`; `VolumeGroupContentName` is the pointer
`Spec.Source.VolumeGroupContentName`. -/
structure VolumeGroup where
  Name : String
  Namespace : String
  Finalizers : List String
  VolumeGroupContentName : Option String
deriving DecidableEq, Repr

/-- A `volumegroupv1.VolumeGroupContent`, by `Spec.Source.VolumeGroupHandle`. -/
structure VolumeGroupContent where
  Name : String
  VolumeGroupHandle : String
deriving DecidableEq, Repr

/-- The key `types.NamespacedName`. -/
structure NamespacedName where
  Name : String
  Namespace : String := ""
deriving DecidableEq, Repr

/-- The value `ctrl.Result`. -/
structure Result where
  Requeue : Bool := false
  RequeueAfter : Duration := 0
deriving DecidableEq, Repr

/-! ## Driver protocol -/

/-- The tagged union `replicationlib.ReplicationSource`. -/
inductive ReplicationSource where
  | Volume (VolumeId : String)
  | Volumegroup (VolumeGroupId : String)
deriving DecidableEq, Repr

/-- One call on the interface `client.VolumeReplication`, with its arguments
in the order of the Go signature. -/
inductive Call where
  | EnableVolumeReplication (source : Option ReplicationSource) (replicationID : String)
      (secrets parameters : StringMap)
  | DisableVolumeReplication (source : Option ReplicationSource) (replicationID : String)
      (secrets parameters : StringMap)
  | PromoteVolume (source : Option ReplicationSource) (replicationID : String) (force : Bool)
      (secrets parameters : StringMap)
  | DemoteVolume (source : Option ReplicationSource) (replicationID : String)
      (secrets parameters : StringMap)
  | ResyncVolume (source : Option ReplicationSource) (replicationID : String) (force : Bool)
      (secrets parameters : StringMap)
deriving DecidableEq, Repr

/-- The dynamic value of `Response.Response`: a `*ResyncVolumeResponse`, by
what `GetReady()` returns on it, or a value of any other type. -/
inductive Payload where
  | ResyncVolumeResponse (ready : Bool)
  | other
deriving DecidableEq, Repr

/-- The struct `replication.Response`. -/
structure Response where
  Response : Payload
  Error : Option GoError
deriving DecidableEq, Repr

/-- An object handed to `r.Client.Update`. -/
inductive Object where
  | vr (o : VolumeReplication)
  | pvc (o : PersistentVolumeClaim)
  | vg (o : VolumeGroup)
deriving DecidableEq, Repr

/-- One effect of a pass together with its answer. -/
inductive Event where
  | rpc (call : Call) (resp : Response)
  | update (obj : Object) (err : Option GoError)
  | statusUpdate (obj : VolumeReplication) (err : Option GoError)
deriving DecidableEq, Repr

/-- The collaborators of the reconciler.  The helpers `getPVCDataSource`,
`getSecret`, `validatePrefixedParameters`, `filterPrefixedParameters` and the two
secret keys are declared outside the files embedded here and are taken as
given. -/
structure Env where
  DriverName : String
  getInstance : NamespacedName → Except GoError VolumeReplication
  getClass : NamespacedName → Except GoError VolumeReplicationClass
  getVolumeGroup : NamespacedName → Except GoError VolumeGroup
  getVolumeGroupContent : NamespacedName → Except GoError VolumeGroupContent
  getPVCDataSource : NamespacedName → Except GoError (PersistentVolumeClaim × PersistentVolume)
  getSecret : String → String → Except GoError StringMap
  validatePrefixedParameters : StringMap → Option GoError
  filterPrefixedParameters : StringMap → StringMap
  prefixedReplicationSecretNameKey : String
  prefixedReplicationSecretNamespaceKey : String
  stateString : ReplicationState → String
  client : List Event → Call → Response
  update : List Event → Object → Option GoError
  statusUpdate : List Event → VolumeReplication → Option GoError
  now : List Event → Time

/-! ## replication.go -/

/-- The struct `replication.CommonRequestParameters`; its `Replication` field is
the client of the `Env`. -/
structure CommonRequestParameters where
  ReplicationSource : Option ReplicationSource
  ReplicationID : String
  Parameters : StringMap
  Secrets : StringMap
deriving DecidableEq, Repr

/-- The struct `replication.Replication`. -/
structure Replication where
  Params : CommonRequestParameters
  Force : Bool := false
deriving DecidableEq, Repr

/-- A driver call: ask the client, record call and answer. -/
def Env.invoke (env : Env) (tr : List Event) (c : Call) : Response × List Event :=
  (env.client tr c, tr ++ [Event.rpc c (env.client tr c)])

/-- The method `Replication.Enable`. -/
def Replication.Enable (env : Env) (tr : List Event) (r : Replication) : Response × List Event :=
  env.invoke tr (Call.EnableVolumeReplication r.Params.ReplicationSource r.Params.ReplicationID
    r.Params.Secrets r.Params.Parameters)

/-- The method `Replication.Disable`. -/
def Replication.Disable (env : Env) (tr : List Event) (r : Replication) : Response × List Event :=
  env.invoke tr (Call.DisableVolumeReplication r.Params.ReplicationSource r.Params.ReplicationID
    r.Params.Secrets r.Params.Parameters)

/-- The method `Replication.Promote`. -/
def Replication.Promote (env : Env) (tr : List Event) (r : Replication) : Response × List Event :=
  env.invoke tr (Call.PromoteVolume r.Params.ReplicationSource r.Params.ReplicationID r.Force
    r.Params.Secrets r.Params.Parameters)

/-- The method `Replication.Demote`. -/
def Replication.Demote (env : Env) (tr : List Event) (r : Replication) : Response × List Event :=
  env.invoke tr (Call.DemoteVolume r.Params.ReplicationSource r.Params.ReplicationID
    r.Params.Secrets r.Params.Parameters)

/-- The method `Replication.Resync`. -/
def Replication.Resync (env : Env) (tr : List Event) (r : Replication) : Response × List Event :=
  env.invoke tr (Call.ResyncVolume r.Params.ReplicationSource r.Params.ReplicationID r.Force
    r.Params.Secrets r.Params.Parameters)

/-- The loop `for _, e := range knownErrors` of `HasKnownGRPCError`. -/
def codeAmong (code : Code) : List Code → Bool
  | [] => false
  | e :: rest => if code = e then true else codeAmong code rest

/-- The method `Response.HasKnownGRPCError`. -/
def Response.HasKnownGRPCError (r : VolRep.Response) (knownErrors : List Code) : Bool :=
  match r.Error with
  | none => false
  | some err =>
    match err.status with
    | none => false
    | some s => codeAmong s.1 knownErrors

/-- The function `replication.GetMessageFromError`. -/
def GetMessageFromError (err : GoError) : String :=
  match err.status with
  | none => err.text
  | some s => s.2

/-! ## Condition setters and slice helpers (declared outside the embedded files) -/

/-- Modelled from the spec: the seven condition setters (`setPromotedCondition`
and its siblings) are defined in a file that is not among the sources.  The
spec says each outcome is recorded as a condition with the generation of the
object, that setting one condition does not clear unrelated ones and that
conditions are cumulative history: a setter appends its record. -/
def setCondition (kind : ConditionKind) (conditions : List Condition) (observedGeneration : Int) :
    List Condition :=
  conditions ++ [{ kind := kind, observedGeneration := observedGeneration }]

/-- Modelled from the spec: see `setCondition`. -/
def setPromotedCondition : List Condition → Int → List Condition :=
  setCondition ConditionKind.Promoted

/-- Modelled from the spec: see `setCondition`. -/
def setFailedPromotionCondition : List Condition → Int → List Condition :=
  setCondition ConditionKind.FailedPromotion

/-- Modelled from the spec: see `setCondition`. -/
def setDemotedCondition : List Condition → Int → List Condition :=
  setCondition ConditionKind.Demoted

/-- Modelled from the spec: see `setCondition`. -/
def setFailedDemotionCondition : List Condition → Int → List Condition :=
  setCondition ConditionKind.FailedDemotion

/-- Modelled from the spec: see `setCondition`. -/
def setResyncCondition : List Condition → Int → List Condition :=
  setCondition ConditionKind.Resync

/-- Modelled from the spec: see `setCondition`. -/
def setFailedResyncCondition : List Condition → Int → List Condition :=
  setCondition ConditionKind.FailedResync

/-- Modelled from the spec: see `setCondition`. -/
def setNotDegradedCondition : List Condition → Int → List Condition :=
  setCondition ConditionKind.NotDegraded

/-- Modelled from the spec: the slice helper `contains` is defined outside the
sources; the spec describes add-if-absent of a named token, so it is
membership in the list. -/
def contains (slice : List String) (s : String) : Bool :=
  slice.any (fun item => item == s)

/-- Modelled from the spec: the slice helper `remove` is defined outside the
sources; the spec describes remove-if-present of a named token, so it drops
every occurrence. -/
def remove (slice : List String) (s : String) : List String :=
  slice.filter (fun item => !(item == s))

/-! ## volumereplication_controller.go: constants and pure helpers -/

/-- The constant `pvcDataSource`. -/
def pvcDataSource : String := "PersistentVolumeClaim"

/-- The constant `volumeGroupDataSource`. -/
def volumeGroupDataSource : String := "VolumeGroup"

/-- The variable `volumePromotionKnownErrors`. -/
def volumePromotionKnownErrors : List Code := [codes.FailedPrecondition]

/-- The variable `disableReplicationKnownErrors`. -/
def disableReplicationKnownErrors : List Code := [codes.NotFound]

/-- The function `getReplicationState`. -/
def getReplicationState (inst : VolumeReplication) : State :=
  match inst.Spec.ReplicationState with
  | ReplicationState.Primary => State.PrimaryState
  | ReplicationState.Secondary => State.SecondaryState
  | ReplicationState.Resync => State.SecondaryState
  | ReplicationState.other _ => State.UnknownState

/-- The function `getCurrentReplicationState`. -/
def getCurrentReplicationState (inst : VolumeReplication) : State :=
  if inst.Status.State = State.empty then State.UnknownState else inst.Status.State

/-- Replace the condition list of an intent. -/
def VolumeReplication.withConditions (inst : VolumeReplication) (c : List Condition) :
    VolumeReplication :=
  { inst with Status := { inst.Status with Conditions := c } }

/-- The function `setFailureCondition`: a switch with three cases and no
default. -/
def setFailureCondition (inst : VolumeReplication) : VolumeReplication :=
  match inst.Spec.ReplicationState with
  | ReplicationState.Primary =>
    inst.withConditions (setFailedPromotionCondition inst.Status.Conditions inst.Generation)
  | ReplicationState.Secondary =>
    inst.withConditions (setFailedDemotionCondition inst.Status.Conditions inst.Generation)
  | ReplicationState.Resync =>
    inst.withConditions (setFailedResyncCondition inst.Status.Conditions inst.Generation)
  | ReplicationState.other _ => inst

/-- The method `getReplicationSource`; its error result is always nil. -/
def getReplicationSource (kind : String) (volumeHandle : String) :
    Option ReplicationSource × Option GoError :=
  if kind = pvcDataSource then (some (ReplicationSource.Volume volumeHandle), none)
  else if kind = volumeGroupDataSource then (some (ReplicationSource.Volumegroup volumeHandle), none)
  else (none, none)

/-! ## volumereplication_controller.go: the operations on the driver -/

/-- What an operation that may fail hands back: its error, the intent object
as it left it, and the trace. -/
structure OpResult where
  err : Option GoError
  inst : VolumeReplication
  trace : List Event
deriving DecidableEq, Repr

/-- What `resyncVolume` hands back. -/
structure ResyncResult where
  requeue : Bool
  err : Option GoError
  inst : VolumeReplication
  trace : List Event
deriving DecidableEq, Repr

/-- The method `updateReplicationStatus`. -/
def updateReplicationStatus (env : Env) (tr : List Event) (inst : VolumeReplication)
    (state : State) (message : String) : OpResult :=
  let inst1 : VolumeReplication :=
    { inst with Status := { inst.Status with
        State := state, Message := message, ObservedGeneration := inst.Generation } }
  let err := env.statusUpdate tr inst1
  { err := err, inst := inst1, trace := tr ++ [Event.statusUpdate inst1 err] }

/-- The method `markVolumeAsPrimary`. -/
def markVolumeAsPrimary (env : Env) (tr : List Event) (volumeReplicationObject : VolumeReplication)
    (replicationSource : Option ReplicationSource) (replicationID : String)
    (parameters secrets : StringMap) : OpResult :=
  let c : CommonRequestParameters :=
    { ReplicationSource := replicationSource, ReplicationID := replicationID,
      Parameters := parameters, Secrets := secrets }
  let volumeReplication : Replication := { Params := c }
  let resp := (volumeReplication.Promote env tr).1
  let tr1 := (volumeReplication.Promote env tr).2
  match resp.Error with
  | some err =>
    if !(resp.HasKnownGRPCError volumePromotionKnownErrors) then
      { err := some err
        inst := volumeReplicationObject.withConditions
          (setFailedPromotionCondition volumeReplicationObject.Status.Conditions
            volumeReplicationObject.Generation)
        trace := tr1 }
    else
      let forced : Replication := { volumeReplication with Force := true }
      let resp2 := (forced.Promote env tr1).1
      let tr2 := (forced.Promote env tr1).2
      match resp2.Error with
      | some err2 =>
        { err := some err2
          inst := volumeReplicationObject.withConditions
            (setFailedPromotionCondition volumeReplicationObject.Status.Conditions
              volumeReplicationObject.Generation)
          trace := tr2 }
      | none =>
        { err := none
          inst := volumeReplicationObject.withConditions
            (setPromotedCondition volumeReplicationObject.Status.Conditions
              volumeReplicationObject.Generation)
          trace := tr2 }
  | none =>
    { err := none
      inst := volumeReplicationObject.withConditions
        (setPromotedCondition volumeReplicationObject.Status.Conditions
          volumeReplicationObject.Generation)
      trace := tr1 }

/-- The method `markVolumeAsSecondary`. -/
def markVolumeAsSecondary (env : Env) (tr : List Event) (volumeReplicationObject : VolumeReplication)
    (replicationSource : Option ReplicationSource) (replicationID : String)
    (parameters secrets : StringMap) : OpResult :=
  let c : CommonRequestParameters :=
    { ReplicationSource := replicationSource, ReplicationID := replicationID,
      Parameters := parameters, Secrets := secrets }
  let volumeReplication : Replication := { Params := c }
  let resp := (volumeReplication.Demote env tr).1
  let tr1 := (volumeReplication.Demote env tr).2
  match resp.Error with
  | some err =>
    { err := some err
      inst := volumeReplicationObject.withConditions
        (setFailedDemotionCondition volumeReplicationObject.Status.Conditions
          volumeReplicationObject.Generation)
      trace := tr1 }
  | none =>
    { err := none
      inst := volumeReplicationObject.withConditions
        (setDemotedCondition volumeReplicationObject.Status.Conditions
          volumeReplicationObject.Generation)
      trace := tr1 }

/-- The method `resyncVolume`. -/
def resyncVolume (env : Env) (tr : List Event) (volumeReplicationObject : VolumeReplication)
    (replicationSource : Option ReplicationSource) (replicationID : String) (force : Bool)
    (parameters secrets : StringMap) : ResyncResult :=
  let c : CommonRequestParameters :=
    { ReplicationSource := replicationSource, ReplicationID := replicationID,
      Parameters := parameters, Secrets := secrets }
  let volumeReplication : Replication := { Params := c, Force := force }
  let resp := (volumeReplication.Resync env tr).1
  let tr1 := (volumeReplication.Resync env tr).2
  match resp.Error with
  | some err =>
    { requeue := false, err := some err
      inst := volumeReplicationObject.withConditions
        (setFailedResyncCondition volumeReplicationObject.Status.Conditions
          volumeReplicationObject.Generation)
      trace := tr1 }
  | none =>
    match resp.Response with
    | Payload.other =>
      { requeue := false, err := some (GoError.new "received response of unexpected type")
        inst := volumeReplicationObject.withConditions
          (setFailedResyncCondition volumeReplicationObject.Status.Conditions
            volumeReplicationObject.Generation)
        trace := tr1 }
    | Payload.ResyncVolumeResponse ready =>
      let synced := volumeReplicationObject.withConditions
        (setResyncCondition volumeReplicationObject.Status.Conditions
          volumeReplicationObject.Generation)
      if !ready then
        { requeue := true, err := none, inst := synced, trace := tr1 }
      else
        { requeue := false, err := none
          inst := synced.withConditions
            (setNotDegradedCondition synced.Status.Conditions synced.Generation)
          trace := tr1 }

/-- The method `disableVolumeReplication`: its error and the trace. -/
def disableVolumeReplication (env : Env) (tr : List Event)
    (replicationSource : Option ReplicationSource) (replicationID : String)
    (parameters secrets : StringMap) : Option GoError × List Event :=
  let c : CommonRequestParameters :=
    { ReplicationSource := replicationSource, ReplicationID := replicationID,
      Parameters := parameters, Secrets := secrets }
  let volumeReplication : Replication := { Params := c }
  let resp := (volumeReplication.Disable env tr).1
  let tr1 := (volumeReplication.Disable env tr).2
  match resp.Error with
  | some err =>
    if resp.HasKnownGRPCError disableReplicationKnownErrors then (none, tr1)
    else (some err, tr1)
  | none => (none, tr1)

/-- The method `enableReplication`: its error and the trace. -/
def enableReplication (env : Env) (tr : List Event)
    (replicationSource : Option ReplicationSource) (replicationID : String)
    (parameters secrets : StringMap) : Option GoError × List Event :=
  let c : CommonRequestParameters :=
    { ReplicationSource := replicationSource, ReplicationID := replicationID,
      Parameters := parameters, Secrets := secrets }
  let volumeReplication : Replication := { Params := c }
  let resp := (volumeReplication.Enable env tr).1
  let tr1 := (volumeReplication.Enable env tr).2
  match resp.Error with
  | some err => (some err, tr1)
  | none => (none, tr1)

/-! ## finalizers.go -/

/-- The constant `volumeReplicationFinalizer`. -/
def volumeReplicationFinalizer : String := "replication.storage.openshift.io"

/-- The constant `pvcReplicationFinalizer`. -/
def pvcReplicationFinalizer : String := "replication.storage.openshift.io/pvc-protection"

/-- The constant `vgReplicationFinalizer`. -/
def vgReplicationFinalizer : String := "replication.storage.openshift.io/vg-protection"

/-- The method `addFinalizerToVR`. -/
def addFinalizerToVR (env : Env) (tr : List Event) (vr : VolumeReplication) : OpResult :=
  if !(contains vr.Finalizers volumeReplicationFinalizer) then
    let vr1 : VolumeReplication := { vr with Finalizers := vr.Finalizers ++ [volumeReplicationFinalizer] }
    let res := env.update tr (Object.vr vr1)
    let tr1 := tr ++ [Event.update (Object.vr vr1) res]
    match res with
    | some err =>
      { err := some (GoError.wrapf ("failed to add finalizer (" ++ volumeReplicationFinalizer ++
          ") to VolumeReplication resource (" ++ vr.Namespace ++ "/" ++ vr.Name ++ ") ") err)
        inst := vr1, trace := tr1 }
    | none => { err := none, inst := vr1, trace := tr1 }
  else { err := none, inst := vr, trace := tr }

/-- The method `removeFinalizerFromVR`. -/
def removeFinalizerFromVR (env : Env) (tr : List Event) (vr : VolumeReplication) : OpResult :=
  if contains vr.Finalizers volumeReplicationFinalizer then
    let vr1 : VolumeReplication := { vr with Finalizers := remove vr.Finalizers volumeReplicationFinalizer }
    let res := env.update tr (Object.vr vr1)
    let tr1 := tr ++ [Event.update (Object.vr vr1) res]
    match res with
    | some err =>
      { err := some (GoError.wrapf ("failed to remove finalizer (" ++ volumeReplicationFinalizer ++
          ") from VolumeReplication resource (" ++ vr.Namespace ++ "/" ++ vr.Name ++ "), ") err)
        inst := vr1, trace := tr1 }
    | none => { err := none, inst := vr1, trace := tr1 }
  else { err := none, inst := vr, trace := tr }

/-- The method `addFinalizerToPVC`: its error, the claim as it left it, the
trace. -/
def addFinalizerToPVC (env : Env) (tr : List Event) (pvc : PersistentVolumeClaim) :
    Option GoError × PersistentVolumeClaim × List Event :=
  if !(contains pvc.Finalizers pvcReplicationFinalizer) then
    let pvc1 : PersistentVolumeClaim := { pvc with Finalizers := pvc.Finalizers ++ [pvcReplicationFinalizer] }
    let res := env.update tr (Object.pvc pvc1)
    let tr1 := tr ++ [Event.update (Object.pvc pvc1) res]
    match res with
    | some err =>
      (some (GoError.wrapf ("failed to add finalizer (" ++ pvcReplicationFinalizer ++
        ") to PersistentVolumeClaim resource (" ++ pvc.Namespace ++ "/" ++ pvc.Name ++ ") ") err),
        pvc1, tr1)
    | none => (none, pvc1, tr1)
  else (none, pvc, tr)

/-- The method `removeFinalizerFromPVC`. -/
def removeFinalizerFromPVC (env : Env) (tr : List Event) (pvc : PersistentVolumeClaim) :
    Option GoError × PersistentVolumeClaim × List Event :=
  if contains pvc.Finalizers pvcReplicationFinalizer then
    let pvc1 : PersistentVolumeClaim := { pvc with Finalizers := remove pvc.Finalizers pvcReplicationFinalizer }
    let res := env.update tr (Object.pvc pvc1)
    let tr1 := tr ++ [Event.update (Object.pvc pvc1) res]
    match res with
    | some err =>
      (some (GoError.wrapf ("failed to remove finalizer (" ++ pvcReplicationFinalizer ++
        ") from PersistentVolumeClaim resource (" ++ pvc.Namespace ++ "/" ++ pvc.Name ++ "), ") err),
        pvc1, tr1)
    | none => (none, pvc1, tr1)
  else (none, pvc, tr)

/-- The method `addFinalizerToVG`. -/
def addFinalizerToVG (env : Env) (tr : List Event) (vg : VolumeGroup) :
    Option GoError × VolumeGroup × List Event :=
  if !(contains vg.Finalizers vgReplicationFinalizer) then
    let vg1 : VolumeGroup := { vg with Finalizers := vg.Finalizers ++ [vgReplicationFinalizer] }
    let res := env.update tr (Object.vg vg1)
    let tr1 := tr ++ [Event.update (Object.vg vg1) res]
    match res with
    | some err =>
      (some (GoError.wrapf ("failed to add finalizer (" ++ vgReplicationFinalizer ++
        ") to VolumeGroup resource (" ++ vg.Namespace ++ "/" ++ vg.Name ++ ") ") err),
        vg1, tr1)
    | none => (none, vg1, tr1)
  else (none, vg, tr)

/-- The method `removeFinalizerFromVG`. -/
def removeFinalizerFromVG (env : Env) (tr : List Event) (vg : VolumeGroup) :
    Option GoError × VolumeGroup × List Event :=
  if contains vg.Finalizers vgReplicationFinalizer then
    let vg1 : VolumeGroup := { vg with Finalizers := remove vg.Finalizers vgReplicationFinalizer }
    let res := env.update tr (Object.vg vg1)
    let tr1 := tr ++ [Event.update (Object.vg vg1) res]
    match res with
    | some err =>
      (some (GoError.wrapf ("failed to remove finalizer (" ++ vgReplicationFinalizer ++
        ") from VolumeGroup resource (" ++ vg.Namespace ++ "/" ++ vg.Name ++ "), ") err),
        vg1, tr1)
    | none => (none, vg1, tr1)
  else (none, vg, tr)

/-! ## vg.go and volumereplicationclass.go -/

/-- What `getVGDataSource` does: it returns its three results, or it
dereferences a nil `VolumeGroupContentName`. -/
inductive VGDataSource where
  | returned (vg : Option VolumeGroup) (vgc : Option VolumeGroupContent) (err : Option GoError)
  | panicked
deriving DecidableEq, Repr

/-- The method `getVGDataSource`. -/
def getVGDataSource (env : Env) (req : NamespacedName) : VGDataSource :=
  match env.getVolumeGroup req with
  | Except.error err => VGDataSource.returned none none (some err)
  | Except.ok vg =>
    match vg.VolumeGroupContentName with
    | none => VGDataSource.panicked
    | some volumeGroupContentName =>
      match env.getVolumeGroupContent { Name := volumeGroupContentName, Namespace := vg.Namespace } with
      | Except.error err => VGDataSource.returned (some vg) none (some err)
      | Except.ok vgc => VGDataSource.returned (some vg) (some vgc) none

/-- The method `getVolumeReplicationClass`: the class, or the error of the
store unchanged. -/
def getVolumeReplicationClass (env : Env) (vrcName : String) :
    Except GoError VolumeReplicationClass :=
  match env.getClass { Name := vrcName } with
  | Except.error err => Except.error err
  | Except.ok vrcObj => Except.ok vrcObj

/-! ## volumereplication_controller.go: Reconcile -/

/-- How a pass ends: it returns `(ctrl.Result, error)`, or it panics. -/
inductive Exit where
  | returned (result : Result) (err : Option GoError)
  | panicked
deriving DecidableEq, Repr

/-- A finished pass: how it ended, the intent object in memory at that point
(`none` when it was never fetched) and everything the pass did. -/
structure Outcome where
  exit : Exit
  inst : Option VolumeReplication
  trace : List Event
deriving DecidableEq, Repr

/-- The block `setFailureCondition(instance)` followed by
`r.updateReplicationStatus(..., getCurrentReplicationState(instance), msg)`, which
Reconcile repeats on each failure before Enable and on the failure of Enable;
the error of the status write is only logged there. -/
def recordFailure (env : Env) (tr : List Event) (inst : VolumeReplication) (msg : String) :
    OpResult :=
  updateReplicationStatus env tr (setFailureCondition inst)
    (getCurrentReplicationState (setFailureCondition inst)) msg

/-- Reconcile, lines 339-391: what follows the switch on the desired state. -/
def reconcileOutcome (env : Env) (tr : List Event) (inst : VolumeReplication)
    (replicationErr : Option GoError) (requeueForResync : Bool) : Outcome :=
  match replicationErr with
  | some rerr =>
    let u := updateReplicationStatus env tr inst (getCurrentReplicationState inst)
      (GetMessageFromError rerr)
    if u.inst.Status.State = State.SecondaryState then
      { exit := Exit.returned { Requeue := true, RequeueAfter := Second * 15 } none
        inst := some u.inst, trace := u.trace }
    else
      { exit := Exit.returned {} (some rerr), inst := some u.inst, trace := u.trace }
  | none =>
    if requeueForResync then
      let u := updateReplicationStatus env tr inst (getCurrentReplicationState inst)
        "volume is degraded"
      { exit := Exit.returned { Requeue := true, RequeueAfter := Second * 30 } none
        inst := some u.inst, trace := u.trace }
    else
      let msg : String :=
        if inst.Spec.ReplicationState = ReplicationState.Resync then "volume is marked for resyncing"
        else "volume is marked " ++ env.stateString inst.Spec.ReplicationState
      let inst1 : VolumeReplication :=
        { inst with Status := { inst.Status with LastCompletionTime := some (env.now tr) } }
      let u := updateReplicationStatus env tr inst1 (getReplicationState inst1) msg
      match u.err with
      | some err => { exit := Exit.returned {} (some err), inst := some u.inst, trace := u.trace }
      | none => { exit := Exit.returned {} none, inst := some u.inst, trace := u.trace }

/-- Reconcile, lines 288-337: the switch on the desired state, run once
Enable has succeeded. -/
def reconcileDesiredState (env : Env) (tr : List Event) (inst : VolumeReplication)
    (replicationSource : Option ReplicationSource) (replicationHandle : String)
    (parameters secret : StringMap) : Outcome :=
  match inst.Spec.ReplicationState with
  | ReplicationState.Primary =>
    let p := markVolumeAsPrimary env tr inst replicationSource replicationHandle parameters secret
    reconcileOutcome env p.trace p.inst p.err false
  | ReplicationState.Secondary =>
    if inst.Status.State ≠ State.SecondaryState then
      let d := markVolumeAsSecondary env tr inst replicationSource replicationHandle parameters secret
      match d.err with
      | none =>
        let u := updateReplicationStatus env d.trace d.inst (getReplicationState d.inst)
          "volume is marked secondary and is degraded"
        match u.err with
        | some err => { exit := Exit.returned {} (some err), inst := some u.inst, trace := u.trace }
        | none =>
          { exit := Exit.returned { Requeue := true, RequeueAfter := Second * 15 } none
            inst := some u.inst, trace := u.trace }
      | some rerr => reconcileOutcome env d.trace d.inst (some rerr) false
    else
      let d := markVolumeAsSecondary env tr inst replicationSource replicationHandle parameters secret
      match d.err with
      | none =>
        let rs := resyncVolume env d.trace d.inst replicationSource replicationHandle
          inst.Spec.AutoResync parameters secret
        reconcileOutcome env rs.trace rs.inst rs.err rs.requeue
      | some rerr => reconcileOutcome env d.trace d.inst (some rerr) false
  | ReplicationState.Resync =>
    let rs := resyncVolume env tr inst replicationSource replicationHandle true parameters secret
    reconcileOutcome env rs.trace rs.inst rs.err rs.requeue
  | ReplicationState.other _ =>
    let replicationErr := GoError.new "unsupported volume state"
    let u := recordFailure env tr inst replicationErr.text
    { exit := Exit.returned {} none, inst := some u.inst, trace := u.trace }

/-- The assignment `instance.Status.LastStartTime = getCurrentTime()`. -/
def VolumeReplication.withLastStartTime (inst : VolumeReplication) (t : Time) : VolumeReplication :=
  { inst with Status := { inst.Status with LastStartTime := some t } }

/-- Reconcile, lines 268-286: stamp the start time, write the object, Enable;
then the switch on the desired state. -/
def reconcileReplication (env : Env) (tr : List Event) (inst0 : VolumeReplication)
    (replicationSource : Option ReplicationSource) (replicationHandle : String)
    (parameters secret : StringMap) : Outcome :=
  let inst := inst0.withLastStartTime (env.now tr)
  let res := env.update tr (Object.vr inst)
  let tr1 := tr ++ [Event.update (Object.vr inst) res]
  match res with
  | some err => { exit := Exit.returned {} (some err), inst := some inst, trace := tr1 }
  | none =>
    let en := enableReplication env tr1 replicationSource replicationHandle parameters secret
    match en.1 with
    | some err =>
      let u := recordFailure env en.2 inst (GetMessageFromError err)
      { exit := Exit.returned {} (some err), inst := some u.inst, trace := u.trace }
    | none =>
      reconcileDesiredState env en.2 inst replicationSource replicationHandle parameters secret

/-- Reconcile, lines 212-266: the finalizer phase.  A live object gets its
finalizers and goes on to `reconcileReplication`; an object marked for deletion
is disabled, loses its finalizers and the pass ends. -/
def reconcileFinalizers (env : Env) (tr : List Event) (inst : VolumeReplication)
    (pvc : Option PersistentVolumeClaim) (vg : Option VolumeGroup)
    (replicationSource : Option ReplicationSource) (replicationHandle : String)
    (parameters secret : StringMap) : Outcome :=
  match inst.DeletionTimestamp with
  | none =>
    let a := addFinalizerToVR env tr inst
    match a.err with
    | some err => { exit := Exit.returned {} (some err), inst := some a.inst, trace := a.trace }
    | none =>
      let b : Option GoError × List Event :=
        match pvc with
        | some c => ((addFinalizerToPVC env a.trace c).1, (addFinalizerToPVC env a.trace c).2.2)
        | none => (none, a.trace)
      match b.1 with
      | some err => { exit := Exit.returned {} (some err), inst := some a.inst, trace := b.2 }
      | none =>
        let g : Option GoError × List Event :=
          match vg with
          | some v => ((addFinalizerToVG env b.2 v).1, (addFinalizerToVG env b.2 v).2.2)
          | none => (none, b.2)
        match g.1 with
        | some err => { exit := Exit.returned {} (some err), inst := some a.inst, trace := g.2 }
        | none =>
          reconcileReplication env g.2 a.inst replicationSource replicationHandle parameters secret
  | some _ =>
    if contains inst.Finalizers volumeReplicationFinalizer then
      let d := disableVolumeReplication env tr replicationSource replicationHandle parameters secret
      match d.1 with
      | some err => { exit := Exit.returned {} (some err), inst := some inst, trace := d.2 }
      | none =>
        let b : Option GoError × List Event :=
          match pvc with
          | some c => ((removeFinalizerFromPVC env d.2 c).1, (removeFinalizerFromPVC env d.2 c).2.2)
          | none => (none, d.2)
        match b.1 with
        | some err => { exit := Exit.returned {} (some err), inst := some inst, trace := b.2 }
        | none =>
          let g : Option GoError × List Event :=
            match vg with
            | some v => ((removeFinalizerFromVG env b.2 v).1, (removeFinalizerFromVG env b.2 v).2.2)
            | none => (none, b.2)
          match g.1 with
          | some err => { exit := Exit.returned {} (some err), inst := some inst, trace := g.2 }
          | none =>
            let r := removeFinalizerFromVR env g.2 inst
            match r.err with
            | some err => { exit := Exit.returned {} (some err), inst := some r.inst, trace := r.trace }
            | none => { exit := Exit.returned {} none, inst := some r.inst, trace := r.trace }
    else { exit := Exit.returned {} none, inst := some inst, trace := tr }

/-- Reconcile, lines 199-210: build the replication source from the resolved
handle, then the finalizer phase. -/
def reconcileSource (env : Env) (tr : List Event) (inst : VolumeReplication)
    (pvc : Option PersistentVolumeClaim) (vg : Option VolumeGroup) (volumeHandle : String)
    (parameters secret : StringMap) : Outcome :=
  match (getReplicationSource inst.Spec.DataSource.Kind volumeHandle).2 with
  | some _ => { exit := Exit.returned {} none, inst := some inst, trace := tr }
  | none =>
    reconcileFinalizers env tr inst pvc vg
      (getReplicationSource inst.Spec.DataSource.Kind volumeHandle).1
      inst.Spec.ReplicationHandle parameters secret

/-- Reconcile, lines 146-197: resolve the data source to a volume handle. -/
def reconcileDataSource (env : Env) (req : NamespacedName) (inst : VolumeReplication)
    (parameters secret : StringMap) : Outcome :=
  let nameSpacedName : NamespacedName := { Name := inst.Spec.DataSource.Name, Namespace := req.Namespace }
  if inst.Spec.DataSource.Kind = pvcDataSource then
    match env.getPVCDataSource nameSpacedName with
    | Except.error pvErr =>
      let u := recordFailure env [] inst pvErr.text
      { exit := Exit.returned {} (some pvErr), inst := some u.inst, trace := u.trace }
    | Except.ok (pvc, pv) =>
      match pv.CSI with
      | none => { exit := Exit.panicked, inst := some inst, trace := [] }
      | some volumeHandle => reconcileSource env [] inst (some pvc) none volumeHandle parameters secret
  else if inst.Spec.DataSource.Kind = volumeGroupDataSource then
    match getVGDataSource env nameSpacedName with
    | VGDataSource.panicked => { exit := Exit.panicked, inst := some inst, trace := [] }
    | VGDataSource.returned _ _ (some vgErr) =>
      let u := recordFailure env [] inst vgErr.text
      { exit := Exit.returned {} (some vgErr), inst := some u.inst, trace := u.trace }
    | VGDataSource.returned vg (some vgc) none =>
      reconcileSource env [] inst none vg vgc.VolumeGroupHandle parameters secret
    | VGDataSource.returned _ none none => { exit := Exit.panicked, inst := some inst, trace := [] }
  else
    let err := GoError.new "unsupported datasource kind"
    let u := recordFailure env [] inst err.text
    { exit := Exit.returned {} none, inst := some u.inst, trace := u.trace }

/-- The method `Reconcile`, lines 80-144: fetch the intent, its class and the
secret, then go on with `reconcileDataSource`.  A pass starts with an empty
trace. -/
def Reconcile (env : Env) (req : NamespacedName) : Outcome :=
  match env.getInstance req with
  | Except.error err =>
    if err.notFound then { exit := Exit.returned {} none, inst := none, trace := [] }
    else { exit := Exit.returned {} (some err), inst := none, trace := [] }
  | Except.ok inst =>
    match getVolumeReplicationClass env inst.Spec.VolumeReplicationClass with
    | Except.error err =>
      let u := recordFailure env [] inst err.text
      { exit := Exit.returned {} (some err), inst := some u.inst, trace := u.trace }
    | Except.ok vrcObj =>
      if env.DriverName ≠ vrcObj.Spec.Provisioner then
        { exit := Exit.returned {} none, inst := some inst, trace := [] }
      else
        match env.validatePrefixedParameters vrcObj.Spec.Parameters with
        | some err =>
          let u := recordFailure env [] inst err.text
          { exit := Exit.returned {} (some err), inst := some u.inst, trace := u.trace }
        | none =>
          let parameters := env.filterPrefixedParameters vrcObj.Spec.Parameters
          let secretName := vrcObj.Spec.Parameters.get env.prefixedReplicationSecretNameKey
          let secretNamespace := vrcObj.Spec.Parameters.get env.prefixedReplicationSecretNamespaceKey
          if secretName ≠ "" ∧ secretNamespace ≠ "" then
            match env.getSecret secretName secretNamespace with
            | Except.error err =>
              let u := recordFailure env [] inst err.text
              { exit := Exit.returned {} (some err), inst := some u.inst, trace := u.trace }
            | Except.ok secret => reconcileDataSource env req inst parameters secret
          else reconcileDataSource env req inst parameters []

/-! ## Reading a trace -/

/-- The driver calls of a trace, in order. -/
def driverCalls : List Event → List Call
  | [] => []
  | Event.rpc c _ :: rest => c :: driverCalls rest
  | _ :: rest => driverCalls rest

/-- The driver calls of a trace with their answers, in order. -/
def driverEvents : List Event → List (Call × Response)
  | [] => []
  | Event.rpc c r :: rest => (c, r) :: driverEvents rest
  | _ :: rest => driverEvents rest

/-- Whether the call is an Enable. -/
def Call.isEnable : Call → Bool
  | Call.EnableVolumeReplication _ _ _ _ => true
  | _ => false

/-- Whether the call is a Promote, a Demote or a Resync. -/
def Call.isReplication : Call → Bool
  | Call.PromoteVolume _ _ _ _ _ => true
  | Call.DemoteVolume _ _ _ _ => true
  | Call.ResyncVolume _ _ _ _ _ => true
  | _ => false

/-- The pass called Enable and the driver answered with success. -/
def enableSucceeded (tr : List Event) : Bool :=
  (driverEvents tr).any (fun cr => cr.1.isEnable && cr.2.Error.isNone)

/-- No Demote call of the pass was answered with an error. -/
def noDemoteFailed (tr : List Event) : Bool :=
  (driverEvents tr).all (fun cr =>
    match cr.1 with
    | Call.DemoteVolume _ _ _ _ => cr.2.Error.isNone
    | _ => true)

/-- Some Demote call of the pass was answered with an error. -/
def demoteFailed (tr : List Event) : Bool :=
  (driverEvents tr).any (fun cr =>
    match cr.1 with
    | Call.DemoteVolume _ _ _ _ => cr.2.Error.isSome
    | _ => false)

/-- No write to the status sub-resource was answered with an error. -/
def statusWritesSucceeded : List Event → Bool
  | [] => true
  | Event.statusUpdate _ e :: rest => e.isNone && statusWritesSucceeded rest
  | _ :: rest => statusWritesSucceeded rest

/-- The error of the last driver call of the pass, when that call is a
Promote, a Demote or a Resync which the driver answered with an error. -/
def replicationFailure (tr : List Event) : Option GoError :=
  match (driverEvents tr).getLast? with
  | some cr => if cr.1.isReplication then cr.2.Error else none
  | none => none

/-- The force flags of the Resync calls of the pass, in order. -/
def resyncForces : List Event → List Bool
  | [] => []
  | Event.rpc (Call.ResyncVolume _ _ force _ _) _ :: rest => force :: resyncForces rest
  | _ :: rest => resyncForces rest

/-- The last driver call of the pass is a Resync which the driver answered
with success and `ready = false`. -/
def resyncNotReady (tr : List Event) : Bool :=
  match (driverEvents tr).getLast? with
  | some (Call.ResyncVolume _ _ _ _ _, r) =>
    r.Error.isNone && (r.Response == Payload.ResyncVolumeResponse false)
  | _ => false

/-- A pass that stops before `reconcileReplication` talks to the driver with
Disable at most. -/
def OnlyDisable (tr : List Event) : Prop :=
  ∀ c ∈ driverCalls tr, ∃ s i x p, c = Call.DisableVolumeReplication s i x p

/-- The shape of a pass that reaches `reconcileReplication` on the intent
`inst0`: the object is live and nothing was said to the driver yet. -/
def ReachesReplication (env : Env) (inst0 : VolumeReplication) (out : Outcome) : Prop :=
  inst0.DeletionTimestamp = none ∧
    ∃ fin tr src handle parameters secret, driverCalls tr = [] ∧
      out = reconcileReplication env tr { inst0 with Finalizers := fin } src handle parameters secret

/-- The shape of a pass in which Enable succeeded, on the intent `inst0`: the
object is live, Enable is the one driver call made so far, and the pass is
the switch on the desired state, run on the intent with its finalizers and
its start time set. -/
def ReachesDesiredState (env : Env) (inst0 : VolumeReplication) (out : Outcome) : Prop :=
  inst0.DeletionTimestamp = none ∧
    ∃ fin t tr src handle parameters secret r,
      driverEvents tr = [(Call.EnableVolumeReplication src handle secret parameters, r)] ∧
      r.Error = none ∧
      out = reconcileDesiredState env tr
        (VolumeReplication.withLastStartTime { inst0 with Finalizers := fin } t)
        src handle parameters secret

/-! ## Concrete collaborators, used to run the model -/

/-- An intent on the claim `pvc` of namespace `ns`, generation 2, never
reconciled before, with the given desired state, observed state, autoResync
flag and conditions. -/
def sampleIntent (desired : ReplicationState) (observed : State) (autoResync : Bool) :
    VolumeReplication :=
  { Name := "vr", Namespace := "ns", Generation := 2, DeletionTimestamp := none,
    Finalizers := [],
    Spec := { VolumeReplicationClass := "class", ReplicationState := desired,
              DataSource := { Kind := "PersistentVolumeClaim", Name := "pvc" },
              AutoResync := autoResync, ReplicationHandle := "" },
    Status := { State := observed } }

/-- The name under which `sampleIntent` is stored. -/
def sampleRequest : NamespacedName := { Name := "vr", Namespace := "ns" }

/-- An object store holding one intent, its class (owned by the driver
`driver`, no parameters) and a bound claim with volume handle `handle`; every
write succeeds; the driver client is the argument. -/
def sampleEnv (intent : VolumeReplication) (client : List Event → Call → Response) : Env :=
  { DriverName := "driver"
    getInstance := fun _ => Except.ok intent
    getClass := fun _ => Except.ok { Name := "class", Spec := { Provisioner := "driver", Parameters := [] } }
    getVolumeGroup := fun _ => Except.error { text := "not found", notFound := true }
    getVolumeGroupContent := fun _ => Except.error { text := "not found", notFound := true }
    getPVCDataSource := fun _ =>
      Except.ok ({ Name := "pvc", Namespace := "ns", Finalizers := [] }, { Name := "pv", CSI := some "handle" })
    getSecret := fun _ _ => Except.ok []
    validatePrefixedParameters := fun _ => none
    filterPrefixedParameters := fun m => m
    prefixedReplicationSecretNameKey := "replication.storage.openshift.io/replication-secret-name"
    prefixedReplicationSecretNamespaceKey := "replication.storage.openshift.io/replication-secret-namespace"
    stateString := fun
      | ReplicationState.Primary => "primary"
      | ReplicationState.Secondary => "secondary"
      | ReplicationState.Resync => "resync"
      | ReplicationState.other raw => raw
    client := client
    update := fun _ _ => none
    statusUpdate := fun _ _ => none
    now := fun tr => tr.length }

/-- A driver that answers every call with success; Resync reports `ready`. -/
def healthyClient (ready : Bool) : List Event → Call → Response :=
  fun _ c =>
    match c with
    | Call.ResyncVolume _ _ _ _ _ => { Response := Payload.ResyncVolumeResponse ready, Error := none }
    | _ => { Response := Payload.other, Error := none }

/-- The gRPC status error with the given code. -/
def statusError (code : Code) : GoError :=
  { text := "rpc error", status := some (code, "refused") }

/-- A driver that refuses every unforced Promote with the given error and
answers every other call with success. -/
def refusingPromoteClient (err : GoError) : List Event → Call → Response :=
  fun _ c =>
    match c with
    | Call.PromoteVolume _ _ false _ _ => { Response := Payload.other, Error := some err }
    | _ => { Response := Payload.other, Error := none }

/-- A driver that refuses every Promote, forced or not, with
FailedPrecondition. -/
def alwaysRefusingPromoteClient : List Event → Call → Response :=
  fun _ c =>
    match c with
    | Call.PromoteVolume _ _ _ _ _ =>
      { Response := Payload.other, Error := some (statusError codes.FailedPrecondition) }
    | _ => { Response := Payload.other, Error := none }

/-- A driver that refuses the first Promote of a pass with FailedPrecondition
and answers every other call with success. -/
def refusingOnceClient : List Event → Call → Response :=
  fun tr c =>
    match c with
    | Call.PromoteVolume _ _ _ _ _ =>
      if (driverCalls tr).any Call.isReplication then { Response := Payload.other, Error := none }
      else { Response := Payload.other, Error := some (statusError codes.FailedPrecondition) }
    | _ => { Response := Payload.other, Error := none }

/-- A driver whose Demote fails with the given error; every other call
succeeds and Resync reports ready. -/
def failingDemoteClient (err : GoError) : List Event → Call → Response :=
  fun _ c =>
    match c with
    | Call.DemoteVolume _ _ _ _ => { Response := Payload.other, Error := some err }
    | Call.ResyncVolume _ _ _ _ _ => { Response := Payload.ResyncVolumeResponse true, Error := none }
    | _ => { Response := Payload.other, Error := none }

/-- The pass on an intent already observed as Secondary, desired Secondary,
autoResync set, against a driver that answers every call with success. -/
def autoResyncPass : Outcome :=
  Reconcile (sampleEnv (sampleIntent ReplicationState.Secondary State.SecondaryState true)
    (healthyClient true)) sampleRequest

/-- The pass on an intent already observed as Secondary, desired Secondary,
autoResync set, against a driver whose Demote fails with the gRPC code
Internal (13). -/
def failedDemotePass : Outcome :=
  Reconcile (sampleEnv (sampleIntent ReplicationState.Secondary State.SecondaryState true)
    (failingDemoteClient (statusError 13))) sampleRequest

/-- The pass on an intent never reconciled before (empty observed state),
desired Resync, against a driver whose Resync reports not ready. -/
def firstResyncPass : Outcome :=
  Reconcile (sampleEnv (sampleIntent ReplicationState.Resync State.empty false)
    (healthyClient false)) sampleRequest

/-- The pass on an intent whose desired state is the unsupported value
"paused", against a driver that answers every call with success. -/
def unsupportedStatePass : Outcome :=
  Reconcile (sampleEnv (sampleIntent (ReplicationState.other "paused") State.empty false)
    (healthyClient true)) sampleRequest

/-! ## More concrete collaborators -/

/-- The store of `sampleEnv`, except that the class of the intent belongs to
the driver `other-driver`. -/
def foreignClassEnv (intent : VolumeReplication) (client : List Event → Call → Response) : Env :=
  { sampleEnv intent client with
    getClass := fun _ =>
      Except.ok { Name := "class", Spec := { Provisioner := "other-driver", Parameters := [] } } }

/-- The store of `sampleEnv`, except that the parameters of the class are
refused by `validatePrefixedParameters`. -/
def invalidParametersEnv (intent : VolumeReplication) (client : List Event → Call → Response) :
    Env :=
  { sampleEnv intent client with
    validatePrefixedParameters := fun _ => some (GoError.new "unknown parameter key") }

/-- An intent like `sampleIntent` whose data source has the unsupported kind
`Snapshot`. -/
def snapshotIntent (desired : ReplicationState) : VolumeReplication :=
  { Name := "vr", Namespace := "ns", Generation := 2, DeletionTimestamp := none,
    Finalizers := [],
    Spec := { VolumeReplicationClass := "class", ReplicationState := desired,
              DataSource := { Kind := "Snapshot", Name := "snap" },
              AutoResync := false, ReplicationHandle := "" },
    Status := {} }

/-- A driver whose Enable fails with the given error; every other call
succeeds. -/
def failingEnableClient (err : GoError) : List Event → Call → Response :=
  fun _ c =>
    match c with
    | Call.EnableVolumeReplication _ _ _ _ => { Response := Payload.other, Error := some err }
    | _ => { Response := Payload.other, Error := none }

/-- The pass on an intent whose class belongs to another driver. -/
def foreignClassPass : Outcome :=
  Reconcile (foreignClassEnv (sampleIntent ReplicationState.Primary State.empty false)
    (healthyClient true)) sampleRequest

/-- The pass on an intent whose class parameters are refused. -/
def invalidParametersPass : Outcome :=
  Reconcile (invalidParametersEnv (sampleIntent ReplicationState.Primary State.empty false)
    (healthyClient true)) sampleRequest

/-- The pass on an intent whose data source has the kind `Snapshot` and whose
desired state is the unsupported value "paused". -/
def snapshotPass : Outcome :=
  Reconcile (sampleEnv (snapshotIntent (ReplicationState.other "paused")) (healthyClient true))
    sampleRequest

/-- The pass on an intent never reconciled before (generation 2, observed
generation 0, empty observed state), desired Primary, against a driver whose
Enable fails with the gRPC code Internal (13). -/
def failedEnablePass : Outcome :=
  Reconcile (sampleEnv (sampleIntent ReplicationState.Primary State.empty false)
    (failingEnableClient (statusError 13))) sampleRequest

/-! ## Reading a trace: writes, and the Enable and Disable calls -/

/-- The writes of the pass through `r.Client.Update`, with their answers, in
order. -/
def storeWrites : List Event → List (Object × Option GoError)
  | [] => []
  | Event.update o e :: rest => (o, e) :: storeWrites rest
  | _ :: rest => storeWrites rest

/-- The writes of the pass to the status sub-resource, with their answers, in
order. -/
def statusWrites : List Event → List (VolumeReplication × Option GoError)
  | [] => []
  | Event.statusUpdate o e :: rest => (o, e) :: statusWrites rest
  | _ :: rest => statusWrites rest

/-- The pass wrote the status at least once. -/
def statusWritten (tr : List Event) : Bool :=
  !(statusWrites tr).isEmpty

/-- No write through `r.Client.Update` was answered with an error. -/
def updatesSucceeded (tr : List Event) : Bool :=
  (storeWrites tr).all (fun w => w.2.isNone)

/-- Whether the call is a Disable. -/
def Call.isDisable : Call → Bool
  | Call.DisableVolumeReplication _ _ _ _ => true
  | _ => false

/-- The pass called Disable and the driver answered with a gRPC NotFound. -/
def disableNotFound (tr : List Event) : Bool :=
  (driverEvents tr).any (fun cr =>
    cr.1.isDisable && cr.2.HasKnownGRPCError disableReplicationKnownErrors)

/-- The pass called Disable and the driver answered with success or with a
gRPC NotFound. -/
def disableAccepted (tr : List Event) : Bool :=
  (driverEvents tr).any (fun cr =>
    cr.1.isDisable && (cr.2.Error.isNone || cr.2.HasKnownGRPCError disableReplicationKnownErrors))

/-- The error of the first Disable call of the pass that the driver answered
with an error other than a gRPC NotFound. -/
def disableFailure (tr : List Event) : Option GoError :=
  (driverEvents tr).findSome? (fun cr =>
    if cr.1.isDisable && !(cr.2.HasKnownGRPCError disableReplicationKnownErrors) then cr.2.Error
    else none)

/-- The error of the first Enable call of the pass that the driver answered
with an error. -/
def enableFailure (tr : List Event) : Option GoError :=
  (driverEvents tr).findSome? (fun cr => if cr.1.isEnable then cr.2.Error else none)

/-- The failure condition that goes with a desired state, for the three
supported states. -/
def failureKind : ReplicationState → Option ConditionKind
  | ReplicationState.Primary => some ConditionKind.FailedPromotion
  | ReplicationState.Secondary => some ConditionKind.FailedDemotion
  | ReplicationState.Resync => some ConditionKind.FailedResync
  | ReplicationState.other _ => none

/-- Every event of the trace is a write through `r.Client.Update`. -/
def OnlyUpdates (tr : List Event) : Prop :=
  ∀ ev ∈ tr, ∃ o e, ev = Event.update o e

/-- What lines 158-197 resolved the data source of the intent to: the claim
and no group, or the group and no claim. -/
def ResolvedDataSource (env : Env) (req : NamespacedName) (inst : VolumeReplication)
    (pvc : Option PersistentVolumeClaim) (vg : Option VolumeGroup) : Prop :=
  (inst.Spec.DataSource.Kind = pvcDataSource ∧ vg = none ∧
    ∃ c pv, env.getPVCDataSource
        { Name := inst.Spec.DataSource.Name, Namespace := req.Namespace } = Except.ok (c, pv) ∧
      pvc = some c)
  ∨ (inst.Spec.DataSource.Kind = volumeGroupDataSource ∧ pvc = none ∧
    ∃ g, env.getVolumeGroup
        { Name := inst.Spec.DataSource.Name, Namespace := req.Namespace } = Except.ok g ∧
      vg = some g)

/-- The shape of a pass that got through the resolution of class, secret and
data source: it is the finalizer phase, run on the intent as fetched with an
empty trace. -/
def ReachesFinalizers (env : Env) (req : NamespacedName) (inst0 : VolumeReplication)
    (out : Outcome) : Prop :=
  ∃ pvc vg src handle parameters secret,
    ResolvedDataSource env req inst0 pvc vg ∧
    out = reconcileFinalizers env [] inst0 pvc vg src handle parameters secret

/-- The shape of a pass that ended during resolution: it returned an empty
result or panicked, and it did nothing at all or recorded the failure in the
status and nothing else. -/
def EndsInResolution (env : Env) (inst0 : VolumeReplication) (out : Outcome) : Prop :=
  (out.exit = Exit.panicked ∨ ∃ err, out.exit = Exit.returned {} err) ∧
    ((out.trace = [] ∧ out.inst = some inst0) ∨
      ∃ msg, out.inst = some (recordFailure env [] inst0 msg).inst ∧
        out.trace = (recordFailure env [] inst0 msg).trace)

/-! ## Collaborators for the deletion of an intent -/

/-- An intent like `sampleIntent`, desired and observed as Primary, marked for
deletion at time 7, that carries the given finalizers. -/
def deletedIntent (finalizers : List String) : VolumeReplication :=
  { sampleIntent ReplicationState.Primary State.PrimaryState false with
    DeletionTimestamp := some 7, Finalizers := finalizers }

/-- The store of `sampleEnv`, except that the bound claim carries the given
finalizers. -/
def claimEnv (intent : VolumeReplication) (claimFinalizers : List String)
    (client : List Event → Call → Response) : Env :=
  { sampleEnv intent client with
    getPVCDataSource := fun _ =>
      Except.ok ({ Name := "pvc", Namespace := "ns", Finalizers := claimFinalizers },
        { Name := "pv", CSI := some "handle" }) }

/-- A driver whose Disable fails with the given error; every other call
succeeds. -/
def failingDisableClient (err : GoError) : List Event → Call → Response :=
  fun _ c =>
    match c with
    | Call.DisableVolumeReplication _ _ _ _ => { Response := Payload.other, Error := some err }
    | _ => { Response := Payload.other, Error := none }

/-- The pass on an intent marked for deletion that carries the intent
finalizer, on a claim that carries the claim finalizer, against a driver whose
Disable answers with the gRPC code NotFound. -/
def notFoundDisablePass : Outcome :=
  Reconcile (claimEnv (deletedIntent [volumeReplicationFinalizer]) [pvcReplicationFinalizer]
    (failingDisableClient (statusError codes.NotFound))) sampleRequest

/-- The pass on an intent marked for deletion that still carries the intent
finalizer, on a claim whose finalizer an earlier pass has removed already,
against a driver that answers every call with success. -/
def retriedDeletionPass : Outcome :=
  Reconcile (claimEnv (deletedIntent [volumeReplicationFinalizer]) [] (healthyClient true))
    sampleRequest

/-- The pass on an intent marked for deletion that carries the intent
finalizer, on a claim that carries the claim finalizer, against a driver whose
Disable fails with the gRPC code Internal (13). -/
def refusedDisablePass : Outcome :=
  Reconcile (claimEnv (deletedIntent [volumeReplicationFinalizer]) [pvcReplicationFinalizer]
    (failingDisableClient (statusError 13))) sampleRequest

/-- A live intent like `sampleIntent`, desired and observed as Primary, that
carries the intent finalizer already. -/
def protectedIntent : VolumeReplication :=
  { sampleIntent ReplicationState.Primary State.PrimaryState false with
    Finalizers := [volumeReplicationFinalizer] }

/-- The method `addFinalizerToVR` applied twice to `protectedIntent`, with a
store that accepts every write. -/
def addedTwice : OpResult :=
  addFinalizerToVR (sampleEnv protectedIntent (healthyClient true))
    (addFinalizerToVR (sampleEnv protectedIntent (healthyClient true)) [] protectedIntent).trace
    (addFinalizerToVR (sampleEnv protectedIntent (healthyClient true)) [] protectedIntent).inst

/-! ## The four shapes of a pass -/

/-- The shape of a pass that talks to the driver with Disable at most and
writes no status: the intent in memory keeps its generation and its observed
generation. -/
def QuietPass (inst0 : VolumeReplication) (out : Outcome) : Prop :=
  (∀ c ∈ driverCalls out.trace, c.isDisable = true) ∧ statusWrites out.trace = [] ∧
    ∃ i, out.inst = some i ∧ i.Generation = inst0.Generation ∧
      i.Status.ObservedGeneration = inst0.Status.ObservedGeneration

/-- The shape of a pass that ended during resolution with the failure written
to the status of the intent. -/
def ResolutionFailed (env : Env) (inst0 : VolumeReplication) (out : Outcome) : Prop :=
  ∃ msg, out.inst = some (recordFailure env [] inst0 msg).inst ∧
    out.trace = (recordFailure env [] inst0 msg).trace

/-- The shape of a pass in which Enable failed, on the intent `inst0`: the
object is live, nothing but writes through `r.Client.Update` came before the
Enable call, and the pass ends with the failure written to the status. -/
def EnableFailed (env : Env) (inst0 : VolumeReplication) (out : Outcome) : Prop :=
  inst0.DeletionTimestamp = none ∧
    ∃ fin t tr src handle parameters secret r err,
      OnlyUpdates tr ∧ r.Error = some err ∧
      out =
        { exit := Exit.returned {} (some err)
          inst := some (recordFailure env
            (tr ++ [Event.rpc (Call.EnableVolumeReplication src handle secret parameters) r])
            (VolumeReplication.withLastStartTime { inst0 with Finalizers := fin } t)
            (GetMessageFromError err)).inst
          trace := (recordFailure env
            (tr ++ [Event.rpc (Call.EnableVolumeReplication src handle secret parameters) r])
            (VolumeReplication.withLastStartTime { inst0 with Finalizers := fin } t)
            (GetMessageFromError err)).trace }

/-! ## Collaborators for the resolution of class and volume group -/

/-- The store of `sampleEnv`, except that it holds no class: every lookup of
a class is answered with a NotFound error. -/
def missingClassEnv (intent : VolumeReplication) (client : List Event → Call → Response) : Env :=
  { sampleEnv intent client with
    getClass := fun _ => Except.error { text := "class not found", notFound := true } }

/-- An intent like `sampleIntent`, desired Primary, whose data source is the
volume group `group`. -/
def groupIntent : VolumeReplication :=
  { Name := "vr", Namespace := "ns", Generation := 2, DeletionTimestamp := none,
    Finalizers := [],
    Spec := { VolumeReplicationClass := "class", ReplicationState := ReplicationState.Primary,
              DataSource := { Kind := "VolumeGroup", Name := "group" },
              AutoResync := false, ReplicationHandle := "" },
    Status := {} }

/-- The store of `sampleEnv` on `groupIntent`, holding the volume group `group`
with the given content reference, and the content `content` with the handle
`group-handle`. -/
def groupEnv (contentName : Option String) (client : List Event → Call → Response) : Env :=
  { sampleEnv groupIntent client with
    getVolumeGroup := fun _ =>
      Except.ok { Name := "group", Namespace := "ns", Finalizers := [],
                  VolumeGroupContentName := contentName }
    getVolumeGroupContent := fun key =>
      if key.Name = "content" then Except.ok { Name := "content", VolumeGroupHandle := "group-handle" }
      else Except.error { text := "content not found", notFound := true } }

/-- The pass on `groupIntent` when the content reference of the group is
unset. -/
def unboundGroupPass : Outcome :=
  Reconcile (groupEnv none (healthyClient true)) sampleRequest

/-! ## Finalizers in place -/

/-- The finalizers of a live intent are in place after the writes `pre`: the
intent carried its finalizer already or the write that appends it is in `pre`
and was accepted, and the same for the claim and for the volume group the
intent refers to. -/
def FinalizersEnsured (inst : VolumeReplication) (pvc : Option PersistentVolumeClaim)
    (vg : Option VolumeGroup) (pre : List Event) : Prop :=
  (contains inst.Finalizers volumeReplicationFinalizer = true ∨
      Event.update (Object.vr
        { inst with Finalizers := inst.Finalizers ++ [volumeReplicationFinalizer] }) none ∈ pre)
  ∧ (∀ c, pvc = some c → contains c.Finalizers pvcReplicationFinalizer = true ∨
      Event.update (Object.pvc
        { c with Finalizers := c.Finalizers ++ [pvcReplicationFinalizer] }) none ∈ pre)
  ∧ (∀ g, vg = some g → contains g.Finalizers vgReplicationFinalizer = true ∨
      Event.update (Object.vg
        { g with Finalizers := g.Finalizers ++ [vgReplicationFinalizer] }) none ∈ pre)

/-! ## Full success, and more passes to run -/

/-- The answer completes the state operation: a Promote that the driver
answered with success, or a Resync that it answered with success and
`ready = true`. -/
def Call.completes (c : Call) (r : Response) : Bool :=
  match c with
  | Call.PromoteVolume _ _ _ _ _ => r.Error.isNone
  | Call.ResyncVolume _ _ _ _ _ =>
    r.Error.isNone && (r.Response == Payload.ResyncVolumeResponse true)
  | _ => false

/-- The last driver call of the pass completes the state operation. -/
def replicationDone (tr : List Event) : Bool :=
  match (driverEvents tr).getLast? with
  | some cr => cr.1.completes cr.2
  | none => false

/-- The pass on a never-reconciled intent, desired Primary, against a driver
that answers every call with success. -/
def promotedPass : Outcome :=
  Reconcile (sampleEnv (sampleIntent ReplicationState.Primary State.empty false)
    (healthyClient true)) sampleRequest

/-- The store of `sampleEnv`, except that every write of a claim is refused
with the error "conflict". -/
def refusingClaimWritesEnv (intent : VolumeReplication)
    (client : List Event → Call → Response) : Env :=
  { sampleEnv intent client with
    update := fun _ o =>
      match o with
      | Object.pvc _ => some (GoError.new "conflict")
      | _ => none }

/-- The pass on a never-reconciled intent, desired Primary, when the store
refuses the write that adds the finalizer of the claim. -/
def refusedClaimWritePass : Outcome :=
  Reconcile (refusingClaimWritesEnv (sampleIntent ReplicationState.Primary State.empty false)
    (healthyClient true)) sampleRequest

/-! ## The trace -/

@[simp] theorem driverCalls_nil : driverCalls [] = [] := rfl

@[simp] theorem driverCalls_rpc (c : Call) (r : Response) (rest : List Event) :
    driverCalls (Event.rpc c r :: rest) = c :: driverCalls rest := rfl

@[simp] theorem driverCalls_update (o : Object) (e : Option GoError) (rest : List Event) :
    driverCalls (Event.update o e :: rest) = driverCalls rest := rfl

@[simp] theorem driverCalls_statusUpdate (o : VolumeReplication) (e : Option GoError)
    (rest : List Event) : driverCalls (Event.statusUpdate o e :: rest) = driverCalls rest := rfl

@[simp] theorem driverCalls_append (xs ys : List Event) :
    driverCalls (xs ++ ys) = driverCalls xs ++ driverCalls ys := by
  induction xs with
  | nil => rfl
  | cons x rest ih => cases x <;> simp [ih]

theorem mem_driverCalls_of_mem {c : Call} {r : Response} {tr : List Event}
    (h : Event.rpc c r ∈ tr) : c ∈ driverCalls tr := by
  induction tr with
  | nil => cases h
  | cons x rest ih =>
    rcases List.mem_cons.mp h with hx | hx
    · subst hx; simp
    · cases x <;> simp [ih hx]

theorem not_mem_of_driverCalls_nil {c : Call} {r : Response} {tr : List Event}
    (h : driverCalls tr = []) : Event.rpc c r ∉ tr := by
  intro hm
  have := mem_driverCalls_of_mem hm
  rw [h] at this
  cases this

/-! ## Error classification -/

theorem codeAmong_iff (code : Code) (known : List Code) :
    codeAmong code known = true ↔ code ∈ known := by
  induction known with
  | nil => simp [codeAmong]
  | cons e rest ih =>
    by_cases h : code = e
    · simp [codeAmong, h]
    · simp [codeAmong, h, ih]

theorem hasKnownGRPCError_eq_true_iff (r : Response) (knownErrors : List Code) :
    r.HasKnownGRPCError knownErrors = true ↔
      ∃ err code message, r.Error = some err ∧ err.status = some (code, message) ∧
        code ∈ knownErrors := by
  unfold Response.HasKnownGRPCError
  cases hE : r.Error with
  | none => simp
  | some err =>
    cases hs : err.status with
    | none => simp [hs]
    | some s =>
      obtain ⟨code, message⟩ := s
      simp [hs, codeAmong_iff]

/-- C3: `HasKnownGRPCError` answers true exactly when the response carries an
error that is a gRPC status error whose code is one of the known codes; it
answers false for a nil error, for every error that is not a gRPC status
error whatever the known codes, and for every response when no code is
known. -/
theorem HasKnownGRPCError_iff (r : Response) (knownErrors : List Code) :
    (r.HasKnownGRPCError knownErrors = true ↔
      ∃ err code message, r.Error = some err ∧ err.status = some (code, message) ∧
        code ∈ knownErrors)
    ∧ (∀ p : Payload, Response.HasKnownGRPCError { Response := p, Error := none } knownErrors = false)
    ∧ (∀ (p : Payload) (text : String) (nf : Bool),
        Response.HasKnownGRPCError
          { Response := p, Error := some { text := text, status := none, notFound := nf } }
          knownErrors = false)
    ∧ r.HasKnownGRPCError [] = false := by
  refine ⟨hasKnownGRPCError_eq_true_iff r knownErrors, ?_, ?_, ?_⟩
  · intro p; rfl
  · intro p text nf; rfl
  · cases h : r.HasKnownGRPCError [] with
    | false => rfl
    | true =>
      obtain ⟨_, _, _, _, _, hmem⟩ := (hasKnownGRPCError_eq_true_iff r []).mp h
      cases hmem

/-! ## Promotion -/

theorem hasKnown_promotion (r : Response) :
    r.HasKnownGRPCError volumePromotionKnownErrors = true ↔
      ∃ err message, r.Error = some err ∧ err.status = some (codes.FailedPrecondition, message) := by
  rw [hasKnownGRPCError_eq_true_iff]
  simp [volumePromotionKnownErrors]

theorem hasKnown_promotion_false (r : Response) :
    r.HasKnownGRPCError volumePromotionKnownErrors = false ↔
      ∀ err message, r.Error = some err → err.status ≠ some (codes.FailedPrecondition, message) := by
  rw [← Bool.not_eq_true, hasKnown_promotion]
  constructor
  · intro h err message he hs
    exact h ⟨err, message, he, hs⟩
  · rintro h ⟨err, message, he, hs⟩
    exact h err message he hs

/-- C1: when the first, unforced Promote is refused with the gRPC code
FailedPrecondition and the forced Promote that follows it succeeds (nothing is
asked of a further unforced Promote), markVolumeAsPrimary
makes exactly two Promote calls, the second one forced, records the Promoted
condition with the generation of the object and no failed-promotion condition,
and returns nil. -/
theorem markVolumeAsPrimary_force_fallback (env : Env) (tr : List Event) (vr : VolumeReplication)
    (src : Option ReplicationSource) (id : String) (parameters secrets : StringMap)
    (err : GoError) (message : String)
    (hfirst : (env.client tr (Call.PromoteVolume src id false secrets parameters)).Error = some err)
    (hcode : err.status = some (codes.FailedPrecondition, message))
    (hsecond :
      (env.client
        (tr ++ [Event.rpc (Call.PromoteVolume src id false secrets parameters)
          (env.client tr (Call.PromoteVolume src id false secrets parameters))])
        (Call.PromoteVolume src id true secrets parameters)).Error = none) :
    (∃ r1 r2, (markVolumeAsPrimary env tr vr src id parameters secrets).trace =
        tr ++ [Event.rpc (Call.PromoteVolume src id false secrets parameters) r1,
               Event.rpc (Call.PromoteVolume src id true secrets parameters) r2])
    ∧ (markVolumeAsPrimary env tr vr src id parameters secrets).inst.Status.Conditions =
        vr.Status.Conditions ++ [{ kind := ConditionKind.Promoted, observedGeneration := vr.Generation }]
    ∧ (∀ g, ({ kind := ConditionKind.FailedPromotion, observedGeneration := g } : Condition) ∉
        (markVolumeAsPrimary env tr vr src id parameters secrets).inst.Status.Conditions.drop
          vr.Status.Conditions.length)
    ∧ (markVolumeAsPrimary env tr vr src id parameters secrets).err = none := by
  have hk : (env.client tr (Call.PromoteVolume src id false secrets parameters)).HasKnownGRPCError
      volumePromotionKnownErrors = true :=
    (hasKnown_promotion _).mpr ⟨err, message, hfirst, hcode⟩
  simp [markVolumeAsPrimary, Replication.Promote, Env.invoke, hfirst, hk, hsecond,
    VolumeReplication.withConditions, setPromotedCondition, setCondition]

/-- C2: markVolumeAsPrimary issues the forced Promote exactly when the first,
unforced Promote failed with the gRPC code FailedPrecondition.  For every
other failure of the first call there is that one Promote call only, the
failed-promotion condition is recorded, the Promoted condition is not, and
the error is returned.  There are never more than two Promote calls: a forced
retry that fails, whatever its error, is returned with the failed-promotion
condition recorded and no further call. -/
theorem markVolumeAsPrimary_failure_policy (env : Env) (tr : List Event) (vr : VolumeReplication)
    (src : Option ReplicationSource) (id : String) (parameters secrets : StringMap) :
    ((∃ r1, (markVolumeAsPrimary env tr vr src id parameters secrets).trace =
        tr ++ [Event.rpc (Call.PromoteVolume src id false secrets parameters) r1])
      ∨ (∃ r1 r2, (markVolumeAsPrimary env tr vr src id parameters secrets).trace =
        tr ++ [Event.rpc (Call.PromoteVolume src id false secrets parameters) r1,
               Event.rpc (Call.PromoteVolume src id true secrets parameters) r2]))
    ∧ (Call.PromoteVolume src id true secrets parameters ∈
          driverCalls ((markVolumeAsPrimary env tr vr src id parameters secrets).trace.drop tr.length)
        ↔ ∃ err message,
            (env.client tr (Call.PromoteVolume src id false secrets parameters)).Error = some err ∧
            err.status = some (codes.FailedPrecondition, message))
    ∧ (∀ err,
        (env.client tr (Call.PromoteVolume src id false secrets parameters)).Error = some err →
        (∀ message, err.status ≠ some (codes.FailedPrecondition, message)) →
        (markVolumeAsPrimary env tr vr src id parameters secrets).trace =
            tr ++ [Event.rpc (Call.PromoteVolume src id false secrets parameters)
              (env.client tr (Call.PromoteVolume src id false secrets parameters))]
          ∧ (markVolumeAsPrimary env tr vr src id parameters secrets).inst.Status.Conditions =
            vr.Status.Conditions ++
              [{ kind := ConditionKind.FailedPromotion, observedGeneration := vr.Generation }]
          ∧ (markVolumeAsPrimary env tr vr src id parameters secrets).err = some err)
    ∧ (∀ r1 r2 err2,
        (markVolumeAsPrimary env tr vr src id parameters secrets).trace =
          tr ++ [Event.rpc (Call.PromoteVolume src id false secrets parameters) r1,
                 Event.rpc (Call.PromoteVolume src id true secrets parameters) r2] →
        r2.Error = some err2 →
        (markVolumeAsPrimary env tr vr src id parameters secrets).err = some err2
          ∧ (markVolumeAsPrimary env tr vr src id parameters secrets).inst.Status.Conditions =
            vr.Status.Conditions ++
              [{ kind := ConditionKind.FailedPromotion, observedGeneration := vr.Generation }]) := by
  cases hE : (env.client tr (Call.PromoteVolume src id false secrets parameters)).Error with
  | none =>
    simp [markVolumeAsPrimary, Replication.Promote, Env.invoke, hE,
      VolumeReplication.withConditions, setPromotedCondition, setCondition]
  | some err =>
    cases hk : (env.client tr (Call.PromoteVolume src id false secrets parameters)).HasKnownGRPCError
        volumePromotionKnownErrors with
    | false =>
      have hno := (hasKnown_promotion_false _).mp hk
      have hno2 : ∀ message, err.status ≠ some (codes.FailedPrecondition, message) :=
        fun message => hno err message hE
      simp [markVolumeAsPrimary, Replication.Promote, Env.invoke, hE, hk,
        VolumeReplication.withConditions, setFailedPromotionCondition, setCondition]
      intro x hx
      exact absurd hx (hno2 x)
    | true =>
      obtain ⟨err1, message, he1, hs1⟩ := (hasKnown_promotion _).mp hk
      have hee : err1 = err := by rw [hE] at he1; exact (Option.some.inj he1).symm
      subst hee
      cases hE2 : (env.client
          (tr ++ [Event.rpc (Call.PromoteVolume src id false secrets parameters)
            (env.client tr (Call.PromoteVolume src id false secrets parameters))])
          (Call.PromoteVolume src id true secrets parameters)).Error with
      | none =>
        simp [markVolumeAsPrimary, Replication.Promote, Env.invoke, hE, hk, hE2, hs1,
          VolumeReplication.withConditions, setPromotedCondition, setCondition]
        intro r1 r2 err2 h1 h2 h3
        subst h2
        rw [hE2] at h3
        cases h3
      | some e2 =>
        simp [markVolumeAsPrimary, Replication.Promote, Env.invoke, hE, hk, hE2, hs1,
          VolumeReplication.withConditions, setFailedPromotionCondition, setCondition]
        intro r1 r2 err2 h1 h2 h3
        subst h2
        rw [hE2] at h3
        exact Option.some.inj h3

/-! ## Reconcile before Enable -/

theorem onlyDisable_of_nil {tr : List Event} (h : driverCalls tr = []) : OnlyDisable tr := by
  intro c hc
  rw [h] at hc
  cases hc

theorem recordFailure_calls (env : Env) (tr : List Event) (inst : VolumeReplication) (msg : String) :
    driverCalls (recordFailure env tr inst msg).trace = driverCalls tr := by
  simp [recordFailure, updateReplicationStatus]

theorem addFinalizerToVR_calls (env : Env) (tr : List Event) (vr : VolumeReplication) :
    driverCalls (addFinalizerToVR env tr vr).trace = driverCalls tr := by
  unfold addFinalizerToVR
  dsimp only
  split
  · split <;> simp
  · rfl

theorem addFinalizerToVR_inst (env : Env) (tr : List Event) (vr : VolumeReplication) :
    ∃ fin, (addFinalizerToVR env tr vr).inst = { vr with Finalizers := fin } := by
  unfold addFinalizerToVR
  dsimp only
  split
  · split <;> exact ⟨_, rfl⟩
  · exact ⟨vr.Finalizers, rfl⟩

theorem removeFinalizerFromVR_calls (env : Env) (tr : List Event) (vr : VolumeReplication) :
    driverCalls (removeFinalizerFromVR env tr vr).trace = driverCalls tr := by
  unfold removeFinalizerFromVR
  dsimp only
  split
  · split <;> simp
  · rfl

theorem addFinalizerToPVC_calls (env : Env) (tr : List Event) (pvc : PersistentVolumeClaim) :
    driverCalls (addFinalizerToPVC env tr pvc).2.2 = driverCalls tr := by
  unfold addFinalizerToPVC
  dsimp only
  split
  · split <;> simp
  · rfl

theorem removeFinalizerFromPVC_calls (env : Env) (tr : List Event) (pvc : PersistentVolumeClaim) :
    driverCalls (removeFinalizerFromPVC env tr pvc).2.2 = driverCalls tr := by
  unfold removeFinalizerFromPVC
  dsimp only
  split
  · split <;> simp
  · rfl

theorem addFinalizerToVG_calls (env : Env) (tr : List Event) (vg : VolumeGroup) :
    driverCalls (addFinalizerToVG env tr vg).2.2 = driverCalls tr := by
  unfold addFinalizerToVG
  dsimp only
  split
  · split <;> simp
  · rfl

theorem removeFinalizerFromVG_calls (env : Env) (tr : List Event) (vg : VolumeGroup) :
    driverCalls (removeFinalizerFromVG env tr vg).2.2 = driverCalls tr := by
  unfold removeFinalizerFromVG
  dsimp only
  split
  · split <;> simp
  · rfl

theorem disableVolumeReplication_calls (env : Env) (tr : List Event)
    (src : Option ReplicationSource) (id : String) (parameters secrets : StringMap) :
    driverCalls (disableVolumeReplication env tr src id parameters secrets).2 =
      driverCalls tr ++ [Call.DisableVolumeReplication src id secrets parameters] := by
  unfold disableVolumeReplication
  simp only [Replication.Disable, Env.invoke]
  split
  · split <;> simp
  · simp

/-- What the finalizer phase comes to: the pass ends there having called
Disable at most, or the object is live and the pass goes on with
`reconcileReplication` on the same object, finalizers apart. -/
theorem reconcileFinalizers_cases (env : Env) (tr : List Event) (inst : VolumeReplication)
    (pvc : Option PersistentVolumeClaim) (vg : Option VolumeGroup)
    (src : Option ReplicationSource) (handle : String) (parameters secret : StringMap)
    (htr : driverCalls tr = []) :
    OnlyDisable (reconcileFinalizers env tr inst pvc vg src handle parameters secret).trace
    ∨ (inst.DeletionTimestamp = none ∧ ∃ fin tr1, driverCalls tr1 = [] ∧
        reconcileFinalizers env tr inst pvc vg src handle parameters secret =
          reconcileReplication env tr1 { inst with Finalizers := fin } src handle parameters secret) := by
  unfold reconcileFinalizers
  cases hd : inst.DeletionTimestamp with
  | none =>
    have hA := addFinalizerToVR_calls env tr inst
    obtain ⟨fin, hfin⟩ := addFinalizerToVR_inst env tr inst
    have hP := fun c => addFinalizerToPVC_calls env (addFinalizerToVR env tr inst).trace c
    cases pvc with
    | none =>
      cases vg with
      | none =>
        dsimp only
        split
        · left; exact onlyDisable_of_nil (by simp [hA, htr])
        · right
          exact ⟨rfl, fin, (addFinalizerToVR env tr inst).trace, by simp [hA, htr], by simp only [hfin, hd]⟩
      | some v =>
        have hG := addFinalizerToVG_calls env (addFinalizerToVR env tr inst).trace v
        dsimp only
        split
        · left; exact onlyDisable_of_nil (by simp [hA, htr])
        · split
          · left; exact onlyDisable_of_nil (by simp [hG, hA, htr])
          · right
            exact ⟨rfl, fin, (addFinalizerToVG env (addFinalizerToVR env tr inst).trace v).2.2,
              by simp [hG, hA, htr], by simp only [hfin, hd]⟩
    | some c =>
      cases vg with
      | none =>
        dsimp only
        split
        · left; exact onlyDisable_of_nil (by simp [hA, htr])
        · split
          · left; exact onlyDisable_of_nil (by simp [hP, hA, htr])
          · right
            exact ⟨rfl, fin, (addFinalizerToPVC env (addFinalizerToVR env tr inst).trace c).2.2,
              by simp [hP, hA, htr], by simp only [hfin, hd]⟩
      | some v =>
        have hG := addFinalizerToVG_calls env (addFinalizerToPVC env (addFinalizerToVR env tr inst).trace c).2.2 v
        dsimp only
        split
        · left; exact onlyDisable_of_nil (by simp [hA, htr])
        · split
          · left; exact onlyDisable_of_nil (by simp [hP, hA, htr])
          · split
            · left; exact onlyDisable_of_nil (by simp [hG, hP, hA, htr])
            · right
              exact ⟨rfl, fin, (addFinalizerToVG env (addFinalizerToPVC env (addFinalizerToVR env tr inst).trace c).2.2 v).2.2,
                by simp [hG, hP, hA, htr], by simp only [hfin, hd]⟩
  | some t =>
    left
    have hD := disableVolumeReplication_calls env tr src handle parameters secret
    have hdis : ∀ tr1 : List Event,
        driverCalls tr1 = [Call.DisableVolumeReplication src handle secret parameters] →
        OnlyDisable tr1 := by
      intro tr1 h c hc
      rw [h] at hc
      exact ⟨_, _, _, _, List.mem_singleton.mp hc⟩
    rw [htr, List.nil_append] at hD
    dsimp only
    split
    · split
      · exact hdis _ hD
      · cases pvc with
        | none =>
          cases vg with
          | none =>
            dsimp only
            split <;> exact hdis _ (by simp [removeFinalizerFromVR_calls, hD])
          | some v =>
            dsimp only
            split
            · exact hdis _ (by simp [removeFinalizerFromVG_calls, hD])
            · split <;> exact hdis _ (by simp [removeFinalizerFromVR_calls, removeFinalizerFromVG_calls, hD])
        | some c =>
          cases vg with
          | none =>
            dsimp only
            split
            · exact hdis _ (by simp [removeFinalizerFromPVC_calls, hD])
            · split <;> exact hdis _ (by simp [removeFinalizerFromVR_calls, removeFinalizerFromPVC_calls, hD])
          | some v =>
            dsimp only
            split
            · exact hdis _ (by simp [removeFinalizerFromPVC_calls, hD])
            · split
              · exact hdis _ (by simp [removeFinalizerFromVG_calls, removeFinalizerFromPVC_calls, hD])
              · split <;> exact hdis _ (by simp [removeFinalizerFromVR_calls, removeFinalizerFromVG_calls,
                  removeFinalizerFromPVC_calls, hD])
    · exact onlyDisable_of_nil htr

theorem reconcileSource_cases (env : Env) (inst : VolumeReplication)
    (pvc : Option PersistentVolumeClaim) (vg : Option VolumeGroup) (volumeHandle : String)
    (parameters secret : StringMap) :
    OnlyDisable (reconcileSource env [] inst pvc vg volumeHandle parameters secret).trace
    ∨ ReachesReplication env inst (reconcileSource env [] inst pvc vg volumeHandle parameters secret) := by
  unfold reconcileSource
  split
  · left; exact onlyDisable_of_nil rfl
  · rcases reconcileFinalizers_cases env [] inst pvc vg
        (getReplicationSource inst.Spec.DataSource.Kind volumeHandle).1
        inst.Spec.ReplicationHandle parameters secret rfl with h | ⟨hd, fin, tr1, h1, h2⟩
    · left; exact h
    · right; exact ⟨hd, fin, tr1, _, _, _, _, h1, h2⟩

theorem reconcileDataSource_cases (env : Env) (req : NamespacedName) (inst : VolumeReplication)
    (parameters secret : StringMap) :
    OnlyDisable (reconcileDataSource env req inst parameters secret).trace
    ∨ ReachesReplication env inst (reconcileDataSource env req inst parameters secret) := by
  unfold reconcileDataSource
  dsimp only
  split
  · split
    · left; exact onlyDisable_of_nil (by simp [recordFailure_calls])
    · split
      · left; exact onlyDisable_of_nil rfl
      · exact reconcileSource_cases env inst _ _ _ parameters secret
  · split
    · split
      · left; exact onlyDisable_of_nil rfl
      · left; exact onlyDisable_of_nil (by simp [recordFailure_calls])
      · exact reconcileSource_cases env inst _ _ _ parameters secret
      · left; exact onlyDisable_of_nil rfl
    · left; exact onlyDisable_of_nil (by simp [recordFailure_calls])

/-- Every pass either stops having called Disable at most, or fetched a live
intent and goes on with `reconcileReplication` on it. -/
theorem Reconcile_cases (env : Env) (req : NamespacedName) :
    OnlyDisable (Reconcile env req).trace
    ∨ ∃ inst0, env.getInstance req = Except.ok inst0 ∧
        ReachesReplication env inst0 (Reconcile env req) := by
  unfold Reconcile
  cases hget : env.getInstance req with
  | error err =>
    left
    dsimp only
    split <;> exact onlyDisable_of_nil rfl
  | ok inst =>
    dsimp only
    split
    · left; exact onlyDisable_of_nil (by simp [recordFailure_calls])
    · split
      · left; exact onlyDisable_of_nil rfl
      · split
        · left; exact onlyDisable_of_nil (by simp [recordFailure_calls])
        · split
          · split
            · left; exact onlyDisable_of_nil (by simp [recordFailure_calls])
            · rcases reconcileDataSource_cases env req inst _ _ with h | h
              · left; exact h
              · right; exact ⟨inst, rfl, h⟩
          · rcases reconcileDataSource_cases env req inst _ _ with h | h
            · left; exact h
            · right; exact ⟨inst, rfl, h⟩

/-! ## Reconcile from Enable on -/

@[simp] theorem driverEvents_nil : driverEvents [] = [] := rfl

@[simp] theorem driverEvents_rpc (c : Call) (r : Response) (rest : List Event) :
    driverEvents (Event.rpc c r :: rest) = (c, r) :: driverEvents rest := rfl

@[simp] theorem driverEvents_update (o : Object) (e : Option GoError) (rest : List Event) :
    driverEvents (Event.update o e :: rest) = driverEvents rest := rfl

@[simp] theorem driverEvents_statusUpdate (o : VolumeReplication) (e : Option GoError)
    (rest : List Event) : driverEvents (Event.statusUpdate o e :: rest) = driverEvents rest := rfl

@[simp] theorem driverEvents_append (xs ys : List Event) :
    driverEvents (xs ++ ys) = driverEvents xs ++ driverEvents ys := by
  induction xs with
  | nil => rfl
  | cons x rest ih => cases x <;> simp [ih]

theorem driverCalls_eq_map (tr : List Event) : driverCalls tr = (driverEvents tr).map Prod.fst := by
  induction tr with
  | nil => rfl
  | cons x rest ih => cases x <;> simp [ih]

theorem driverEvents_eq_nil {tr : List Event} (h : driverCalls tr = []) : driverEvents tr = [] := by
  rw [driverCalls_eq_map] at h
  exact List.map_eq_nil_iff.mp h

@[simp] theorem statusWritesSucceeded_nil : statusWritesSucceeded [] = true := rfl

@[simp] theorem statusWritesSucceeded_rpc (c : Call) (r : Response) (rest : List Event) :
    statusWritesSucceeded (Event.rpc c r :: rest) = statusWritesSucceeded rest := rfl

@[simp] theorem statusWritesSucceeded_update (o : Object) (e : Option GoError) (rest : List Event) :
    statusWritesSucceeded (Event.update o e :: rest) = statusWritesSucceeded rest := rfl

@[simp] theorem statusWritesSucceeded_statusUpdate (o : VolumeReplication) (e : Option GoError)
    (rest : List Event) :
    statusWritesSucceeded (Event.statusUpdate o e :: rest) = (e.isNone && statusWritesSucceeded rest) :=
  rfl

@[simp] theorem statusWritesSucceeded_append (xs ys : List Event) :
    statusWritesSucceeded (xs ++ ys) = (statusWritesSucceeded xs && statusWritesSucceeded ys) := by
  induction xs with
  | nil => simp
  | cons x rest ih => cases x <;> simp [ih, Bool.and_assoc]

/-- A pass in which the driver answered some call other than a failed Enable
went through the write of the start time and through Enable, and is the
switch on the desired state run after them. -/
theorem reconcileReplication_enabled (env : Env) (tr : List Event) (inst0 : VolumeReplication)
    (src : Option ReplicationSource) (handle : String) (parameters secret : StringMap)
    (htr : driverCalls tr = [])
    (h : ∃ cr ∈ driverEvents (reconcileReplication env tr inst0 src handle parameters secret).trace,
      cr.1.isEnable = false ∨ cr.2.Error = none) :
    (env.client (tr ++ [Event.update (Object.vr (inst0.withLastStartTime (env.now tr))) none])
        (Call.EnableVolumeReplication src handle secret parameters)).Error = none
    ∧ reconcileReplication env tr inst0 src handle parameters secret =
      reconcileDesiredState env
        (tr ++ [Event.update (Object.vr (inst0.withLastStartTime (env.now tr))) none,
          Event.rpc (Call.EnableVolumeReplication src handle secret parameters)
            (env.client (tr ++ [Event.update (Object.vr (inst0.withLastStartTime (env.now tr))) none])
              (Call.EnableVolumeReplication src handle secret parameters))])
        (inst0.withLastStartTime (env.now tr)) src handle parameters secret := by
  have hev := driverEvents_eq_nil htr
  obtain ⟨cr, hmem, hcr⟩ := h
  unfold reconcileReplication at hmem ⊢
  cases hu : env.update tr (Object.vr (inst0.withLastStartTime (env.now tr))) with
  | some err =>
    simp [hu, hev] at hmem
  | none =>
    cases he : (env.client (tr ++ [Event.update (Object.vr (inst0.withLastStartTime (env.now tr))) none])
        (Call.EnableVolumeReplication src handle secret parameters)).Error with
    | some err =>
      simp [hu, he, hev, enableReplication, Replication.Enable, Env.invoke, recordFailure,
        updateReplicationStatus] at hmem
      subst hmem
      simp [Call.isEnable, he] at hcr
    | none =>
      simp [hu, he, enableReplication, Replication.Enable, Env.invoke]

theorem onlyDisable_absurd {tr : List Event} (h : OnlyDisable tr) {cr : Call × Response}
    (hmem : cr ∈ driverEvents tr)
    (hcr : (cr.1.isEnable = true ∧ cr.2.Error = none) ∨ cr.1.isReplication = true) : False := by
  have hc : cr.1 ∈ driverCalls tr := by
    rw [driverCalls_eq_map]
    exact List.mem_map_of_mem Prod.fst hmem
  obtain ⟨s, i, x, p, hd⟩ := h _ hc
  rw [hd] at hcr
  simp [Call.isEnable, Call.isReplication] at hcr

/-- A pass in which Enable succeeded, or in which Promote, Demote or Resync
was called, fetched a live intent and is the switch on the desired state. -/
theorem Reconcile_enabled (env : Env) (req : NamespacedName)
    (h : ∃ cr ∈ driverEvents (Reconcile env req).trace,
      (cr.1.isEnable = true ∧ cr.2.Error = none) ∨ cr.1.isReplication = true) :
    ∃ inst0, env.getInstance req = Except.ok inst0 ∧
      ReachesDesiredState env inst0 (Reconcile env req) := by
  obtain ⟨cr, hmem, hcr⟩ := h
  rcases Reconcile_cases env req with hd | ⟨inst0, hget, hlive, fin, tr, src, handle, parameters, secret, htr, hout⟩
  · exact absurd (onlyDisable_absurd hd hmem hcr) id
  · refine ⟨inst0, hget, hlive, fin, env.now tr, ?_⟩
    have hex : ∃ cr ∈ driverEvents (reconcileReplication env tr { inst0 with Finalizers := fin }
        src handle parameters secret).trace, cr.1.isEnable = false ∨ cr.2.Error = none := by
      rw [← hout]
      refine ⟨cr, hmem, ?_⟩
      rcases hcr with ⟨_, h2⟩ | h2
      · exact Or.inr h2
      · left
        cases hc : cr.1 <;> simp [hc, Call.isReplication, Call.isEnable] at h2 ⊢
    obtain ⟨he, heq⟩ := reconcileReplication_enabled env tr _ src handle parameters secret htr hex
    refine ⟨_, src, handle, parameters, secret, _, ?_, he, hout.trans heq⟩
    simp [driverEvents_eq_nil htr]

theorem enableSucceeded_exists {tr : List Event} (h : enableSucceeded tr = true) :
    ∃ cr ∈ driverEvents tr, (cr.1.isEnable = true ∧ cr.2.Error = none) ∨ cr.1.isReplication = true := by
  unfold enableSucceeded at h
  obtain ⟨cr, hmem, hcr⟩ := List.any_eq_true.mp h
  simp only [Bool.and_eq_true, Option.isNone_iff_eq_none] at hcr
  exact ⟨cr, hmem, Or.inl hcr⟩

/-! ### What each operation does to the trace and to the intent -/

@[simp] theorem withLastStartTime_Spec (inst : VolumeReplication) (t : Time) :
    (inst.withLastStartTime t).Spec = inst.Spec := rfl

@[simp] theorem withLastStartTime_Generation (inst : VolumeReplication) (t : Time) :
    (inst.withLastStartTime t).Generation = inst.Generation := rfl

@[simp] theorem withLastStartTime_State (inst : VolumeReplication) (t : Time) :
    (inst.withLastStartTime t).Status.State = inst.Status.State := rfl

@[simp] theorem withLastStartTime_Conditions (inst : VolumeReplication) (t : Time) :
    (inst.withLastStartTime t).Status.Conditions = inst.Status.Conditions := rfl

@[simp] theorem withLastStartTime_LastCompletionTime (inst : VolumeReplication) (t : Time) :
    (inst.withLastStartTime t).Status.LastCompletionTime = inst.Status.LastCompletionTime := rfl

@[simp] theorem withConditions_Spec (inst : VolumeReplication) (c : List Condition) :
    (inst.withConditions c).Spec = inst.Spec := rfl

@[simp] theorem withConditions_Generation (inst : VolumeReplication) (c : List Condition) :
    (inst.withConditions c).Generation = inst.Generation := rfl

@[simp] theorem withConditions_State (inst : VolumeReplication) (c : List Condition) :
    (inst.withConditions c).Status.State = inst.Status.State := rfl

@[simp] theorem withConditions_Conditions (inst : VolumeReplication) (c : List Condition) :
    (inst.withConditions c).Status.Conditions = c := rfl

@[simp] theorem withConditions_LastCompletionTime (inst : VolumeReplication) (c : List Condition) :
    (inst.withConditions c).Status.LastCompletionTime = inst.Status.LastCompletionTime := rfl

@[simp] theorem updateReplicationStatus_trace (env : Env) (tr : List Event) (inst : VolumeReplication)
    (state : State) (message : String) :
    (updateReplicationStatus env tr inst state message).trace =
      tr ++ [Event.statusUpdate (updateReplicationStatus env tr inst state message).inst
        (updateReplicationStatus env tr inst state message).err] := rfl

@[simp] theorem updateReplicationStatus_State (env : Env) (tr : List Event) (inst : VolumeReplication)
    (state : State) (message : String) :
    (updateReplicationStatus env tr inst state message).inst.Status.State = state := rfl

@[simp] theorem updateReplicationStatus_Message (env : Env) (tr : List Event) (inst : VolumeReplication)
    (state : State) (message : String) :
    (updateReplicationStatus env tr inst state message).inst.Status.Message = message := rfl

@[simp] theorem updateReplicationStatus_Conditions (env : Env) (tr : List Event)
    (inst : VolumeReplication) (state : State) (message : String) :
    (updateReplicationStatus env tr inst state message).inst.Status.Conditions =
      inst.Status.Conditions := rfl

@[simp] theorem updateReplicationStatus_LastCompletionTime (env : Env) (tr : List Event)
    (inst : VolumeReplication) (state : State) (message : String) :
    (updateReplicationStatus env tr inst state message).inst.Status.LastCompletionTime =
      inst.Status.LastCompletionTime := rfl

@[simp] theorem updateReplicationStatus_ObservedGeneration (env : Env) (tr : List Event)
    (inst : VolumeReplication) (state : State) (message : String) :
    (updateReplicationStatus env tr inst state message).inst.Status.ObservedGeneration =
      inst.Generation := rfl

@[simp] theorem markVolumeAsSecondary_trace (env : Env) (tr : List Event) (inst : VolumeReplication)
    (src : Option ReplicationSource) (id : String) (parameters secrets : StringMap) :
    (markVolumeAsSecondary env tr inst src id parameters secrets).trace =
      tr ++ [Event.rpc (Call.DemoteVolume src id secrets parameters)
        (env.client tr (Call.DemoteVolume src id secrets parameters))] := by
  unfold markVolumeAsSecondary
  simp only [Replication.Demote, Env.invoke]
  split <;> rfl

@[simp] theorem markVolumeAsSecondary_err (env : Env) (tr : List Event) (inst : VolumeReplication)
    (src : Option ReplicationSource) (id : String) (parameters secrets : StringMap) :
    (markVolumeAsSecondary env tr inst src id parameters secrets).err =
      (env.client tr (Call.DemoteVolume src id secrets parameters)).Error := by
  unfold markVolumeAsSecondary
  simp only [Replication.Demote, Env.invoke]
  split <;> simp_all

theorem markVolumeAsSecondary_inst (env : Env) (tr : List Event) (inst : VolumeReplication)
    (src : Option ReplicationSource) (id : String) (parameters secrets : StringMap) :
    (markVolumeAsSecondary env tr inst src id parameters secrets).inst =
      inst.withConditions (inst.Status.Conditions ++
        [{ kind := if (env.client tr (Call.DemoteVolume src id secrets parameters)).Error = none
              then ConditionKind.Demoted else ConditionKind.FailedDemotion,
           observedGeneration := inst.Generation }]) := by
  unfold markVolumeAsSecondary
  simp only [Replication.Demote, Env.invoke]
  split <;> simp_all [setDemotedCondition, setFailedDemotionCondition, setCondition]

@[simp] theorem resyncVolume_trace (env : Env) (tr : List Event) (inst : VolumeReplication)
    (src : Option ReplicationSource) (id : String) (force : Bool) (parameters secrets : StringMap) :
    (resyncVolume env tr inst src id force parameters secrets).trace =
      tr ++ [Event.rpc (Call.ResyncVolume src id force secrets parameters)
        (env.client tr (Call.ResyncVolume src id force secrets parameters))] := by
  unfold resyncVolume
  simp only [Replication.Resync, Env.invoke]
  split
  · rfl
  · split
    · rfl
    · split <;> rfl

theorem reconcileOutcome_trace (env : Env) (tr : List Event) (inst : VolumeReplication)
    (rerr : Option GoError) (requeue : Bool) :
    ∃ i e, (reconcileOutcome env tr inst rerr requeue).trace = tr ++ [Event.statusUpdate i e] := by
  unfold reconcileOutcome
  cases rerr with
  | some err =>
    dsimp only
    split <;> exact ⟨_, _, rfl⟩
  | none =>
    dsimp only
    split
    · exact ⟨_, _, rfl⟩
    · split <;> exact ⟨_, _, rfl⟩

theorem reconcileOutcome_failed (env : Env) (tr : List Event) (inst : VolumeReplication)
    (rerr : GoError) (requeue : Bool) :
    (reconcileOutcome env tr inst (some rerr) requeue).exit =
        (if getCurrentReplicationState inst = State.SecondaryState
          then Exit.returned { Requeue := true, RequeueAfter := Second * 15 } none
          else Exit.returned {} (some rerr))
    ∧ (reconcileOutcome env tr inst (some rerr) requeue).inst =
        some (updateReplicationStatus env tr inst (getCurrentReplicationState inst)
          (GetMessageFromError rerr)).inst
    ∧ (reconcileOutcome env tr inst (some rerr) requeue).trace =
        (updateReplicationStatus env tr inst (getCurrentReplicationState inst)
          (GetMessageFromError rerr)).trace := by
  unfold reconcileOutcome
  dsimp only
  simp only [updateReplicationStatus_State]
  split <;> exact ⟨rfl, rfl, rfl⟩

/-- C4: the first phase of the transition to Secondary.  For an intent whose
desired state is Secondary and whose observed state is not Secondary, in a
pass where Enable succeeded, no Demote failed and no status write failed, the
driver calls are exactly Enable then one Demote (no Resync), the status is
written with state Secondary and the message "volume is marked secondary and
is degraded", and Reconcile asks for a requeue after 15 seconds with a nil
error.  A pass in which Enable succeeded is a pass on an intent that is not
marked for deletion. -/
theorem Reconcile_secondary_first_phase (env : Env) (req : NamespacedName) (inst0 : VolumeReplication)
    (hget : env.getInstance req = Except.ok inst0)
    (hdesired : inst0.Spec.ReplicationState = ReplicationState.Secondary)
    (hstate : inst0.Status.State ≠ State.SecondaryState)
    (hen : enableSucceeded (Reconcile env req).trace = true)
    (hdem : noDemoteFailed (Reconcile env req).trace = true)
    (hst : statusWritesSucceeded (Reconcile env req).trace = true) :
    (∃ src id secrets params, driverCalls (Reconcile env req).trace =
        [Call.EnableVolumeReplication src id secrets params, Call.DemoteVolume src id secrets params])
    ∧ (∃ inst, (Reconcile env req).inst = some inst
        ∧ inst.Status.State = State.SecondaryState
        ∧ inst.Status.Message = "volume is marked secondary and is degraded"
        ∧ Event.statusUpdate inst none ∈ (Reconcile env req).trace)
    ∧ (Reconcile env req).exit =
        Exit.returned { Requeue := true, RequeueAfter := Second * 15 } none
    ∧ inst0.DeletionTimestamp = none := by
  obtain ⟨inst1, hget1, hlive, fin, t, tr, src, handle, parameters, secret, r, hev, hr, hout⟩ :=
    Reconcile_enabled env req (enableSucceeded_exists hen)
  have hi : inst1 = inst0 := by rw [hget] at hget1; exact (Except.ok.inj hget1).symm
  subst hi
  rw [hout] at hdem hst ⊢
  have hcalls : driverCalls tr = [Call.EnableVolumeReplication src handle secret parameters] := by
    rw [driverCalls_eq_map, hev]; rfl
  unfold reconcileDesiredState at hdem hst ⊢
  simp only [withLastStartTime_Spec, withLastStartTime_State, hdesired, hstate, ne_eq,
    not_false_eq_true, if_true, markVolumeAsSecondary_err, markVolumeAsSecondary_trace] at hdem hst ⊢
  cases hd : (env.client tr (Call.DemoteVolume src handle secret parameters)).Error with
  | some err =>
    exfalso
    simp only [hd] at hdem
    obtain ⟨i, e, htrace⟩ := reconcileOutcome_trace env
      (tr ++ [Event.rpc (Call.DemoteVolume src handle secret parameters)
        (env.client tr (Call.DemoteVolume src handle secret parameters))])
      (markVolumeAsSecondary env tr
        (VolumeReplication.withLastStartTime { inst1 with Finalizers := fin } t)
        src handle parameters secret).inst (some err) false
    rw [htrace] at hdem
    simp [noDemoteFailed, hev, hd, Call.isEnable] at hdem
  | none =>
    simp only [hd] at hst ⊢
    cases hu : (updateReplicationStatus env
        (tr ++ [Event.rpc (Call.DemoteVolume src handle secret parameters)
          (env.client tr (Call.DemoteVolume src handle secret parameters))])
        (markVolumeAsSecondary env tr
          (VolumeReplication.withLastStartTime { inst1 with Finalizers := fin } t)
          src handle parameters secret).inst
        (getReplicationState (markVolumeAsSecondary env tr
          (VolumeReplication.withLastStartTime { inst1 with Finalizers := fin } t)
          src handle parameters secret).inst)
        "volume is marked secondary and is degraded").err with
    | some err =>
      exfalso
      simp [hu] at hst
    | none =>
      simp only [hu]
      refine ⟨⟨src, handle, secret, parameters, ?_⟩, ⟨_, rfl, ?_, rfl, ?_⟩, trivial, hlive⟩
      · simp [hcalls]
      · simp [markVolumeAsSecondary_inst, getReplicationState, hdesired]
      · simp [hu]

@[simp] theorem resyncForces_nil : resyncForces [] = [] := rfl

@[simp] theorem resyncForces_update (o : Object) (e : Option GoError) (rest : List Event) :
    resyncForces (Event.update o e :: rest) = resyncForces rest := rfl

@[simp] theorem resyncForces_statusUpdate (o : VolumeReplication) (e : Option GoError)
    (rest : List Event) : resyncForces (Event.statusUpdate o e :: rest) = resyncForces rest := rfl

@[simp] theorem resyncForces_resync (s : Option ReplicationSource) (i : String) (f : Bool)
    (x p : StringMap) (r : Response) (rest : List Event) :
    resyncForces (Event.rpc (Call.ResyncVolume s i f x p) r :: rest) = f :: resyncForces rest := rfl

@[simp] theorem resyncForces_enable (s : Option ReplicationSource) (i : String)
    (x p : StringMap) (r : Response) (rest : List Event) :
    resyncForces (Event.rpc (Call.EnableVolumeReplication s i x p) r :: rest) = resyncForces rest :=
  rfl

@[simp] theorem resyncForces_demote (s : Option ReplicationSource) (i : String)
    (x p : StringMap) (r : Response) (rest : List Event) :
    resyncForces (Event.rpc (Call.DemoteVolume s i x p) r :: rest) = resyncForces rest := rfl

@[simp] theorem resyncForces_promote (s : Option ReplicationSource) (i : String) (f : Bool)
    (x p : StringMap) (r : Response) (rest : List Event) :
    resyncForces (Event.rpc (Call.PromoteVolume s i f x p) r :: rest) = resyncForces rest := rfl

@[simp] theorem resyncForces_append (xs ys : List Event) :
    resyncForces (xs ++ ys) = resyncForces xs ++ resyncForces ys := by
  induction xs with
  | nil => rfl
  | cons x rest ih =>
    cases x with
    | rpc c r => cases c <;> simp [resyncForces, ih]
    | update o e => simp [ih]
    | statusUpdate o e => simp [ih]

theorem resyncForces_eq_nil {tr : List Event} {s : Option ReplicationSource} {i : String}
    {x p : StringMap} {r : Response}
    (h : driverEvents tr = [(Call.EnableVolumeReplication s i x p, r)]) : resyncForces tr = [] := by
  induction tr with
  | nil => rfl
  | cons e rest ih =>
    cases e with
    | rpc c r1 =>
      simp only [driverEvents_rpc, List.cons.injEq, Prod.mk.injEq] at h
      obtain ⟨⟨hc, _⟩, hrest⟩ := h
      subst hc
      simp only [resyncForces_enable]
      clear ih
      induction rest with
      | nil => rfl
      | cons e2 rest2 ih2 =>
        cases e2 with
        | rpc c2 r2 => simp at hrest
        | update o e => simp only [driverEvents_update] at hrest; simp [ih2 hrest]
        | statusUpdate o e => simp only [driverEvents_statusUpdate] at hrest; simp [ih2 hrest]
    | update o e1 => simp only [driverEvents_update] at h; simp [ih h]
    | statusUpdate o e1 => simp only [driverEvents_statusUpdate] at h; simp [ih h]

/-- C7: for an intent whose desired state is Resync, whatever its observed
state and its autoResync flag, in a pass where Enable succeeded the driver
calls are exactly Enable then one Resync with force=true, on the same
replication source, handle, secrets and parameters: neither Promote nor Demote
is called.  A pass in which Enable succeeded is a pass on an intent that is
not marked for deletion. -/
theorem Reconcile_resync_calls (env : Env) (req : NamespacedName) (inst0 : VolumeReplication)
    (hget : env.getInstance req = Except.ok inst0)
    (hdesired : inst0.Spec.ReplicationState = ReplicationState.Resync)
    (hen : enableSucceeded (Reconcile env req).trace = true) :
    (∃ src id secrets params, driverCalls (Reconcile env req).trace =
        [Call.EnableVolumeReplication src id secrets params,
         Call.ResyncVolume src id true secrets params])
    ∧ resyncForces (Reconcile env req).trace = [true]
    ∧ inst0.DeletionTimestamp = none := by
  obtain ⟨inst1, hget1, hlive, fin, t, tr, src, handle, parameters, secret, r, hev, hr, hout⟩ :=
    Reconcile_enabled env req (enableSucceeded_exists hen)
  have hi : inst1 = inst0 := by rw [hget] at hget1; exact (Except.ok.inj hget1).symm
  subst hi
  have hcalls : driverCalls tr = [Call.EnableVolumeReplication src handle secret parameters] := by
    rw [driverCalls_eq_map, hev]; rfl
  have hforces : resyncForces tr = [] := resyncForces_eq_nil hev
  rw [hout]
  unfold reconcileDesiredState
  simp only [withLastStartTime_Spec, hdesired]
  obtain ⟨i, e, htrace⟩ := reconcileOutcome_trace env
    (resyncVolume env tr (VolumeReplication.withLastStartTime { inst1 with Finalizers := fin } t)
      src handle true parameters secret).trace
    (resyncVolume env tr (VolumeReplication.withLastStartTime { inst1 with Finalizers := fin } t)
      src handle true parameters secret).inst
    (resyncVolume env tr (VolumeReplication.withLastStartTime { inst1 with Finalizers := fin } t)
      src handle true parameters secret).err
    (resyncVolume env tr (VolumeReplication.withLastStartTime { inst1 with Finalizers := fin } t)
      src handle true parameters secret).requeue
  rw [htrace]
  refine ⟨⟨src, handle, secret, parameters, ?_⟩, ?_, hlive⟩
  · simp [hcalls]
  · simp [hforces]

theorem demoteFailed_exists {tr : List Event} (h : demoteFailed tr = true) :
    ∃ cr ∈ driverEvents tr, (cr.1.isEnable = true ∧ cr.2.Error = none) ∨ cr.1.isReplication = true := by
  unfold demoteFailed at h
  obtain ⟨cr, hmem, hcr⟩ := List.any_eq_true.mp h
  refine ⟨cr, hmem, Or.inr ?_⟩
  cases hc : cr.1 <;> simp [hc, Call.isReplication] at hcr ⊢

/-- C5, as the code has it: for an intent whose desired state is Secondary and
whose observed state is already Secondary, in a pass where Enable succeeded,
Reconcile calls Demote once; when Demote succeeds it then calls Resync exactly
once, with the force flag equal to the autoResync field of the intent (so
force=false only when autoResync is false); when Demote fails, Resync is not
called. -/
theorem Reconcile_secondary_second_phase (env : Env) (req : NamespacedName)
    (inst0 : VolumeReplication)
    (hget : env.getInstance req = Except.ok inst0)
    (hdesired : inst0.Spec.ReplicationState = ReplicationState.Secondary)
    (hstate : inst0.Status.State = State.SecondaryState)
    (hen : enableSucceeded (Reconcile env req).trace = true) :
    ∃ src id secrets params,
      (noDemoteFailed (Reconcile env req).trace = true
        ∧ driverCalls (Reconcile env req).trace =
          [Call.EnableVolumeReplication src id secrets params,
           Call.DemoteVolume src id secrets params,
           Call.ResyncVolume src id inst0.Spec.AutoResync secrets params]
        ∧ resyncForces (Reconcile env req).trace = [inst0.Spec.AutoResync])
      ∨ (demoteFailed (Reconcile env req).trace = true
        ∧ driverCalls (Reconcile env req).trace =
          [Call.EnableVolumeReplication src id secrets params,
           Call.DemoteVolume src id secrets params]
        ∧ resyncForces (Reconcile env req).trace = []) := by
  obtain ⟨inst1, hget1, hlive, fin, t, tr, src, handle, parameters, secret, r, hev, hr, hout⟩ :=
    Reconcile_enabled env req (enableSucceeded_exists hen)
  have hi : inst1 = inst0 := by rw [hget] at hget1; exact (Except.ok.inj hget1).symm
  subst hi
  have hcalls : driverCalls tr = [Call.EnableVolumeReplication src handle secret parameters] := by
    rw [driverCalls_eq_map, hev]; rfl
  have hforces : resyncForces tr = [] := resyncForces_eq_nil hev
  refine ⟨src, handle, secret, parameters, ?_⟩
  rw [hout]
  unfold reconcileDesiredState
  simp only [withLastStartTime_Spec, withLastStartTime_State, hdesired, hstate, ne_eq,
    not_true_eq_false, if_false, markVolumeAsSecondary_err, markVolumeAsSecondary_trace]
  cases hd : (env.client tr (Call.DemoteVolume src handle secret parameters)).Error with
  | some err =>
    right
    obtain ⟨i, e, htrace⟩ := reconcileOutcome_trace env
      (tr ++ [Event.rpc (Call.DemoteVolume src handle secret parameters)
        (env.client tr (Call.DemoteVolume src handle secret parameters))])
      (markVolumeAsSecondary env tr
        (VolumeReplication.withLastStartTime { inst1 with Finalizers := fin } t)
        src handle parameters secret).inst (some err) false
    simp only [htrace]
    simp [demoteFailed, hev, hd, hcalls, hforces]
  | none =>
    left
    obtain ⟨i, e, htrace⟩ := reconcileOutcome_trace env
      (resyncVolume env
        (tr ++ [Event.rpc (Call.DemoteVolume src handle secret parameters)
          (env.client tr (Call.DemoteVolume src handle secret parameters))])
        (markVolumeAsSecondary env tr
          (VolumeReplication.withLastStartTime { inst1 with Finalizers := fin } t)
          src handle parameters secret).inst
        src handle inst1.Spec.AutoResync parameters secret).trace
      (resyncVolume env
        (tr ++ [Event.rpc (Call.DemoteVolume src handle secret parameters)
          (env.client tr (Call.DemoteVolume src handle secret parameters))])
        (markVolumeAsSecondary env tr
          (VolumeReplication.withLastStartTime { inst1 with Finalizers := fin } t)
          src handle parameters secret).inst
        src handle inst1.Spec.AutoResync parameters secret).inst
      (resyncVolume env
        (tr ++ [Event.rpc (Call.DemoteVolume src handle secret parameters)
          (env.client tr (Call.DemoteVolume src handle secret parameters))])
        (markVolumeAsSecondary env tr
          (VolumeReplication.withLastStartTime { inst1 with Finalizers := fin } t)
          src handle parameters secret).inst
        src handle inst1.Spec.AutoResync parameters secret).err
      (resyncVolume env
        (tr ++ [Event.rpc (Call.DemoteVolume src handle secret parameters)
          (env.client tr (Call.DemoteVolume src handle secret parameters))])
        (markVolumeAsSecondary env tr
          (VolumeReplication.withLastStartTime { inst1 with Finalizers := fin } t)
          src handle parameters secret).inst
        src handle inst1.Spec.AutoResync parameters secret).requeue
    simp only [htrace]
    simp [noDemoteFailed, hev, hd, hcalls, hforces, Call.isEnable]

/-- C6, as the code has it: for an intent whose desired state is Secondary,
whatever its autoResync flag and its observed state, a pass in which Demote
fails makes no Resync call: its driver calls are exactly Enable then the one
Demote, and the failed-demotion condition is recorded with the generation of
the object. -/
theorem Reconcile_failed_demote_no_resync (env : Env) (req : NamespacedName)
    (inst0 : VolumeReplication)
    (hget : env.getInstance req = Except.ok inst0)
    (hdesired : inst0.Spec.ReplicationState = ReplicationState.Secondary)
    (hfail : demoteFailed (Reconcile env req).trace = true) :
    (∃ src id secrets params, driverCalls (Reconcile env req).trace =
        [Call.EnableVolumeReplication src id secrets params,
         Call.DemoteVolume src id secrets params])
    ∧ resyncForces (Reconcile env req).trace = []
    ∧ (∃ inst, (Reconcile env req).inst = some inst ∧
        inst.Status.Conditions = inst0.Status.Conditions ++
          [{ kind := ConditionKind.FailedDemotion, observedGeneration := inst0.Generation }]) := by
  obtain ⟨inst1, hget1, hlive, fin, t, tr, src, handle, parameters, secret, r, hev, hr, hout⟩ :=
    Reconcile_enabled env req (demoteFailed_exists hfail)
  have hi : inst1 = inst0 := by rw [hget] at hget1; exact (Except.ok.inj hget1).symm
  subst hi
  have hcalls : driverCalls tr = [Call.EnableVolumeReplication src handle secret parameters] := by
    rw [driverCalls_eq_map, hev]; rfl
  have hforces : resyncForces tr = [] := resyncForces_eq_nil hev
  rw [hout] at hfail ⊢
  unfold reconcileDesiredState at hfail ⊢
  simp only [withLastStartTime_Spec, withLastStartTime_State, hdesired,
    markVolumeAsSecondary_err, markVolumeAsSecondary_trace] at hfail ⊢
  cases hd : (env.client tr (Call.DemoteVolume src handle secret parameters)).Error with
  | none =>
    exfalso
    simp only [hd] at hfail
    split at hfail
    · split at hfail <;> simp [demoteFailed, hev, hd] at hfail
    · obtain ⟨i, e, htrace⟩ := reconcileOutcome_trace env
        (resyncVolume env
          (tr ++ [Event.rpc (Call.DemoteVolume src handle secret parameters)
            (env.client tr (Call.DemoteVolume src handle secret parameters))])
          (markVolumeAsSecondary env tr
            (VolumeReplication.withLastStartTime { inst1 with Finalizers := fin } t)
            src handle parameters secret).inst
          src handle inst1.Spec.AutoResync parameters secret).trace
        (resyncVolume env
          (tr ++ [Event.rpc (Call.DemoteVolume src handle secret parameters)
            (env.client tr (Call.DemoteVolume src handle secret parameters))])
          (markVolumeAsSecondary env tr
            (VolumeReplication.withLastStartTime { inst1 with Finalizers := fin } t)
            src handle parameters secret).inst
          src handle inst1.Spec.AutoResync parameters secret).inst
        (resyncVolume env
          (tr ++ [Event.rpc (Call.DemoteVolume src handle secret parameters)
            (env.client tr (Call.DemoteVolume src handle secret parameters))])
          (markVolumeAsSecondary env tr
            (VolumeReplication.withLastStartTime { inst1 with Finalizers := fin } t)
            src handle parameters secret).inst
          src handle inst1.Spec.AutoResync parameters secret).err
        (resyncVolume env
          (tr ++ [Event.rpc (Call.DemoteVolume src handle secret parameters)
            (env.client tr (Call.DemoteVolume src handle secret parameters))])
          (markVolumeAsSecondary env tr
            (VolumeReplication.withLastStartTime { inst1 with Finalizers := fin } t)
            src handle parameters secret).inst
          src handle inst1.Spec.AutoResync parameters secret).requeue
      rw [htrace] at hfail
      simp [demoteFailed, hev, hd] at hfail
  | some err =>
    simp only [hd, ite_self]
    obtain ⟨hexit, hinst, htrace⟩ := reconcileOutcome_failed env
      (tr ++ [Event.rpc (Call.DemoteVolume src handle secret parameters)
        (env.client tr (Call.DemoteVolume src handle secret parameters))])
      (markVolumeAsSecondary env tr
        (VolumeReplication.withLastStartTime { inst1 with Finalizers := fin } t)
        src handle parameters secret).inst err false
    rw [htrace, hinst]
    refine ⟨⟨src, handle, secret, parameters, ?_⟩, ?_, ⟨_, rfl, ?_⟩⟩
    · simp [hcalls]
    · simp [hforces]
    · simp [markVolumeAsSecondary_inst, hd]

/-! ### The last driver call of a pass decides its outcome -/

theorem markVolumeAsPrimary_last (env : Env) (tr : List Event) (inst : VolumeReplication)
    (src : Option ReplicationSource) (id : String) (parameters secrets : StringMap) :
    ∃ pre force r cs,
      (markVolumeAsPrimary env tr inst src id parameters secrets).trace =
        tr ++ pre ++ [Event.rpc (Call.PromoteVolume src id force secrets parameters) r]
      ∧ r.Error = (markVolumeAsPrimary env tr inst src id parameters secrets).err
      ∧ (markVolumeAsPrimary env tr inst src id parameters secrets).inst = inst.withConditions cs := by
  unfold markVolumeAsPrimary
  simp only [Replication.Promote, Env.invoke]
  cases h1 : (env.client tr (Call.PromoteVolume src id false secrets parameters)).Error with
  | none => exact ⟨[], false, _, _, by simp, h1, rfl⟩
  | some err =>
    dsimp only
    split
    · exact ⟨[], false, _, _, by simp, h1, rfl⟩
    · cases h2 : (env.client
          (tr ++ [Event.rpc (Call.PromoteVolume src id false secrets parameters)
            (env.client tr (Call.PromoteVolume src id false secrets parameters))])
          (Call.PromoteVolume src id true secrets parameters)).Error with
      | none =>
        exact ⟨[Event.rpc (Call.PromoteVolume src id false secrets parameters)
          (env.client tr (Call.PromoteVolume src id false secrets parameters))], true, _, _,
          by simp, h2, rfl⟩
      | some err2 =>
        exact ⟨[Event.rpc (Call.PromoteVolume src id false secrets parameters)
          (env.client tr (Call.PromoteVolume src id false secrets parameters))], true, _, _,
          by simp, h2, rfl⟩

theorem resyncVolume_summary (env : Env) (tr : List Event) (inst : VolumeReplication)
    (src : Option ReplicationSource) (id : String) (force : Bool) (parameters secrets : StringMap) :
    (∀ e, (env.client tr (Call.ResyncVolume src id force secrets parameters)).Error = some e →
        (resyncVolume env tr inst src id force parameters secrets).err = some e)
    ∧ ((resyncVolume env tr inst src id force parameters secrets).requeue = true ↔
        (env.client tr (Call.ResyncVolume src id force secrets parameters)).Error = none ∧
        (env.client tr (Call.ResyncVolume src id force secrets parameters)).Response =
          Payload.ResyncVolumeResponse false)
    ∧ ((resyncVolume env tr inst src id force parameters secrets).requeue = true →
        (resyncVolume env tr inst src id force parameters secrets).err = none)
    ∧ (∃ cs, (resyncVolume env tr inst src id force parameters secrets).inst =
        inst.withConditions cs) := by
  unfold resyncVolume
  simp only [Replication.Resync, Env.invoke]
  cases h1 : (env.client tr (Call.ResyncVolume src id force secrets parameters)).Error with
  | some err => exact ⟨by simp, by simp, by simp, _, rfl⟩
  | none =>
    cases h2 : (env.client tr (Call.ResyncVolume src id force secrets parameters)).Response with
    | other => exact ⟨by simp, by simp, by simp, _, rfl⟩
    | ResyncVolumeResponse ready =>
      cases ready with
      | false => exact ⟨by simp, by simp, by simp, _, rfl⟩
      | true => exact ⟨by simp, by simp, by simp, _, rfl⟩

/-- How the switch on the desired state ends: with `reconcileOutcome` after a
last Promote, Demote or Resync call; or after a Demote that succeeded (first
phase of Secondary); or, for an unsupported state, without any call. -/
theorem reconcileDesiredState_summary (env : Env) (tr : List Event) (inst : VolumeReplication)
    (src : Option ReplicationSource) (handle : String) (parameters secret : StringMap) :
    (∃ pre c r rerr requeue cs,
        reconcileDesiredState env tr inst src handle parameters secret =
          reconcileOutcome env (tr ++ pre ++ [Event.rpc c r]) (inst.withConditions cs) rerr requeue
        ∧ c.isReplication = true
        ∧ (∀ e, r.Error = some e → rerr = some e)
        ∧ (requeue = true ↔ (∃ s i f x p, c = Call.ResyncVolume s i f x p) ∧ r.Error = none ∧
            r.Response = Payload.ResyncVolumeResponse false)
        ∧ (requeue = true → rerr = none))
    ∨ (∃ pre s i x p r,
        (reconcileDesiredState env tr inst src handle parameters secret).trace =
          tr ++ [Event.rpc (Call.DemoteVolume s i x p) r] ++ pre
        ∧ driverEvents pre = [] ∧ r.Error = none)
    ∨ (∃ pre, (reconcileDesiredState env tr inst src handle parameters secret).trace = tr ++ pre
        ∧ driverEvents pre = []) := by
  unfold reconcileDesiredState
  cases hs : inst.Spec.ReplicationState with
  | Primary =>
    left
    obtain ⟨pre, force, r, cs, htrace, herr, hinst⟩ :=
      markVolumeAsPrimary_last env tr inst src handle parameters secret
    refine ⟨pre, Call.PromoteVolume src handle force secret parameters, r,
      (markVolumeAsPrimary env tr inst src handle parameters secret).err, false, cs,
      ?_, rfl, ?_, by simp, by simp⟩
    · dsimp only
      simp only [htrace, hinst]
    · intro e he; rw [← herr, he]
  | Secondary =>
    dsimp only
    have hinst := markVolumeAsSecondary_inst env tr inst src handle parameters secret
    simp only [markVolumeAsSecondary_err, markVolumeAsSecondary_trace]
    cases hd : (env.client tr (Call.DemoteVolume src handle secret parameters)).Error with
    | some err =>
      left
      refine ⟨[], Call.DemoteVolume src handle secret parameters,
        env.client tr (Call.DemoteVolume src handle secret parameters), some err, false,
        inst.Status.Conditions ++
          [{ kind := ConditionKind.FailedDemotion, observedGeneration := inst.Generation }],
        ?_, rfl, ?_, by simp, by simp⟩
      · simp [hinst, hd]
      · intro e he; rw [← hd, he]
    | none =>
      dsimp only
      split
      · right; left
        split
        · exact ⟨_, src, handle, secret, parameters, _, by simp; rfl, by simp, hd⟩
        · exact ⟨_, src, handle, secret, parameters, _, by simp; rfl, by simp, hd⟩
      · left
        obtain ⟨h1, h2, h3, cs, h4⟩ := resyncVolume_summary env
          (tr ++ [Event.rpc (Call.DemoteVolume src handle secret parameters)
            (env.client tr (Call.DemoteVolume src handle secret parameters))])
          (markVolumeAsSecondary env tr inst src handle parameters secret).inst
          src handle inst.Spec.AutoResync parameters secret
        refine ⟨[Event.rpc (Call.DemoteVolume src handle secret parameters)
            (env.client tr (Call.DemoteVolume src handle secret parameters))],
          Call.ResyncVolume src handle inst.Spec.AutoResync secret parameters,
          env.client (tr ++ [Event.rpc (Call.DemoteVolume src handle secret parameters)
            (env.client tr (Call.DemoteVolume src handle secret parameters))])
            (Call.ResyncVolume src handle inst.Spec.AutoResync secret parameters),
          _, _, cs, ?_, rfl, h1, ?_, h3⟩
        · rw [h4, hinst]
          simp only [resyncVolume_trace]
          rfl
        · rw [h2]
          simp
  | Resync =>
    left
    obtain ⟨h1, h2, h3, cs, h4⟩ := resyncVolume_summary env tr inst src handle true parameters secret
    refine ⟨[], Call.ResyncVolume src handle true secret parameters,
      env.client tr (Call.ResyncVolume src handle true secret parameters), _, _, cs,
      ?_, rfl, h1, ?_, h3⟩
    · dsimp only
      rw [h4]
      simp only [resyncVolume_trace, List.append_nil]
    · rw [h2]
      simp
  | other raw =>
    right; right
    exact ⟨_, by simp [recordFailure]; rfl, by simp⟩

theorem replicationFailure_exists {tr : List Event} {e : GoError}
    (h : replicationFailure tr = some e) :
    ∃ cr ∈ driverEvents tr, (cr.1.isEnable = true ∧ cr.2.Error = none) ∨ cr.1.isReplication = true := by
  unfold replicationFailure at h
  cases hl : (driverEvents tr).getLast? with
  | none => simp [hl] at h
  | some cr =>
    simp only [hl] at h
    refine ⟨cr, List.mem_of_getLast?_eq_some hl, Or.inr ?_⟩
    by_contra hn
    simp [hn] at h

theorem resyncNotReady_exists {tr : List Event} (h : resyncNotReady tr = true) :
    ∃ cr ∈ driverEvents tr, (cr.1.isEnable = true ∧ cr.2.Error = none) ∨ cr.1.isReplication = true := by
  unfold resyncNotReady at h
  cases hl : (driverEvents tr).getLast? with
  | none => simp [hl] at h
  | some cr =>
    obtain ⟨c, r⟩ := cr
    refine ⟨(c, r), List.mem_of_getLast?_eq_some hl, Or.inr ?_⟩
    cases c <;> simp [hl, Call.isReplication] at h ⊢

/-- What `GetMessageFromError` returns: the message of the gRPC status when the
error carries one, and the text of the error otherwise. -/
theorem getMessageFromError_cases (e : GoError) :
    (∀ code message, e.status = some (code, message) → GetMessageFromError e = message)
    ∧ (e.status = none → GetMessageFromError e = e.text) := by
  unfold GetMessageFromError
  constructor
  · intro code message hs
    rw [hs]
  · intro hs
    rw [hs]

/-- C9: the requeue policy on failure.  In a pass whose last driver call is
a Promote, a Demote or a Resync that the driver answered with the error `e`
(such a pass comes after a successful Enable), Reconcile asks for a requeue
after 15 seconds with a nil error when the state observed at the start of the
pass was Secondary, and otherwise returns an empty result together with `e`
itself; in both cases the last event of the pass is a status write of the
intent it leaves, whose message is taken from `e` (the message of its gRPC
status when it carries one, its own text otherwise) and whose state is the
state observed at the start, Unknown when that was empty. -/
theorem Reconcile_failure_requeue_policy (env : Env) (req : NamespacedName)
    (inst0 : VolumeReplication) (e : GoError)
    (hget : env.getInstance req = Except.ok inst0)
    (hfail : replicationFailure (Reconcile env req).trace = some e) :
    (Reconcile env req).exit =
        (if inst0.Status.State = State.SecondaryState
          then Exit.returned { Requeue := true, RequeueAfter := Second * 15 } none
          else Exit.returned {} (some e))
    ∧ (∃ inst werr, (Reconcile env req).inst = some inst
        ∧ (Reconcile env req).trace.getLast? = some (Event.statusUpdate inst werr)
        ∧ inst.Status.Message = GetMessageFromError e
        ∧ (∀ code message, e.status = some (code, message) → inst.Status.Message = message)
        ∧ (e.status = none → inst.Status.Message = e.text)
        ∧ inst.Status.State =
          (if inst0.Status.State = State.empty then State.UnknownState else inst0.Status.State))
    ∧ enableSucceeded (Reconcile env req).trace = true := by
  obtain ⟨inst1, hget1, hlive, fin, t, tr, src, handle, parameters, secret, r0, hev, hr, hout⟩ :=
    Reconcile_enabled env req (replicationFailure_exists hfail)
  have hi : inst1 = inst0 := by rw [hget] at hget1; exact (Except.ok.inj hget1).symm
  subst hi
  rw [hout] at hfail ⊢
  rcases reconcileDesiredState_summary env tr
      (VolumeReplication.withLastStartTime { inst1 with Finalizers := fin } t)
      src handle parameters secret with
    ⟨pre, c, r, rerr, requeue, cs, hsum, hrep, herr, -, -⟩ | ⟨pre, s, i, x, p, r, htrace, hpre, hnone⟩ |
    ⟨pre, htrace, hpre⟩
  · rw [hsum] at hfail ⊢
    obtain ⟨i, se, htrace⟩ := reconcileOutcome_trace env (tr ++ pre ++ [Event.rpc c r])
      ((VolumeReplication.withLastStartTime { inst1 with Finalizers := fin } t).withConditions cs)
      rerr requeue
    have hre : r.Error = some e := by
      rw [htrace] at hfail
      simpa [replicationFailure, hrep] using hfail
    have hrerr := herr e hre
    subst hrerr
    have hens : enableSucceeded (reconcileOutcome env (tr ++ pre ++ [Event.rpc c r])
        ((VolumeReplication.withLastStartTime { inst1 with Finalizers := fin } t).withConditions cs)
        (some e) requeue).trace = true := by
      rw [htrace]
      simp [enableSucceeded, hev, hr, Call.isEnable]
    obtain ⟨hexit, hinst, htr2⟩ := reconcileOutcome_failed env (tr ++ pre ++ [Event.rpc c r])
      ((VolumeReplication.withLastStartTime { inst1 with Finalizers := fin } t).withConditions cs)
      e requeue
    obtain ⟨hm1, hm2⟩ := getMessageFromError_cases e
    refine ⟨?_, ⟨_, (updateReplicationStatus env (tr ++ pre ++ [Event.rpc c r])
        ((VolumeReplication.withLastStartTime { inst1 with Finalizers := fin } t).withConditions cs)
        (getCurrentReplicationState
          ((VolumeReplication.withLastStartTime { inst1 with Finalizers := fin } t).withConditions
            cs))
        (GetMessageFromError e)).err, hinst, ?_, rfl, ?_, ?_, ?_⟩, hens⟩
    · rw [hexit]
      by_cases hsec : inst1.Status.State = State.SecondaryState
      · simp [getCurrentReplicationState, hsec]
      · by_cases hemp : inst1.Status.State = State.empty
        · simp [getCurrentReplicationState, hemp]
        · simp [getCurrentReplicationState, hsec, hemp]
    · rw [htr2]
      exact List.getLast?_concat _
    · intro code message hs
      exact hm1 code message hs
    · intro hs
      exact hm2 hs
    · simp [getCurrentReplicationState]
  · exfalso
    rw [htrace] at hfail
    simp [replicationFailure, hpre, hnone] at hfail
  · exfalso
    rw [htrace] at hfail
    simp [replicationFailure, hpre, hev, Call.isReplication] at hfail

/-- C8, as the code has it.  resyncVolume returns (requeue=true, nil) exactly
when the driver answered Resync with success and ready=false, and records the
not-degraded condition exactly when the driver answered with success and
ready=true.  In a pass whose last driver call is a Resync answered with
success and ready=false, Reconcile writes the status message "volume is
degraded", leaves the status state at the value observed at the start of the
pass except that an empty state becomes Unknown, does not stamp
lastCompletionTime, and asks for a requeue after 30 seconds with a nil
error. -/
theorem Reconcile_resync_not_ready (env : Env) (req : NamespacedName) (inst0 : VolumeReplication)
    (hget : env.getInstance req = Except.ok inst0)
    (hnr : resyncNotReady (Reconcile env req).trace = true) :
    (∃ inst, (Reconcile env req).inst = some inst
        ∧ inst.Status.Message = "volume is degraded"
        ∧ inst.Status.State =
          (if inst0.Status.State = State.empty then State.UnknownState else inst0.Status.State)
        ∧ inst.Status.LastCompletionTime = inst0.Status.LastCompletionTime
        ∧ ∃ werr, Event.statusUpdate inst werr ∈ (Reconcile env req).trace)
    ∧ (Reconcile env req).exit = Exit.returned { Requeue := true, RequeueAfter := Second * 30 } none
    ∧ (∀ (tr : List Event) (inst : VolumeReplication) (src : Option ReplicationSource) (id : String)
        (force : Bool) (parameters secrets : StringMap),
        (((resyncVolume env tr inst src id force parameters secrets).requeue = true
            ∧ (resyncVolume env tr inst src id force parameters secrets).err = none) ↔
          ((env.client tr (Call.ResyncVolume src id force secrets parameters)).Error = none
            ∧ (env.client tr (Call.ResyncVolume src id force secrets parameters)).Response =
              Payload.ResyncVolumeResponse false))
        ∧ ((∃ g, ({ kind := ConditionKind.NotDegraded, observedGeneration := g } : Condition) ∈
              (resyncVolume env tr inst src id force parameters secrets).inst.Status.Conditions.drop
                inst.Status.Conditions.length) ↔
          ((env.client tr (Call.ResyncVolume src id force secrets parameters)).Error = none
            ∧ (env.client tr (Call.ResyncVolume src id force secrets parameters)).Response =
              Payload.ResyncVolumeResponse true))) := by
  have key : ∃ tr1 inst1, Reconcile env req = reconcileOutcome env tr1 inst1 none true
      ∧ inst1.Status.State = inst0.Status.State
      ∧ inst1.Status.LastCompletionTime = inst0.Status.LastCompletionTime := by
    obtain ⟨inst1, hget1, hlive, fin, t, tr, src, handle, parameters, secret, r0, hev, hr, hout⟩ :=
      Reconcile_enabled env req (resyncNotReady_exists hnr)
    have hi : inst1 = inst0 := by rw [hget] at hget1; exact (Except.ok.inj hget1).symm
    subst hi
    rw [hout] at hnr ⊢
    rcases reconcileDesiredState_summary env tr
        (VolumeReplication.withLastStartTime { inst1 with Finalizers := fin } t)
        src handle parameters secret with
      ⟨pre, c, r, rerr, requeue, cs, hsum, hrep, -, hreq, hnone⟩ | ⟨pre, s, i, x, p, r, htrace, hpre, hnone⟩ |
      ⟨pre, htrace, hpre⟩
    · rw [hsum] at hnr ⊢
      obtain ⟨i, se, htrace⟩ := reconcileOutcome_trace env (tr ++ pre ++ [Event.rpc c r])
        ((VolumeReplication.withLastStartTime { inst1 with Finalizers := fin } t).withConditions cs)
        rerr requeue
      have hq : requeue = true := by
        rw [htrace] at hnr
        rw [hreq]
        cases c <;> simp [resyncNotReady] at hnr ⊢
        exact hnr
      have hn := hnone hq
      subst hq
      subst hn
      exact ⟨_, _, rfl, rfl, rfl⟩
    · exfalso
      rw [htrace] at hnr
      simp [resyncNotReady, hpre] at hnr
    · exfalso
      rw [htrace] at hnr
      simp [resyncNotReady, hpre, hev] at hnr
  obtain ⟨tr1, inst1, hkey, hstate, hlct⟩ := key
  refine ⟨?_, ?_, ?_⟩
  · rw [hkey]
    refine ⟨(updateReplicationStatus env tr1 inst1 (getCurrentReplicationState inst1)
      "volume is degraded").inst, rfl, rfl, ?_, ?_, ?_⟩
    · simp [getCurrentReplicationState, hstate]
    · simp [hlct]
    · exact ⟨(updateReplicationStatus env tr1 inst1 (getCurrentReplicationState inst1)
        "volume is degraded").err, by simp [reconcileOutcome]⟩
  · rw [hkey]
    rfl
  · intro tr inst src id force parameters secrets
    unfold resyncVolume
    simp only [Replication.Resync, Env.invoke]
    cases h1 : (env.client tr (Call.ResyncVolume src id force secrets parameters)).Error with
    | some err => simp [setFailedResyncCondition, setCondition]
    | none =>
      cases h2 : (env.client tr (Call.ResyncVolume src id force secrets parameters)).Response with
      | other => simp [setFailedResyncCondition, setCondition]
      | ResyncVolumeResponse ready =>
        cases ready <;> simp [setResyncCondition, setNotDegradedCondition, setCondition]

/-! ## The claims at concrete collaborators -/

/-- On an unsupported desired state `setFailureCondition` has no case to take:
it leaves the intent as it is. -/
theorem setFailureCondition_other (inst : VolumeReplication) (raw : String)
    (h : inst.Spec.ReplicationState = ReplicationState.other raw) :
    setFailureCondition inst = inst := by
  unfold setFailureCondition
  rw [h]

/-- The force-promotion fallback at a driver that refuses every unforced
Promote with FailedPrecondition, before and after the first refusal, and
accepts the forced one. -/
theorem markVolumeAsPrimary_force_fallback_witness :
    ((sampleEnv (sampleIntent ReplicationState.Primary State.empty false)
        (refusingPromoteClient (statusError codes.FailedPrecondition))).client []
        (Call.PromoteVolume none "" false [] [])).Error =
      some (statusError codes.FailedPrecondition)
    ∧ ((sampleEnv (sampleIntent ReplicationState.Primary State.empty false)
        (refusingPromoteClient (statusError codes.FailedPrecondition))).client
        [Event.rpc (Call.PromoteVolume none "" false [] [])
          { Response := Payload.other, Error := some (statusError codes.FailedPrecondition) }]
        (Call.PromoteVolume none "" false [] [])).Error =
      some (statusError codes.FailedPrecondition)
    ∧ (∃ r1 r2, (markVolumeAsPrimary
      (sampleEnv (sampleIntent ReplicationState.Primary State.empty false)
        (refusingPromoteClient (statusError codes.FailedPrecondition))) []
        (sampleIntent ReplicationState.Primary State.empty false) none "" [] []).trace =
        [] ++ [Event.rpc (Call.PromoteVolume none "" false [] []) r1,
               Event.rpc (Call.PromoteVolume none "" true [] []) r2])
    ∧ (markVolumeAsPrimary
      (sampleEnv (sampleIntent ReplicationState.Primary State.empty false)
        (refusingPromoteClient (statusError codes.FailedPrecondition))) []
        (sampleIntent ReplicationState.Primary State.empty false) none "" [] []).inst.Status.Conditions =
        (sampleIntent ReplicationState.Primary State.empty false).Status.Conditions ++
          [{ kind := ConditionKind.Promoted,
             observedGeneration := (sampleIntent ReplicationState.Primary State.empty false).Generation }]
    ∧ (markVolumeAsPrimary
      (sampleEnv (sampleIntent ReplicationState.Primary State.empty false)
        (refusingPromoteClient (statusError codes.FailedPrecondition))) []
        (sampleIntent ReplicationState.Primary State.empty false) none "" [] []).err = none :=
  ⟨rfl, rfl,
   (markVolumeAsPrimary_force_fallback
      (sampleEnv (sampleIntent ReplicationState.Primary State.empty false)
        (refusingPromoteClient (statusError codes.FailedPrecondition))) []
      (sampleIntent ReplicationState.Primary State.empty false) none "" [] []
      (statusError codes.FailedPrecondition) "refused" rfl rfl rfl).1,
   (markVolumeAsPrimary_force_fallback
      (sampleEnv (sampleIntent ReplicationState.Primary State.empty false)
        (refusingPromoteClient (statusError codes.FailedPrecondition))) []
      (sampleIntent ReplicationState.Primary State.empty false) none "" [] []
      (statusError codes.FailedPrecondition) "refused" rfl rfl rfl).2.1,
   (markVolumeAsPrimary_force_fallback
      (sampleEnv (sampleIntent ReplicationState.Primary State.empty false)
        (refusingPromoteClient (statusError codes.FailedPrecondition))) []
      (sampleIntent ReplicationState.Primary State.empty false) none "" [] []
      (statusError codes.FailedPrecondition) "refused" rfl rfl rfl).2.2.2⟩

/-- The first phase of the transition to Secondary on an intent observed as
Primary, against a healthy driver. -/
theorem Reconcile_secondary_first_phase_witness :
    (∃ src id secrets params,
      driverCalls (Reconcile (sampleEnv (sampleIntent ReplicationState.Secondary State.PrimaryState false)
        (healthyClient true)) sampleRequest).trace =
        [Call.EnableVolumeReplication src id secrets params, Call.DemoteVolume src id secrets params])
    ∧ (∃ inst, (Reconcile (sampleEnv (sampleIntent ReplicationState.Secondary State.PrimaryState false)
          (healthyClient true)) sampleRequest).inst = some inst
        ∧ inst.Status.State = State.SecondaryState
        ∧ inst.Status.Message = "volume is marked secondary and is degraded"
        ∧ Event.statusUpdate inst none ∈
          (Reconcile (sampleEnv (sampleIntent ReplicationState.Secondary State.PrimaryState false)
            (healthyClient true)) sampleRequest).trace)
    ∧ (Reconcile (sampleEnv (sampleIntent ReplicationState.Secondary State.PrimaryState false)
        (healthyClient true)) sampleRequest).exit =
        Exit.returned { Requeue := true, RequeueAfter := Second * 15 } none
    ∧ (sampleIntent ReplicationState.Secondary State.PrimaryState false).DeletionTimestamp = none :=
  Reconcile_secondary_first_phase
    (sampleEnv (sampleIntent ReplicationState.Secondary State.PrimaryState false) (healthyClient true))
    sampleRequest (sampleIntent ReplicationState.Secondary State.PrimaryState false)
    rfl rfl (by decide) (by decide) (by decide) (by decide)

/-- C5 as stated fails: on an intent observed as Secondary with autoResync
set, after a Demote that succeeded, the one Resync call is made with
force=true, not force=false. -/
theorem Reconcile_resync_force_counterexample :
    (sampleIntent ReplicationState.Secondary State.SecondaryState true).Spec.ReplicationState =
        ReplicationState.Secondary
    ∧ (sampleIntent ReplicationState.Secondary State.SecondaryState true).Status.State =
        State.SecondaryState
    ∧ noDemoteFailed autoResyncPass.trace = true
    ∧ driverCalls autoResyncPass.trace =
        [Call.EnableVolumeReplication (some (ReplicationSource.Volume "handle")) "" [] [],
         Call.DemoteVolume (some (ReplicationSource.Volume "handle")) "" [] [],
         Call.ResyncVolume (some (ReplicationSource.Volume "handle")) "" true [] []]
    ∧ resyncForces autoResyncPass.trace ≠ [false] := by
  decide

/-- The second phase of Secondary on an intent with autoResync set, against a
healthy driver. -/
theorem Reconcile_secondary_second_phase_witness :
    ∃ src id secrets params,
      (noDemoteFailed autoResyncPass.trace = true
        ∧ driverCalls autoResyncPass.trace =
          [Call.EnableVolumeReplication src id secrets params,
           Call.DemoteVolume src id secrets params,
           Call.ResyncVolume src id
            (sampleIntent ReplicationState.Secondary State.SecondaryState true).Spec.AutoResync
            secrets params]
        ∧ resyncForces autoResyncPass.trace =
          [(sampleIntent ReplicationState.Secondary State.SecondaryState true).Spec.AutoResync])
      ∨ (demoteFailed autoResyncPass.trace = true
        ∧ driverCalls autoResyncPass.trace =
          [Call.EnableVolumeReplication src id secrets params,
           Call.DemoteVolume src id secrets params]
        ∧ resyncForces autoResyncPass.trace = []) :=
  Reconcile_secondary_second_phase
    (sampleEnv (sampleIntent ReplicationState.Secondary State.SecondaryState true) (healthyClient true))
    sampleRequest (sampleIntent ReplicationState.Secondary State.SecondaryState true)
    rfl rfl rfl (by decide)

/-- C6 as stated fails: on an intent with autoResync set, a pass in which
Demote fails makes no Resync call. -/
theorem Reconcile_autoResync_counterexample :
    (sampleIntent ReplicationState.Secondary State.SecondaryState true).Spec.ReplicationState =
        ReplicationState.Secondary
    ∧ (sampleIntent ReplicationState.Secondary State.SecondaryState true).Spec.AutoResync = true
    ∧ demoteFailed failedDemotePass.trace = true
    ∧ driverCalls failedDemotePass.trace =
        [Call.EnableVolumeReplication (some (ReplicationSource.Volume "handle")) "" [] [],
         Call.DemoteVolume (some (ReplicationSource.Volume "handle")) "" [] []]
    ∧ resyncForces failedDemotePass.trace = [] := by
  decide

/-- A pass on an intent with autoResync set against a driver whose Demote
fails. -/
theorem Reconcile_failed_demote_no_resync_witness :
    (∃ src id secrets params, driverCalls failedDemotePass.trace =
        [Call.EnableVolumeReplication src id secrets params,
         Call.DemoteVolume src id secrets params])
    ∧ resyncForces failedDemotePass.trace = []
    ∧ (∃ inst, failedDemotePass.inst = some inst ∧
        inst.Status.Conditions =
          (sampleIntent ReplicationState.Secondary State.SecondaryState true).Status.Conditions ++
          [{ kind := ConditionKind.FailedDemotion,
             observedGeneration :=
              (sampleIntent ReplicationState.Secondary State.SecondaryState true).Generation }]) :=
  Reconcile_failed_demote_no_resync
    (sampleEnv (sampleIntent ReplicationState.Secondary State.SecondaryState true)
      (failingDemoteClient (statusError 13)))
    sampleRequest (sampleIntent ReplicationState.Secondary State.SecondaryState true)
    rfl rfl (by decide)

/-- A pass for the desired state Resync on an intent never reconciled before. -/
theorem Reconcile_resync_calls_witness :
    (∃ src id secrets params, driverCalls firstResyncPass.trace =
        [Call.EnableVolumeReplication src id secrets params,
         Call.ResyncVolume src id true secrets params])
    ∧ resyncForces firstResyncPass.trace = [true]
    ∧ (sampleIntent ReplicationState.Resync State.empty false).DeletionTimestamp = none :=
  Reconcile_resync_calls
    (sampleEnv (sampleIntent ReplicationState.Resync State.empty false) (healthyClient false))
    sampleRequest (sampleIntent ReplicationState.Resync State.empty false)
    rfl rfl (by decide)

/-- C8 as stated fails: on an intent whose observed state is empty, the pass
that requeues for a Resync that is not ready changes the status state, from
empty to Unknown. -/
theorem Reconcile_resync_state_counterexample :
    (sampleIntent ReplicationState.Resync State.empty false).Status.State = State.empty
    ∧ resyncNotReady firstResyncPass.trace = true
    ∧ firstResyncPass.exit = Exit.returned { Requeue := true, RequeueAfter := Second * 30 } none
    ∧ firstResyncPass.inst.map (fun i => i.Status.State) = some State.UnknownState
    ∧ firstResyncPass.inst.map (fun i => i.Status.State) ≠
        some (sampleIntent ReplicationState.Resync State.empty false).Status.State := by
  decide

/-- A pass on an intent never reconciled before, against a driver whose Resync
reports not ready. -/
theorem Reconcile_resync_not_ready_witness :
    resyncNotReady firstResyncPass.trace = true
    ∧ (∃ inst, firstResyncPass.inst = some inst
        ∧ inst.Status.Message = "volume is degraded"
        ∧ inst.Status.State =
          (if (sampleIntent ReplicationState.Resync State.empty false).Status.State = State.empty
            then State.UnknownState
            else (sampleIntent ReplicationState.Resync State.empty false).Status.State)
        ∧ inst.Status.LastCompletionTime =
          (sampleIntent ReplicationState.Resync State.empty false).Status.LastCompletionTime
        ∧ ∃ werr, Event.statusUpdate inst werr ∈ firstResyncPass.trace)
    ∧ firstResyncPass.exit = Exit.returned { Requeue := true, RequeueAfter := Second * 30 } none :=
  ⟨by decide,
   (Reconcile_resync_not_ready
      (sampleEnv (sampleIntent ReplicationState.Resync State.empty false) (healthyClient false))
      sampleRequest (sampleIntent ReplicationState.Resync State.empty false) rfl (by decide)).1,
   (Reconcile_resync_not_ready
      (sampleEnv (sampleIntent ReplicationState.Resync State.empty false) (healthyClient false))
      sampleRequest (sampleIntent ReplicationState.Resync State.empty false) rfl (by decide)).2.1⟩

/-- A pass on an intent observed as Secondary, against a driver whose Demote
fails. -/
theorem Reconcile_failure_requeue_policy_witness :
    replicationFailure failedDemotePass.trace = some (statusError 13)
    ∧ failedDemotePass.exit =
        (if (sampleIntent ReplicationState.Secondary State.SecondaryState true).Status.State =
            State.SecondaryState
          then Exit.returned { Requeue := true, RequeueAfter := Second * 15 } none
          else Exit.returned {} (some (statusError 13)))
    ∧ (∃ inst werr, failedDemotePass.inst = some inst
        ∧ failedDemotePass.trace.getLast? = some (Event.statusUpdate inst werr)
        ∧ inst.Status.Message = GetMessageFromError (statusError 13)
        ∧ (∀ code message, (statusError 13).status = some (code, message) →
            inst.Status.Message = message)
        ∧ ((statusError 13).status = none → inst.Status.Message = (statusError 13).text)
        ∧ inst.Status.State =
          (if (sampleIntent ReplicationState.Secondary State.SecondaryState true).Status.State =
              State.empty
            then State.UnknownState
            else (sampleIntent ReplicationState.Secondary State.SecondaryState true).Status.State))
    ∧ enableSucceeded failedDemotePass.trace = true
    ∧ (statusError 13).status = some (13, "refused")
    ∧ failedDemotePass.inst.map (fun i => i.Status.Message) = some "refused" :=
  ⟨by decide,
   (Reconcile_failure_requeue_policy
    (sampleEnv (sampleIntent ReplicationState.Secondary State.SecondaryState true)
      (failingDemoteClient (statusError 13)))
    sampleRequest (sampleIntent ReplicationState.Secondary State.SecondaryState true)
    (statusError 13) rfl (by decide)).1,
   (Reconcile_failure_requeue_policy
    (sampleEnv (sampleIntent ReplicationState.Secondary State.SecondaryState true)
      (failingDemoteClient (statusError 13)))
    sampleRequest (sampleIntent ReplicationState.Secondary State.SecondaryState true)
    (statusError 13) rfl (by decide)).2.1,
   (Reconcile_failure_requeue_policy
    (sampleEnv (sampleIntent ReplicationState.Secondary State.SecondaryState true)
      (failingDemoteClient (statusError 13)))
    sampleRequest (sampleIntent ReplicationState.Secondary State.SecondaryState true)
    (statusError 13) rfl (by decide)).2.2,
   rfl, by decide⟩

/-- C10 fails on the code: for the unsupported desired state "paused", after a
successful Enable, the pass ends with the message "unsupported volume state"
and a nil error but records no condition at all: the call of
`setFailureCondition` in that branch has no case for an unsupported state. -/
theorem Reconcile_unsupported_state_records_no_condition :
    (sampleIntent (ReplicationState.other "paused") State.empty false).Spec.ReplicationState =
        ReplicationState.other "paused"
    ∧ enableSucceeded unsupportedStatePass.trace = true
    ∧ unsupportedStatePass.exit = Exit.returned {} none
    ∧ unsupportedStatePass.inst.map (fun i => i.Status.Message) = some "unsupported volume state"
    ∧ unsupportedStatePass.inst.map (fun i => i.Status.Conditions) = some []
    ∧ setFailureCondition (sampleIntent (ReplicationState.other "paused") State.empty false) =
        sampleIntent (ReplicationState.other "paused") State.empty false := by
  decide

/-! ## Resolution, and the writes of a pass -/

@[simp] theorem storeWrites_nil : storeWrites [] = [] := rfl

@[simp] theorem storeWrites_rpc (c : Call) (r : Response) (rest : List Event) :
    storeWrites (Event.rpc c r :: rest) = storeWrites rest := rfl

@[simp] theorem storeWrites_update (o : Object) (e : Option GoError) (rest : List Event) :
    storeWrites (Event.update o e :: rest) = (o, e) :: storeWrites rest := rfl

@[simp] theorem storeWrites_statusUpdate (o : VolumeReplication) (e : Option GoError)
    (rest : List Event) : storeWrites (Event.statusUpdate o e :: rest) = storeWrites rest := rfl

@[simp] theorem storeWrites_append (xs ys : List Event) :
    storeWrites (xs ++ ys) = storeWrites xs ++ storeWrites ys := by
  induction xs with
  | nil => rfl
  | cons x rest ih => cases x <;> simp [ih]

@[simp] theorem statusWrites_nil : statusWrites [] = [] := rfl

@[simp] theorem statusWrites_rpc (c : Call) (r : Response) (rest : List Event) :
    statusWrites (Event.rpc c r :: rest) = statusWrites rest := rfl

@[simp] theorem statusWrites_update (o : Object) (e : Option GoError) (rest : List Event) :
    statusWrites (Event.update o e :: rest) = statusWrites rest := rfl

@[simp] theorem statusWrites_statusUpdate (o : VolumeReplication) (e : Option GoError)
    (rest : List Event) :
    statusWrites (Event.statusUpdate o e :: rest) = (o, e) :: statusWrites rest := rfl

@[simp] theorem statusWrites_append (xs ys : List Event) :
    statusWrites (xs ++ ys) = statusWrites xs ++ statusWrites ys := by
  induction xs with
  | nil => rfl
  | cons x rest ih => cases x <;> simp [ih]

theorem onlyUpdates_nil : OnlyUpdates [] := by
  intro ev h
  cases h

theorem onlyUpdates_snoc {tr : List Event} (h : OnlyUpdates tr) (o : Object) (e : Option GoError) :
    OnlyUpdates (tr ++ [Event.update o e]) := by
  intro ev hev
  rcases List.mem_append.mp hev with h1 | h1
  · exact h ev h1
  · exact ⟨o, e, List.mem_singleton.mp h1⟩

theorem onlyUpdates_driverEvents {tr : List Event} (h : OnlyUpdates tr) : driverEvents tr = [] := by
  induction tr with
  | nil => rfl
  | cons x rest ih =>
    obtain ⟨o, e, hx⟩ := h x (List.mem_cons_self _ _)
    subst hx
    simp only [driverEvents_update]
    exact ih (fun ev hev => h ev (List.mem_cons_of_mem _ hev))

theorem onlyUpdates_driverCalls {tr : List Event} (h : OnlyUpdates tr) : driverCalls tr = [] := by
  rw [driverCalls_eq_map, onlyUpdates_driverEvents h]
  rfl

theorem onlyUpdates_statusWrites {tr : List Event} (h : OnlyUpdates tr) : statusWrites tr = [] := by
  induction tr with
  | nil => rfl
  | cons x rest ih =>
    obtain ⟨o, e, hx⟩ := h x (List.mem_cons_self _ _)
    subst hx
    simp only [statusWrites_update]
    exact ih (fun ev hev => h ev (List.mem_cons_of_mem _ hev))

theorem reconcileSource_eq (env : Env) (inst : VolumeReplication)
    (pvc : Option PersistentVolumeClaim) (vg : Option VolumeGroup) (volumeHandle : String)
    (parameters secret : StringMap) :
    reconcileSource env [] inst pvc vg volumeHandle parameters secret =
      reconcileFinalizers env [] inst pvc vg
        (getReplicationSource inst.Spec.DataSource.Kind volumeHandle).1
        inst.Spec.ReplicationHandle parameters secret := by
  unfold reconcileSource
  have h : (getReplicationSource inst.Spec.DataSource.Kind volumeHandle).2 = none := by
    unfold getReplicationSource
    split
    · rfl
    · split <;> rfl
  rw [h]

theorem endsInResolution_recordFailure (env : Env) (inst0 : VolumeReplication) (msg : String)
    (err : Option GoError) :
    EndsInResolution env inst0
      { exit := Exit.returned {} err, inst := some (recordFailure env [] inst0 msg).inst,
        trace := (recordFailure env [] inst0 msg).trace } :=
  ⟨Or.inr ⟨err, rfl⟩, Or.inr ⟨msg, rfl, rfl⟩⟩

theorem reconcileDataSource_prefix (env : Env) (req : NamespacedName) (inst : VolumeReplication)
    (parameters secret : StringMap) :
    EndsInResolution env inst (reconcileDataSource env req inst parameters secret)
    ∨ ReachesFinalizers env req inst (reconcileDataSource env req inst parameters secret) := by
  unfold reconcileDataSource
  dsimp only
  by_cases hk : inst.Spec.DataSource.Kind = pvcDataSource
  · rw [if_pos hk]
    cases hp : env.getPVCDataSource
        { Name := inst.Spec.DataSource.Name, Namespace := req.Namespace } with
    | error pvErr => left; exact endsInResolution_recordFailure env inst _ _
    | ok cp =>
      obtain ⟨c, pv⟩ := cp
      dsimp only
      cases hc : pv.CSI with
      | none => left; exact ⟨Or.inl rfl, Or.inl ⟨rfl, rfl⟩⟩
      | some volumeHandle =>
        right
        dsimp only
        rw [reconcileSource_eq]
        exact ⟨some c, none, _, _, parameters, secret, Or.inl ⟨hk, rfl, c, pv, hp, rfl⟩, rfl⟩
  · rw [if_neg hk]
    by_cases hg : inst.Spec.DataSource.Kind = volumeGroupDataSource
    · rw [if_pos hg]
      unfold getVGDataSource
      cases hv : env.getVolumeGroup
          { Name := inst.Spec.DataSource.Name, Namespace := req.Namespace } with
      | error e => left; exact endsInResolution_recordFailure env inst _ _
      | ok g =>
        dsimp only
        cases hn : g.VolumeGroupContentName with
        | none => left; exact ⟨Or.inl rfl, Or.inl ⟨rfl, rfl⟩⟩
        | some name =>
          dsimp only
          cases hcnt : env.getVolumeGroupContent { Name := name, Namespace := g.Namespace } with
          | error e => left; exact endsInResolution_recordFailure env inst _ _
          | ok vgc =>
            right
            dsimp only
            rw [reconcileSource_eq]
            exact ⟨none, some g, _, _, parameters, secret, Or.inr ⟨hg, rfl, g, hv, rfl⟩, rfl⟩
    · rw [if_neg hg]
      left
      exact endsInResolution_recordFailure env inst _ _

/-- A pass that fetched its intent either ends during resolution or is the
finalizer phase run on that intent. -/
theorem Reconcile_prefix (env : Env) (req : NamespacedName) (inst0 : VolumeReplication)
    (hget : env.getInstance req = Except.ok inst0) :
    EndsInResolution env inst0 (Reconcile env req)
    ∨ ReachesFinalizers env req inst0 (Reconcile env req) := by
  unfold Reconcile
  rw [hget]
  dsimp only
  split
  · left; exact endsInResolution_recordFailure env inst0 _ _
  · split
    · left; exact ⟨Or.inr ⟨none, rfl⟩, Or.inl ⟨rfl, rfl⟩⟩
    · split
      · left; exact endsInResolution_recordFailure env inst0 _ _
      · split
        · split
          · left; exact endsInResolution_recordFailure env inst0 _ _
          · exact reconcileDataSource_prefix env req inst0 _ _
        · exact reconcileDataSource_prefix env req inst0 _ _

/-! ## The finalizer phase on a live intent -/

theorem addFinalizerToVR_onlyUpdates (env : Env) (tr : List Event) (vr : VolumeReplication)
    (h : OnlyUpdates tr) : OnlyUpdates (addFinalizerToVR env tr vr).trace := by
  unfold addFinalizerToVR
  dsimp only
  split
  · split <;> exact onlyUpdates_snoc h _ _
  · exact h

theorem addFinalizerToPVC_onlyUpdates (env : Env) (tr : List Event) (pvc : PersistentVolumeClaim)
    (h : OnlyUpdates tr) : OnlyUpdates (addFinalizerToPVC env tr pvc).2.2 := by
  unfold addFinalizerToPVC
  dsimp only
  split
  · split <;> exact onlyUpdates_snoc h _ _
  · exact h

theorem addFinalizerToVG_onlyUpdates (env : Env) (tr : List Event) (vg : VolumeGroup)
    (h : OnlyUpdates tr) : OnlyUpdates (addFinalizerToVG env tr vg).2.2 := by
  unfold addFinalizerToVG
  dsimp only
  split
  · split <;> exact onlyUpdates_snoc h _ _
  · exact h

/-- On a live intent the finalizer phase either ends on a failed finalizer
write, having done nothing but writes through `r.Client.Update`, or goes on
with `reconcileReplication` on the same intent, finalizers apart, after
nothing but such writes. -/
theorem reconcileFinalizers_live (env : Env) (tr : List Event) (inst : VolumeReplication)
    (pvc : Option PersistentVolumeClaim) (vg : Option VolumeGroup)
    (src : Option ReplicationSource) (handle : String) (parameters secret : StringMap)
    (htr : OnlyUpdates tr) (hlive : inst.DeletionTimestamp = none) :
    (∃ err fin tr1, OnlyUpdates tr1 ∧
        reconcileFinalizers env tr inst pvc vg src handle parameters secret =
          { exit := Exit.returned {} (some err), inst := some { inst with Finalizers := fin },
            trace := tr1 })
    ∨ (∃ fin tr1, OnlyUpdates tr1 ∧
        reconcileFinalizers env tr inst pvc vg src handle parameters secret =
          reconcileReplication env tr1 { inst with Finalizers := fin } src handle parameters secret) := by
  unfold reconcileFinalizers
  rw [hlive]
  have hA := addFinalizerToVR_onlyUpdates env tr inst htr
  obtain ⟨fin, hfin⟩ := addFinalizerToVR_inst env tr inst
  have hP := fun c => addFinalizerToPVC_onlyUpdates env (addFinalizerToVR env tr inst).trace c hA
  cases pvc with
  | none =>
    cases vg with
    | none =>
      dsimp only
      split
      · left; exact ⟨_, fin, _, hA, by rw [hfin, hlive]⟩
      · right; exact ⟨fin, _, hA, by rw [hfin, hlive]⟩
    | some v =>
      have hG := addFinalizerToVG_onlyUpdates env (addFinalizerToVR env tr inst).trace v hA
      dsimp only
      split
      · left; exact ⟨_, fin, _, hA, by rw [hfin, hlive]⟩
      · split
        · left; exact ⟨_, fin, _, hG, by rw [hfin, hlive]⟩
        · right; exact ⟨fin, _, hG, by rw [hfin, hlive]⟩
  | some c =>
    cases vg with
    | none =>
      dsimp only
      split
      · left; exact ⟨_, fin, _, hA, by rw [hfin, hlive]⟩
      · split
        · left; exact ⟨_, fin, _, hP c, by rw [hfin, hlive]⟩
        · right; exact ⟨fin, _, hP c, by rw [hfin, hlive]⟩
    | some v =>
      have hG := addFinalizerToVG_onlyUpdates env
        (addFinalizerToPVC env (addFinalizerToVR env tr inst).trace c).2.2 v (hP c)
      dsimp only
      split
      · left; exact ⟨_, fin, _, hA, by rw [hfin, hlive]⟩
      · split
        · left; exact ⟨_, fin, _, hP c, by rw [hfin, hlive]⟩
        · split
          · left; exact ⟨_, fin, _, hG, by rw [hfin, hlive]⟩
          · right; exact ⟨fin, _, hG, by rw [hfin, hlive]⟩

/-- The three ways `reconcileReplication` goes: the write of the start time
fails; Enable fails; or both succeed and the switch on the desired state
runs. -/
theorem reconcileReplication_cases (env : Env) (tr : List Event) (inst0 : VolumeReplication)
    (src : Option ReplicationSource) (handle : String) (parameters secret : StringMap) :
    (∃ err, env.update tr (Object.vr (inst0.withLastStartTime (env.now tr))) = some err ∧
        reconcileReplication env tr inst0 src handle parameters secret =
          { exit := Exit.returned {} (some err),
            inst := some (inst0.withLastStartTime (env.now tr)),
            trace := tr ++ [Event.update (Object.vr (inst0.withLastStartTime (env.now tr)))
              (some err)] })
    ∨ (∃ r err, r.Error = some err ∧
        reconcileReplication env tr inst0 src handle parameters secret =
          { exit := Exit.returned {} (some err),
            inst := some (recordFailure env
              (tr ++ [Event.update (Object.vr (inst0.withLastStartTime (env.now tr))) none,
                Event.rpc (Call.EnableVolumeReplication src handle secret parameters) r])
              (inst0.withLastStartTime (env.now tr)) (GetMessageFromError err)).inst,
            trace := (recordFailure env
              (tr ++ [Event.update (Object.vr (inst0.withLastStartTime (env.now tr))) none,
                Event.rpc (Call.EnableVolumeReplication src handle secret parameters) r])
              (inst0.withLastStartTime (env.now tr)) (GetMessageFromError err)).trace })
    ∨ (∃ r, r.Error = none ∧
        reconcileReplication env tr inst0 src handle parameters secret =
          reconcileDesiredState env
            (tr ++ [Event.update (Object.vr (inst0.withLastStartTime (env.now tr))) none,
              Event.rpc (Call.EnableVolumeReplication src handle secret parameters) r])
            (inst0.withLastStartTime (env.now tr)) src handle parameters secret) := by
  unfold reconcileReplication
  dsimp only
  cases hu : env.update tr (Object.vr (inst0.withLastStartTime (env.now tr))) with
  | some err => left; exact ⟨err, rfl, rfl⟩
  | none =>
    right
    cases he : (env.client (tr ++ [Event.update (Object.vr (inst0.withLastStartTime (env.now tr))) none])
        (Call.EnableVolumeReplication src handle secret parameters)).Error with
    | some err =>
      left
      refine ⟨_, err, he, ?_⟩
      simp [he, enableReplication, Replication.Enable, Env.invoke]
    | none =>
      right
      refine ⟨_, he, ?_⟩
      simp [he, enableReplication, Replication.Enable, Env.invoke]

/-! ## Passes that end before the driver is asked for a state change -/

/-- C12: the ownership filter.  For an intent whose class exists and names a
provisioner other than the configured driver, marked for deletion or not, the
pass has an empty trace (no driver call, no write to the intent, to its status
or to the data source), leaves the intent as fetched, and returns an empty
result with a nil error. -/
theorem Reconcile_ownership_filter (env : Env) (req : NamespacedName) (inst0 : VolumeReplication)
    (vrc : VolumeReplicationClass)
    (hget : env.getInstance req = Except.ok inst0)
    (hclass : env.getClass { Name := inst0.Spec.VolumeReplicationClass } = Except.ok vrc)
    (hforeign : vrc.Spec.Provisioner ≠ env.DriverName) :
    (Reconcile env req).trace = []
    ∧ driverCalls (Reconcile env req).trace = []
    ∧ storeWrites (Reconcile env req).trace = []
    ∧ statusWrites (Reconcile env req).trace = []
    ∧ (Reconcile env req).inst = some inst0
    ∧ (Reconcile env req).exit = Exit.returned {} none := by
  have hne : env.DriverName ≠ vrc.Spec.Provisioner := fun h => hforeign h.symm
  have h : Reconcile env req =
      { exit := Exit.returned {} none, inst := some inst0, trace := [] } := by
    unfold Reconcile
    simp [hget, getVolumeReplicationClass, hclass, hne]
  rw [h]
  exact ⟨rfl, rfl, rfl, rfl, rfl, rfl⟩

/-- C17, as the code has it: for an intent owned by this driver whose class
parameters are refused by validatePrefixedParameters with the error `err`,
Reconcile records the text of `err` as the status message, makes no driver
call and no write other than that status write, and returns an empty result
together with `err` itself, not a nil error. -/
theorem Reconcile_invalid_parameters (env : Env) (req : NamespacedName) (inst0 : VolumeReplication)
    (vrc : VolumeReplicationClass) (err : GoError)
    (hget : env.getInstance req = Except.ok inst0)
    (hclass : env.getClass { Name := inst0.Spec.VolumeReplicationClass } = Except.ok vrc)
    (hown : env.DriverName = vrc.Spec.Provisioner)
    (hval : env.validatePrefixedParameters vrc.Spec.Parameters = some err) :
    (Reconcile env req).exit = Exit.returned {} (some err)
    ∧ driverCalls (Reconcile env req).trace = []
    ∧ storeWrites (Reconcile env req).trace = []
    ∧ (∃ inst, (Reconcile env req).inst = some inst
        ∧ inst.Status.Message = err.text
        ∧ inst.Finalizers = inst0.Finalizers
        ∧ (Reconcile env req).trace = [Event.statusUpdate inst (env.statusUpdate [] inst)]) := by
  have h : Reconcile env req =
      { exit := Exit.returned {} (some err), inst := some (recordFailure env [] inst0 err.text).inst,
        trace := (recordFailure env [] inst0 err.text).trace } := by
    unfold Reconcile
    simp [hget, getVolumeReplicationClass, hclass, hown, hval]
  rw [h]
  refine ⟨rfl, rfl, rfl, _, rfl, rfl, ?_, rfl⟩
  unfold recordFailure setFailureCondition
  cases inst0.Spec.ReplicationState <;> rfl

/-- On a data source whose kind is neither a claim nor a volume group the
resolution records the failure with the message "unsupported datasource kind"
and ends the pass with an empty result and a nil error. -/
theorem reconcileDataSource_unsupported_kind (env : Env) (req : NamespacedName)
    (inst : VolumeReplication) (parameters secret : StringMap)
    (hpvc : inst.Spec.DataSource.Kind ≠ pvcDataSource)
    (hvg : inst.Spec.DataSource.Kind ≠ volumeGroupDataSource) :
    reconcileDataSource env req inst parameters secret =
      { exit := Exit.returned {} none,
        inst := some (recordFailure env [] inst "unsupported datasource kind").inst,
        trace := (recordFailure env [] inst "unsupported datasource kind").trace } := by
  unfold reconcileDataSource
  simp [hpvc, hvg, GoError.new]

/-- C11: for an intent that is not marked for deletion and whose desired state
is none of Primary, Secondary and Resync, no pass calls Promote, Demote,
Resync or Disable: the driver calls of the pass are one Enable at most.  In a
pass where Enable succeeded, Enable is the one driver call, the status is
written with the message "unsupported volume state", and Reconcile returns an
empty result with a nil error. -/
theorem Reconcile_unsupported_state (env : Env) (req : NamespacedName) (inst0 : VolumeReplication)
    (raw : String)
    (hget : env.getInstance req = Except.ok inst0)
    (hlive : inst0.DeletionTimestamp = none)
    (hdesired : inst0.Spec.ReplicationState = ReplicationState.other raw) :
    (driverCalls (Reconcile env req).trace = []
      ∨ ∃ src id secrets params, driverCalls (Reconcile env req).trace =
          [Call.EnableVolumeReplication src id secrets params])
    ∧ (enableSucceeded (Reconcile env req).trace = true →
        (∃ src id secrets params, driverCalls (Reconcile env req).trace =
            [Call.EnableVolumeReplication src id secrets params])
        ∧ (∃ inst, (Reconcile env req).inst = some inst
            ∧ inst.Status.Message = "unsupported volume state"
            ∧ ∃ werr, Event.statusUpdate inst werr ∈ (Reconcile env req).trace)
        ∧ (Reconcile env req).exit = Exit.returned {} none) := by
  rcases Reconcile_prefix env req inst0 hget with ⟨-, htr⟩ | ⟨pvc, vg, src, handle, parameters, secret, -, hout⟩
  · have hev : driverEvents (Reconcile env req).trace = [] := by
      rcases htr with ⟨h, -⟩ | ⟨msg, -, h⟩
      · rw [h]; rfl
      · rw [h]; simp [recordFailure]
    have hcalls : driverCalls (Reconcile env req).trace = [] := by
      rw [driverCalls_eq_map, hev]; rfl
    refine ⟨Or.inl hcalls, ?_⟩
    intro hen
    simp [enableSucceeded, hev] at hen
  · rw [hout]
    rcases reconcileFinalizers_live env [] inst0 pvc vg src handle parameters secret
        onlyUpdates_nil hlive with ⟨err, fin, tr1, h1, h2⟩ | ⟨fin, tr1, h1, h2⟩
    · rw [h2]
      refine ⟨Or.inl (onlyUpdates_driverCalls h1), ?_⟩
      intro hen
      simp [enableSucceeded, onlyUpdates_driverEvents h1] at hen
    · rw [h2]
      have hc1 := onlyUpdates_driverCalls h1
      have he1 := onlyUpdates_driverEvents h1
      rcases reconcileReplication_cases env tr1 { inst0 with Finalizers := fin } src handle
          parameters secret with ⟨err, -, h3⟩ | ⟨r, err, hr, h3⟩ | ⟨r, hr, h3⟩
      · rw [h3]
        refine ⟨Or.inl (by simp [hc1]), ?_⟩
        intro hen
        simp [enableSucceeded, he1] at hen
      · rw [h3]
        refine ⟨Or.inr ⟨src, handle, secret, parameters, by simp [recordFailure, hc1]⟩, ?_⟩
        intro hen
        simp [enableSucceeded, recordFailure, he1, hr] at hen
      · rw [h3]
        unfold reconcileDesiredState
        simp only [withLastStartTime_Spec, hdesired]
        refine ⟨Or.inr ⟨src, handle, secret, parameters, by simp [recordFailure, hc1]⟩, ?_⟩
        intro _
        refine ⟨⟨src, handle, secret, parameters, by simp [recordFailure, hc1]⟩,
          ⟨_, rfl, rfl, ?_⟩, trivial⟩
        simp [recordFailure]

/-! ## The shape of the switch on the desired state -/

/-- Every event of the list is a Promote, Demote or Resync call. -/
theorem onlyReplication_driverEvents {evs : List Event}
    (h : ∀ ev ∈ evs, ∃ c r, ev = Event.rpc c r ∧ c.isReplication = true) :
    ∀ cr ∈ driverEvents evs, cr.1.isReplication = true := by
  induction evs with
  | nil => intro cr hcr; cases hcr
  | cons x rest ih =>
    obtain ⟨c, r, hx, hc⟩ := h x (List.mem_cons_self _ _)
    subst hx
    intro cr hcr
    simp only [driverEvents_rpc, List.mem_cons] at hcr
    rcases hcr with hcr | hcr
    · subst hcr; exact hc
    · exact ih (fun ev hev => h ev (List.mem_cons_of_mem _ hev)) cr hcr

theorem onlyReplication_writes {evs : List Event}
    (h : ∀ ev ∈ evs, ∃ c r, ev = Event.rpc c r ∧ c.isReplication = true) :
    storeWrites evs = [] ∧ statusWrites evs = [] := by
  induction evs with
  | nil => exact ⟨rfl, rfl⟩
  | cons x rest ih =>
    obtain ⟨c, r, hx, -⟩ := h x (List.mem_cons_self _ _)
    subst hx
    simpa using ih (fun ev hev => h ev (List.mem_cons_of_mem _ hev))

theorem recordFailure_Generation (env : Env) (tr : List Event) (inst : VolumeReplication)
    (msg : String) :
    (recordFailure env tr inst msg).inst.Generation = inst.Generation
    ∧ (recordFailure env tr inst msg).inst.Status.ObservedGeneration = inst.Generation
    ∧ (recordFailure env tr inst msg).inst.Finalizers = inst.Finalizers := by
  unfold recordFailure setFailureCondition
  cases inst.Spec.ReplicationState <;> exact ⟨rfl, rfl, rfl⟩

theorem recordFailure_trace (env : Env) (tr : List Event) (inst : VolumeReplication)
    (msg : String) :
    (recordFailure env tr inst msg).trace =
      tr ++ [Event.statusUpdate (recordFailure env tr inst msg).inst
        (recordFailure env tr inst msg).err] := rfl

theorem markVolumeAsPrimary_shape (env : Env) (tr : List Event) (inst : VolumeReplication)
    (src : Option ReplicationSource) (id : String) (parameters secrets : StringMap) :
    ∃ evs cs,
      (markVolumeAsPrimary env tr inst src id parameters secrets).trace = tr ++ evs
      ∧ (∀ ev ∈ evs, ∃ c r, ev = Event.rpc c r ∧ c.isReplication = true)
      ∧ (markVolumeAsPrimary env tr inst src id parameters secrets).inst = inst.withConditions cs := by
  unfold markVolumeAsPrimary
  simp only [Replication.Promote, Env.invoke]
  have h1 : ∀ r, ∀ ev ∈ [Event.rpc (Call.PromoteVolume src id false secrets parameters) r],
      ∃ c r, ev = Event.rpc c r ∧ c.isReplication = true := by
    intro r ev hev
    exact ⟨_, _, List.mem_singleton.mp hev, rfl⟩
  have h2 : ∀ r1 r2, ∀ ev ∈ [Event.rpc (Call.PromoteVolume src id false secrets parameters) r1,
      Event.rpc (Call.PromoteVolume src id true secrets parameters) r2],
      ∃ c r, ev = Event.rpc c r ∧ c.isReplication = true := by
    intro r1 r2 ev hev
    simp only [List.mem_cons, List.mem_singleton, List.mem_nil_iff, or_false] at hev
    rcases hev with hev | hev
    · exact ⟨_, _, hev, rfl⟩
    · exact ⟨_, _, hev, rfl⟩
  split
  · split
    · exact ⟨_, _, rfl, h1 _, rfl⟩
    · split
      · exact ⟨[Event.rpc (Call.PromoteVolume src id false secrets parameters)
            (env.client tr (Call.PromoteVolume src id false secrets parameters)),
          Event.rpc (Call.PromoteVolume src id true secrets parameters)
            (env.client (tr ++ [Event.rpc (Call.PromoteVolume src id false secrets parameters)
              (env.client tr (Call.PromoteVolume src id false secrets parameters))])
              (Call.PromoteVolume src id true secrets parameters))],
          _, by simp, h2 _ _, rfl⟩
      · exact ⟨[Event.rpc (Call.PromoteVolume src id false secrets parameters)
            (env.client tr (Call.PromoteVolume src id false secrets parameters)),
          Event.rpc (Call.PromoteVolume src id true secrets parameters)
            (env.client (tr ++ [Event.rpc (Call.PromoteVolume src id false secrets parameters)
              (env.client tr (Call.PromoteVolume src id false secrets parameters))])
              (Call.PromoteVolume src id true secrets parameters))],
          _, by simp, h2 _ _, rfl⟩
  · exact ⟨_, _, rfl, h1 _, rfl⟩

theorem reconcileOutcome_shape (env : Env) (tr : List Event) (inst : VolumeReplication)
    (rerr : Option GoError) (requeue : Bool) :
    ∃ inst1 werr result err,
      (reconcileOutcome env tr inst rerr requeue).trace = tr ++ [Event.statusUpdate inst1 werr]
      ∧ (reconcileOutcome env tr inst rerr requeue).inst = some inst1
      ∧ (reconcileOutcome env tr inst rerr requeue).exit = Exit.returned result err
      ∧ inst1.Generation = inst.Generation
      ∧ inst1.Status.ObservedGeneration = inst.Generation := by
  unfold reconcileOutcome
  cases rerr with
  | some e =>
    dsimp only
    split <;> exact ⟨_, _, _, _, rfl, rfl, rfl, rfl, rfl⟩
  | none =>
    dsimp only
    split
    · exact ⟨_, _, _, _, rfl, rfl, rfl, rfl, rfl⟩
    · split <;> exact ⟨_, _, _, _, rfl, rfl, rfl, rfl, rfl⟩

/-- Whatever the desired state, the switch adds to the trace Promote, Demote
or Resync calls only, then one status write, of the intent it hands back; that
intent has the generation of the intent it was given, and its observed
generation is that generation. -/
theorem reconcileDesiredState_shape (env : Env) (tr : List Event) (inst : VolumeReplication)
    (src : Option ReplicationSource) (handle : String) (parameters secret : StringMap) :
    ∃ evs inst1 werr result err,
      (reconcileDesiredState env tr inst src handle parameters secret).trace =
        tr ++ evs ++ [Event.statusUpdate inst1 werr]
      ∧ (∀ ev ∈ evs, ∃ c r, ev = Event.rpc c r ∧ c.isReplication = true)
      ∧ (reconcileDesiredState env tr inst src handle parameters secret).inst = some inst1
      ∧ (reconcileDesiredState env tr inst src handle parameters secret).exit =
        Exit.returned result err
      ∧ inst1.Generation = inst.Generation
      ∧ inst1.Status.ObservedGeneration = inst.Generation := by
  have hdem : ∀ r, ∀ ev ∈ [Event.rpc (Call.DemoteVolume src handle secret parameters) r],
      ∃ c r, ev = Event.rpc c r ∧ c.isReplication = true := by
    intro r ev hev
    exact ⟨_, _, List.mem_singleton.mp hev, rfl⟩
  unfold reconcileDesiredState
  cases hs : inst.Spec.ReplicationState with
  | Primary =>
    dsimp only
    obtain ⟨evs, cs, h1, h2, h3⟩ := markVolumeAsPrimary_shape env tr inst src handle parameters secret
    obtain ⟨inst1, werr, result, err, g1, g2, g3, g4, g5⟩ := reconcileOutcome_shape env
      (markVolumeAsPrimary env tr inst src handle parameters secret).trace
      (markVolumeAsPrimary env tr inst src handle parameters secret).inst
      (markVolumeAsPrimary env tr inst src handle parameters secret).err false
    refine ⟨evs, inst1, werr, result, err, ?_, h2, g2, g3, ?_, ?_⟩
    · rw [g1, h1]
    · rw [g4, h3]; rfl
    · rw [g5, h3]; rfl
  | Secondary =>
    dsimp only
    have hinst := markVolumeAsSecondary_inst env tr inst src handle parameters secret
    split
    · simp only [markVolumeAsSecondary_err, markVolumeAsSecondary_trace]
      cases hd : (env.client tr (Call.DemoteVolume src handle secret parameters)).Error with
      | none =>
        dsimp only
        split
        · exact ⟨_, _, _, _, _, rfl, hdem _, rfl, rfl, by simp [hinst], by simp [hinst]⟩
        · exact ⟨_, _, _, _, _, rfl, hdem _, rfl, rfl, by simp [hinst], by simp [hinst]⟩
      | some e =>
        dsimp only
        obtain ⟨inst1, werr, result, err, g1, g2, g3, g4, g5⟩ := reconcileOutcome_shape env
          (tr ++ [Event.rpc (Call.DemoteVolume src handle secret parameters)
            (env.client tr (Call.DemoteVolume src handle secret parameters))])
          (markVolumeAsSecondary env tr inst src handle parameters secret).inst (some e) false
        refine ⟨_, inst1, werr, result, err, g1, hdem _, g2, g3, ?_, ?_⟩
        · rw [g4, hinst]; rfl
        · rw [g5, hinst]; rfl
    · simp only [markVolumeAsSecondary_err, markVolumeAsSecondary_trace]
      cases hd : (env.client tr (Call.DemoteVolume src handle secret parameters)).Error with
      | none =>
        dsimp only
        obtain ⟨-, -, -, cs, h4⟩ := resyncVolume_summary env
          (tr ++ [Event.rpc (Call.DemoteVolume src handle secret parameters)
            (env.client tr (Call.DemoteVolume src handle secret parameters))])
          (markVolumeAsSecondary env tr inst src handle parameters secret).inst
          src handle inst.Spec.AutoResync parameters secret
        obtain ⟨inst1, werr, result, err, g1, g2, g3, g4, g5⟩ := reconcileOutcome_shape env
          (resyncVolume env
            (tr ++ [Event.rpc (Call.DemoteVolume src handle secret parameters)
              (env.client tr (Call.DemoteVolume src handle secret parameters))])
            (markVolumeAsSecondary env tr inst src handle parameters secret).inst
            src handle inst.Spec.AutoResync parameters secret).trace
          (resyncVolume env
            (tr ++ [Event.rpc (Call.DemoteVolume src handle secret parameters)
              (env.client tr (Call.DemoteVolume src handle secret parameters))])
            (markVolumeAsSecondary env tr inst src handle parameters secret).inst
            src handle inst.Spec.AutoResync parameters secret).inst
          (resyncVolume env
            (tr ++ [Event.rpc (Call.DemoteVolume src handle secret parameters)
              (env.client tr (Call.DemoteVolume src handle secret parameters))])
            (markVolumeAsSecondary env tr inst src handle parameters secret).inst
            src handle inst.Spec.AutoResync parameters secret).err
          (resyncVolume env
            (tr ++ [Event.rpc (Call.DemoteVolume src handle secret parameters)
              (env.client tr (Call.DemoteVolume src handle secret parameters))])
            (markVolumeAsSecondary env tr inst src handle parameters secret).inst
            src handle inst.Spec.AutoResync parameters secret).requeue
        refine ⟨[Event.rpc (Call.DemoteVolume src handle secret parameters)
            (env.client tr (Call.DemoteVolume src handle secret parameters)),
          Event.rpc (Call.ResyncVolume src handle inst.Spec.AutoResync secret parameters)
            (env.client (tr ++ [Event.rpc (Call.DemoteVolume src handle secret parameters)
              (env.client tr (Call.DemoteVolume src handle secret parameters))])
              (Call.ResyncVolume src handle inst.Spec.AutoResync secret parameters))],
          inst1, werr, result, err, ?_, ?_, g2, g3, ?_, ?_⟩
        · rw [g1]; simp
        · intro ev hev
          simp only [List.mem_cons, List.mem_singleton, List.mem_nil_iff, or_false] at hev
          rcases hev with hev | hev
          · exact ⟨_, _, hev, rfl⟩
          · exact ⟨_, _, hev, rfl⟩
        · rw [g4, h4, hinst]; rfl
        · rw [g5, h4, hinst]; rfl
      | some e =>
        dsimp only
        obtain ⟨inst1, werr, result, err, g1, g2, g3, g4, g5⟩ := reconcileOutcome_shape env
          (tr ++ [Event.rpc (Call.DemoteVolume src handle secret parameters)
            (env.client tr (Call.DemoteVolume src handle secret parameters))])
          (markVolumeAsSecondary env tr inst src handle parameters secret).inst (some e) false
        refine ⟨_, inst1, werr, result, err, g1, hdem _, g2, g3, ?_, ?_⟩
        · rw [g4, hinst]; rfl
        · rw [g5, hinst]; rfl
  | Resync =>
    dsimp only
    obtain ⟨-, -, -, cs, h4⟩ := resyncVolume_summary env tr inst src handle true parameters secret
    obtain ⟨inst1, werr, result, err, g1, g2, g3, g4, g5⟩ := reconcileOutcome_shape env
      (resyncVolume env tr inst src handle true parameters secret).trace
      (resyncVolume env tr inst src handle true parameters secret).inst
      (resyncVolume env tr inst src handle true parameters secret).err
      (resyncVolume env tr inst src handle true parameters secret).requeue
    refine ⟨[Event.rpc (Call.ResyncVolume src handle true secret parameters)
        (env.client tr (Call.ResyncVolume src handle true secret parameters))],
      inst1, werr, result, err, ?_, ?_, g2, g3, ?_, ?_⟩
    · rw [g1]; simp
    · intro ev hev
      exact ⟨_, _, List.mem_singleton.mp hev, rfl⟩
    · rw [g4, h4]; rfl
    · rw [g5, h4]; rfl
  | other raw =>
    dsimp only
    refine ⟨[], (recordFailure env tr inst (GoError.new "unsupported volume state").text).inst,
      (recordFailure env tr inst (GoError.new "unsupported volume state").text).err, _, _,
      ?_, ?_, rfl, rfl, ?_, ?_⟩
    · rw [recordFailure_trace, List.append_nil]
    · intro ev hev; cases hev
    · exact (recordFailure_Generation env tr inst _).1
    · exact (recordFailure_Generation env tr inst _).2.1

/-! ## The finalizer phase on an intent marked for deletion -/

theorem hasKnown_disable (r : Response) :
    r.HasKnownGRPCError disableReplicationKnownErrors = true ↔
      ∃ err message, r.Error = some err ∧ err.status = some (codes.NotFound, message) := by
  rw [hasKnownGRPCError_eq_true_iff]
  simp [disableReplicationKnownErrors]

theorem disableVolumeReplication_eq (env : Env) (tr : List Event)
    (src : Option ReplicationSource) (id : String) (parameters secrets : StringMap) :
    (disableVolumeReplication env tr src id parameters secrets).2 =
        tr ++ [Event.rpc (Call.DisableVolumeReplication src id secrets parameters)
          (env.client tr (Call.DisableVolumeReplication src id secrets parameters))]
    ∧ (disableVolumeReplication env tr src id parameters secrets).1 =
        (if (env.client tr (Call.DisableVolumeReplication src id secrets parameters)).HasKnownGRPCError
            disableReplicationKnownErrors
          then none
          else (env.client tr (Call.DisableVolumeReplication src id secrets parameters)).Error) := by
  unfold disableVolumeReplication
  simp only [Replication.Disable, Env.invoke]
  cases hE : (env.client tr (Call.DisableVolumeReplication src id secrets parameters)).Error with
  | none =>
    have hk : (env.client tr (Call.DisableVolumeReplication src id secrets parameters)).HasKnownGRPCError
        disableReplicationKnownErrors = false := by
      unfold Response.HasKnownGRPCError
      rw [hE]
    simp [hk]
  | some e =>
    dsimp only
    split <;> simp_all

theorem removeFinalizerFromVR_present (env : Env) (tr : List Event) (vr : VolumeReplication)
    (h : contains vr.Finalizers volumeReplicationFinalizer = true) :
    removeFinalizerFromVR env tr vr =
      { err := (env.update tr (Object.vr
            { vr with Finalizers := remove vr.Finalizers volumeReplicationFinalizer })).map
          (GoError.wrapf ("failed to remove finalizer (" ++ volumeReplicationFinalizer ++
            ") from VolumeReplication resource (" ++ vr.Namespace ++ "/" ++ vr.Name ++ "), "))
        inst := { vr with Finalizers := remove vr.Finalizers volumeReplicationFinalizer }
        trace := tr ++ [Event.update (Object.vr
            { vr with Finalizers := remove vr.Finalizers volumeReplicationFinalizer })
          (env.update tr (Object.vr
            { vr with Finalizers := remove vr.Finalizers volumeReplicationFinalizer }))] } := by
  unfold removeFinalizerFromVR
  rw [if_pos h]
  dsimp only
  split <;> simp_all

/-- The four ways the finalizer phase goes on an intent marked for deletion:
the intent finalizer is absent and nothing is done; Disable is refused; Disable
is accepted and the write that removes the data-source finalizer fails; or
that removal goes through (with one write, or none when the token was absent)
and the intent finalizer is removed by a last write. -/
theorem reconcileFinalizers_deleted (env : Env) (inst : VolumeReplication)
    (pvc : Option PersistentVolumeClaim) (vg : Option VolumeGroup)
    (src : Option ReplicationSource) (handle : String) (parameters secret : StringMap) (t : Time)
    (hdel : inst.DeletionTimestamp = some t) (hone : pvc = none ∨ vg = none) :
    (contains inst.Finalizers volumeReplicationFinalizer = false ∧
      reconcileFinalizers env [] inst pvc vg src handle parameters secret =
        { exit := Exit.returned {} none, inst := some inst, trace := [] })
    ∨ (contains inst.Finalizers volumeReplicationFinalizer = true ∧
      ∃ r, r = env.client [] (Call.DisableVolumeReplication src handle secret parameters) ∧
      ((∃ e, r.Error = some e ∧
          r.HasKnownGRPCError disableReplicationKnownErrors = false ∧
          reconcileFinalizers env [] inst pvc vg src handle parameters secret =
            { exit := Exit.returned {} (some e), inst := some inst,
              trace := [Event.rpc (Call.DisableVolumeReplication src handle secret parameters) r] })
      ∨ ((r.Error = none ∨ r.HasKnownGRPCError disableReplicationKnownErrors = true) ∧
          ∃ ds : List Event,
            (∀ c, pvc = some c →
              ds = (if contains c.Finalizers pvcReplicationFinalizer then
                [Event.update (Object.pvc
                    { c with Finalizers := remove c.Finalizers pvcReplicationFinalizer })
                  (env.update [Event.rpc (Call.DisableVolumeReplication src handle secret parameters) r]
                    (Object.pvc { c with Finalizers := remove c.Finalizers pvcReplicationFinalizer }))]
                else []))
            ∧ (∀ g, vg = some g →
              ds = (if contains g.Finalizers vgReplicationFinalizer then
                [Event.update (Object.vg
                    { g with Finalizers := remove g.Finalizers vgReplicationFinalizer })
                  (env.update [Event.rpc (Call.DisableVolumeReplication src handle secret parameters) r]
                    (Object.vg { g with Finalizers := remove g.Finalizers vgReplicationFinalizer }))]
                else []))
            ∧ (pvc = none → vg = none → ds = [])
            ∧ ((∃ o e w, ds = [Event.update o (some e)] ∧ (∀ v, o ≠ Object.vr v) ∧
                  reconcileFinalizers env [] inst pvc vg src handle parameters secret =
                    { exit := Exit.returned {} (some w), inst := some inst,
                      trace := [Event.rpc (Call.DisableVolumeReplication src handle secret parameters) r]
                        ++ ds })
              ∨ ((ds = [] ∨ ∃ o, ds = [Event.update o none] ∧ ∀ v, o ≠ Object.vr v) ∧
                  reconcileFinalizers env [] inst pvc vg src handle parameters secret =
                    { exit := Exit.returned {}
                        ((env.update
                            ([Event.rpc (Call.DisableVolumeReplication src handle secret parameters) r]
                              ++ ds)
                            (Object.vr { inst with
                              Finalizers := remove inst.Finalizers volumeReplicationFinalizer })).map
                          (GoError.wrapf ("failed to remove finalizer (" ++ volumeReplicationFinalizer ++
                            ") from VolumeReplication resource (" ++ inst.Namespace ++ "/" ++
                            inst.Name ++ "), ")))
                      inst := some { inst with
                        Finalizers := remove inst.Finalizers volumeReplicationFinalizer }
                      trace := [Event.rpc (Call.DisableVolumeReplication src handle secret parameters) r]
                        ++ ds ++ [Event.update
                          (Object.vr { inst with
                            Finalizers := remove inst.Finalizers volumeReplicationFinalizer })
                          (env.update
                            ([Event.rpc (Call.DisableVolumeReplication src handle secret parameters) r]
                              ++ ds)
                            (Object.vr { inst with
                              Finalizers := remove inst.Finalizers volumeReplicationFinalizer }))] }))))) := by
  unfold reconcileFinalizers
  rw [hdel]
  dsimp only
  by_cases hfin : contains inst.Finalizers volumeReplicationFinalizer = true
  swap
  · left
    rw [if_neg hfin]
    exact ⟨by simpa using hfin, rfl⟩
  right
  rw [if_pos hfin]
  refine ⟨hfin, _, rfl, ?_⟩
  obtain ⟨hdtr, hderr⟩ := disableVolumeReplication_eq env [] src handle parameters secret
  rw [List.nil_append] at hdtr
  rw [hdtr, hderr]
  have hacc : ((env.client [] (Call.DisableVolumeReplication src handle secret parameters)).Error = none
        ∨ (env.client [] (Call.DisableVolumeReplication src handle secret parameters)).HasKnownGRPCError
          disableReplicationKnownErrors = true) →
      (if (env.client [] (Call.DisableVolumeReplication src handle secret parameters)).HasKnownGRPCError
          disableReplicationKnownErrors = true then none
        else (env.client [] (Call.DisableVolumeReplication src handle secret parameters)).Error) = none := by
    intro h
    rcases h with h | h
    · rw [h]; simp
    · rw [if_pos h]
  by_cases hok : (env.client [] (Call.DisableVolumeReplication src handle secret parameters)).Error = none
      ∨ (env.client [] (Call.DisableVolumeReplication src handle secret parameters)).HasKnownGRPCError
        disableReplicationKnownErrors = true
  swap
  · left
    have hk : (env.client [] (Call.DisableVolumeReplication src handle secret parameters)).HasKnownGRPCError
        disableReplicationKnownErrors = false := by
      cases h : (env.client [] (Call.DisableVolumeReplication src handle secret parameters)).HasKnownGRPCError
        disableReplicationKnownErrors
      · rfl
      · exact absurd (Or.inr h) hok
    cases hE : (env.client [] (Call.DisableVolumeReplication src handle secret parameters)).Error with
    | none => exact absurd (Or.inl hE) hok
    | some e =>
      refine ⟨e, rfl, hk, ?_⟩
      simp [hk, hdel]
  right
  refine ⟨hok, ?_⟩
  rw [hacc hok]
  dsimp only
  have hvr := fun tr => removeFinalizerFromVR_present env tr inst hfin
  cases pvc with
  | some c =>
    have hv : vg = none := by
      rcases hone with h | h
      · cases h
      · exact h
    subst hv
    dsimp only
    unfold removeFinalizerFromPVC
    by_cases hc : contains c.Finalizers pvcReplicationFinalizer = true
    · rw [if_pos hc]
      dsimp only
      cases hu : env.update
          [Event.rpc (Call.DisableVolumeReplication src handle secret parameters)
            (env.client [] (Call.DisableVolumeReplication src handle secret parameters))]
          (Object.pvc { c with Finalizers := remove c.Finalizers pvcReplicationFinalizer }) with
      | some e =>
        refine ⟨[Event.update (Object.pvc
            { c with Finalizers := remove c.Finalizers pvcReplicationFinalizer }) (some e)],
          ?_, ?_, ?_, Or.inl ⟨_, e,
            GoError.wrapf ("failed to remove finalizer (" ++ pvcReplicationFinalizer ++
              ") from PersistentVolumeClaim resource (" ++ c.Namespace ++ "/" ++ c.Name ++ "), ") e,
            rfl, (by intro v h; cases h), ?_⟩⟩
        · intro c1 h1; cases h1; simp [hc, hu]
        · intro g h; cases h
        · intro h; cases h
        · simp [hdel]
      | none =>
        refine ⟨[Event.update (Object.pvc
            { c with Finalizers := remove c.Finalizers pvcReplicationFinalizer }) none],
          ?_, ?_, ?_, Or.inr ⟨Or.inr ⟨_, rfl, (by intro v h; cases h)⟩, ?_⟩⟩
        · intro c1 h1; cases h1; simp [hc, hu]
        · intro g h; cases h
        · intro h; cases h
        · dsimp only
          rw [hvr]
          simp only [hdel, List.append_assoc, List.singleton_append, List.nil_append,
            List.append_nil, List.cons_append]
          generalize env.update _ (Object.vr _) = u
          cases u <;> simp
    · rw [if_neg hc]
      refine ⟨[], ?_, ?_, ?_, Or.inr ⟨Or.inl rfl, ?_⟩⟩
      · intro c1 h1; cases h1; simp [hc]
      · intro g h; cases h
      · intro h; cases h
      · dsimp only
        rw [hvr]
        simp only [hdel, List.append_assoc, List.singleton_append, List.nil_append,
          List.append_nil, List.cons_append]
        generalize env.update _ (Object.vr _) = u
        cases u <;> simp
  | none =>
    dsimp only
    cases vg with
    | none =>
      refine ⟨[], ?_, ?_, ?_, Or.inr ⟨Or.inl rfl, ?_⟩⟩
      · intro c h; cases h
      · intro g h; cases h
      · intro _ _; rfl
      · dsimp only
        rw [hvr]
        simp only [hdel, List.append_assoc, List.singleton_append, List.nil_append,
          List.append_nil, List.cons_append]
        generalize env.update _ (Object.vr _) = u
        cases u <;> simp
    | some g =>
      dsimp only
      unfold removeFinalizerFromVG
      by_cases hc : contains g.Finalizers vgReplicationFinalizer = true
      · rw [if_pos hc]
        dsimp only
        cases hu : env.update
            [Event.rpc (Call.DisableVolumeReplication src handle secret parameters)
              (env.client [] (Call.DisableVolumeReplication src handle secret parameters))]
            (Object.vg { g with Finalizers := remove g.Finalizers vgReplicationFinalizer }) with
        | some e =>
          refine ⟨[Event.update (Object.vg
              { g with Finalizers := remove g.Finalizers vgReplicationFinalizer }) (some e)],
            ?_, ?_, ?_, Or.inl ⟨_, e,
              GoError.wrapf ("failed to remove finalizer (" ++ vgReplicationFinalizer ++
                ") from VolumeGroup resource (" ++ g.Namespace ++ "/" ++ g.Name ++ "), ") e,
              rfl, (by intro v h; cases h), ?_⟩⟩
          · intro c h; cases h
          · intro g1 h1; cases h1; simp [hc, hu]
          · intro _ h; cases h
          · simp [hdel]
        | none =>
          refine ⟨[Event.update (Object.vg
              { g with Finalizers := remove g.Finalizers vgReplicationFinalizer }) none],
            ?_, ?_, ?_, Or.inr ⟨Or.inr ⟨_, rfl, (by intro v h; cases h)⟩, ?_⟩⟩
          · intro c h; cases h
          · intro g1 h1; cases h1; simp [hc, hu]
          · intro _ h; cases h
          · dsimp only
            rw [hvr]
            simp only [hdel, List.append_assoc, List.singleton_append, List.nil_append,
              List.append_nil, List.cons_append]
            generalize env.update _ (Object.vr _) = u
            cases u <;> simp
      · rw [if_neg hc]
        refine ⟨[], ?_, ?_, ?_, Or.inr ⟨Or.inl rfl, ?_⟩⟩
        · intro c h; cases h
        · intro g1 h1; cases h1; simp [hc]
        · intro _ h; cases h
        · dsimp only
          rw [hvr]
          simp only [hdel, List.append_assoc, List.singleton_append, List.nil_append,
            List.append_nil, List.cons_append]
          generalize env.update _ (Object.vr _) = u
          cases u <;> simp

/-! ## Deleting an intent -/

theorem mem_storeWrites_of_mem {o : Object} {e : Option GoError} {tr : List Event}
    (h : Event.update o e ∈ tr) : (o, e) ∈ storeWrites tr := by
  induction tr with
  | nil => cases h
  | cons x rest ih =>
    rcases List.mem_cons.mp h with hx | hx
    · subst hx; simp
    · cases x <;> simp [ih hx]

/-- What a pass that ended during resolution leaves behind: no driver call,
no write through `r.Client.Update`, an empty result when it returned, and the
intent as fetched, or that intent with the failure written to its status. -/
theorem endsInResolution_facts {env : Env} {inst0 : VolumeReplication} {out : Outcome}
    (h : EndsInResolution env inst0 out) :
    driverEvents out.trace = [] ∧ storeWrites out.trace = []
    ∧ (∀ result err, out.exit = Exit.returned result err → result = {})
    ∧ ∃ i, out.inst = some i ∧ i.Finalizers = inst0.Finalizers
        ∧ i.Generation = inst0.Generation
        ∧ ((out.trace = [] ∧ i = inst0)
          ∨ (∃ werr, out.trace = [Event.statusUpdate i werr]
              ∧ i.Status.ObservedGeneration = inst0.Generation)) := by
  obtain ⟨hexit, hcase⟩ := h
  have hres : ∀ result err, out.exit = Exit.returned result err → result = {} := by
    intro result err hr
    rcases hexit with hp | ⟨e, he⟩
    · rw [hp] at hr; cases hr
    · rw [he] at hr; cases hr; rfl
  rcases hcase with ⟨htr, hi⟩ | ⟨msg, hi, htr⟩
  · rw [htr]
    exact ⟨rfl, rfl, hres, inst0, hi, rfl, rfl, Or.inl ⟨rfl, rfl⟩⟩
  · obtain ⟨g1, g2, g3⟩ := recordFailure_Generation env [] inst0 msg
    rw [recordFailure_trace, List.nil_append] at htr
    rw [htr]
    exact ⟨rfl, rfl, hres, _, hi, g3, g1, Or.inr ⟨_, rfl, g2⟩⟩

theorem resolvedDataSource_one {env : Env} {req : NamespacedName} {inst : VolumeReplication}
    {pvc : Option PersistentVolumeClaim} {vg : Option VolumeGroup}
    (h : ResolvedDataSource env req inst pvc vg) : pvc = none ∨ vg = none := by
  rcases h with ⟨-, h, -⟩ | ⟨-, h, -⟩
  · exact Or.inr h
  · exact Or.inl h

theorem disableFailure_of_accepted (tr : List Event) (c : Call) (r : Response)
    (hde : driverEvents tr = [(c, r)])
    (hok : r.Error = none ∨ r.HasKnownGRPCError disableReplicationKnownErrors = true) :
    disableFailure tr = none := by
  unfold disableFailure
  rw [hde]
  rcases hok with h | h <;> simp [h]

/-- C15: deletion ordering.  In every pass on an intent marked for deletion:
a write of the intent through `r.Client.Update` (the removal of the intent
finalizer) is the last event of the pass, its first event is a Disable call
that the driver answered with success or with NotFound, and every event in
between is a write of the data source that the store accepted; the intent in
memory has its finalizer list changed only when that write was issued; when
Disable fails with another error the pass makes no write at all through
`r.Client.Update`, leaves the intent as fetched and returns that error with an
empty result; every driver call of the pass is a Disable; and a pass that
returns does so with an empty result (no requeue, no delay). -/
theorem Reconcile_deletion_ordering (env : Env) (req : NamespacedName)
    (inst0 : VolumeReplication) (t : Time)
    (hget : env.getInstance req = Except.ok inst0)
    (hdel : inst0.DeletionTimestamp = some t) :
    (∀ v e, Event.update (Object.vr v) e ∈ (Reconcile env req).trace →
      ∃ c r ds, c.isDisable = true
        ∧ (r.Error = none ∨ r.HasKnownGRPCError disableReplicationKnownErrors = true)
        ∧ (∀ ev ∈ ds, ∃ o, ev = Event.update o none ∧ ∀ w, o ≠ Object.vr w)
        ∧ (Reconcile env req).trace = Event.rpc c r :: ds ++ [Event.update (Object.vr v) e]
        ∧ v.Finalizers = remove inst0.Finalizers volumeReplicationFinalizer)
    ∧ (∀ i, (Reconcile env req).inst = some i → i.Finalizers ≠ inst0.Finalizers →
        ∃ e, Event.update (Object.vr i) e ∈ (Reconcile env req).trace)
    ∧ (∀ e, disableFailure (Reconcile env req).trace = some e →
        storeWrites (Reconcile env req).trace = []
        ∧ (Reconcile env req).inst = some inst0
        ∧ (Reconcile env req).exit = Exit.returned {} (some e))
    ∧ (∀ c ∈ driverCalls (Reconcile env req).trace, c.isDisable = true)
    ∧ (∀ result err, (Reconcile env req).exit = Exit.returned result err → result = {}) := by
  rcases Reconcile_prefix env req inst0 hget with hres |
    ⟨pvc, vg, src, handle, parameters, secret, hds, hout⟩
  · obtain ⟨hde, hsw, hex, i, hi, hfin, -, -⟩ := endsInResolution_facts hres
    have hdc : driverCalls (Reconcile env req).trace = [] := by
      rw [driverCalls_eq_map, hde]; rfl
    refine ⟨?_, ?_, ?_, ?_, hex⟩
    · intro v e hmem
      have := mem_storeWrites_of_mem hmem
      rw [hsw] at this
      cases this
    · intro j hj hne
      rw [hi] at hj
      cases hj
      exact absurd hfin hne
    · intro e he
      simp [disableFailure, hde] at he
    · intro c hc
      rw [hdc] at hc
      cases hc
  · rw [hout]
    rcases reconcileFinalizers_deleted env inst0 pvc vg src handle parameters secret t hdel
      (resolvedDataSource_one hds) with ⟨-, heq⟩ | ⟨-, r, -, hcase⟩
    · rw [heq]
      refine ⟨?_, ?_, ?_, ?_, ?_⟩
      · intro v e hmem; cases hmem
      · intro j hj hne; cases hj; exact absurd rfl hne
      · intro e he; simp [disableFailure] at he
      · intro c hc; cases hc
      · intro result err he; cases he; rfl
    · rcases hcase with ⟨e, hE, hk, heq⟩ | ⟨hok, ds, -, -, -, hcase2⟩
      · rw [heq]
        refine ⟨?_, ?_, ?_, ?_, ?_⟩
        · intro v e1 hmem; simp at hmem
        · intro j hj hne; cases hj; exact absurd rfl hne
        · intro e1 he
          simp [disableFailure, Call.isDisable, hk, hE] at he
          subst he
          exact ⟨rfl, rfl, rfl⟩
        · intro c hc
          simp at hc
          subst hc
          rfl
        · intro result err he; cases he; rfl
      · rcases hcase2 with ⟨o, e, w, hdse, ho, heq⟩ | ⟨hdsok, heq⟩
        · rw [heq, hdse]
          refine ⟨?_, ?_, ?_, ?_, ?_⟩
          · intro v e1 hmem
            simp at hmem
            exact absurd hmem.1.symm (ho v)
          · intro j hj hne; cases hj; exact absurd rfl hne
          · intro e1 he
            rw [disableFailure_of_accepted _ (Call.DisableVolumeReplication src handle secret parameters) r
              (by simp) hok] at he
            cases he
          · intro c hc
            simp at hc
            subst hc
            rfl
          · intro result err he; cases he; rfl
        · have hdsall : ∀ ev ∈ ds, ∃ o, ev = Event.update o none ∧ ∀ w, o ≠ Object.vr w := by
            rcases hdsok with h | ⟨o, h, ho⟩
            · rw [h]; intro ev hev; cases hev
            · rw [h]; intro ev hev
              exact ⟨o, List.mem_singleton.mp hev, ho⟩
          have hdsU : OnlyUpdates ds := by
            intro ev hev
            obtain ⟨o, h, -⟩ := hdsall ev hev
            exact ⟨o, none, h⟩
          rw [heq]
          refine ⟨?_, ?_, ?_, ?_, ?_⟩
          · intro v e1 hmem
            simp only [List.mem_append, List.mem_singleton] at hmem
            rcases hmem with (hmem | hmem) | hmem
            · cases hmem
            · obtain ⟨o, h, ho⟩ := hdsall _ hmem
              cases h
              exact absurd rfl (ho v)
            · cases hmem
              exact ⟨Call.DisableVolumeReplication src handle secret parameters, r, ds, rfl, hok,
                hdsall, by simp, rfl⟩
          · intro j hj hne
            cases hj
            exact ⟨_, List.mem_append_right _ (List.mem_singleton.mpr rfl)⟩
          · intro e1 he
            rw [disableFailure_of_accepted _ (Call.DisableVolumeReplication src handle secret parameters) r
              (by simp [onlyUpdates_driverEvents hdsU]) hok] at he
            cases he
          · intro c hc
            simp [onlyUpdates_driverCalls hdsU] at hc
            subst hc
            rfl
          · intro result err he; cases he; rfl

/-- The deletion pass against a driver whose Disable fails with the gRPC code
Internal: nothing is written and that error comes back. -/
theorem Reconcile_deletion_ordering_witness :
    disableFailure refusedDisablePass.trace = some (statusError 13)
    ∧ (storeWrites refusedDisablePass.trace = []
      ∧ refusedDisablePass.inst = some (deletedIntent [volumeReplicationFinalizer])
      ∧ refusedDisablePass.exit = Exit.returned {} (some (statusError 13))) :=
  ⟨by decide,
   (Reconcile_deletion_ordering
      (claimEnv (deletedIntent [volumeReplicationFinalizer]) [pvcReplicationFinalizer]
        (failingDisableClient (statusError 13)))
      sampleRequest (deletedIntent [volumeReplicationFinalizer]) 7 rfl rfl).2.2.1
      (statusError 13) (by decide)⟩

/-! ## Disable answered with NotFound -/

theorem resolvedDataSource_unique {env : Env} {req : NamespacedName} {inst : VolumeReplication}
    {pvc pvc1 : Option PersistentVolumeClaim} {vg vg1 : Option VolumeGroup}
    (h : ResolvedDataSource env req inst pvc vg) (h1 : ResolvedDataSource env req inst pvc1 vg1) :
    pvc = pvc1 ∧ vg = vg1 := by
  have hne : pvcDataSource ≠ volumeGroupDataSource := by decide
  rcases h with ⟨hk, hv, c, pv, hc, hp⟩ | ⟨hk, hp, g, hg, hv⟩
  · rcases h1 with ⟨-, hv1, c1, pv1, hc1, hp1⟩ | ⟨hk1, -, -⟩
    · rw [hc] at hc1
      cases hc1
      exact ⟨by rw [hp, hp1], by rw [hv, hv1]⟩
    · exact absurd (hk.symm.trans hk1) hne
  · rcases h1 with ⟨hk1, -, -⟩ | ⟨-, hp1, g1, hg1, hv1⟩
    · exact absurd (hk1.symm.trans hk) hne
    · rw [hg] at hg1
      cases hg1
      exact ⟨by rw [hp, hp1], by rw [hv, hv1]⟩

theorem disableNotFound_of_refused (tr : List Event) (c : Call) (r : Response)
    (hde : driverEvents tr = [(c, r)])
    (hk : r.HasKnownGRPCError disableReplicationKnownErrors = false) :
    disableNotFound tr = false := by
  unfold disableNotFound
  rw [hde]
  simp [hk]

/-- C13: not-found on disable is success.  `disableVolumeReplication` returns
nil exactly when the driver answered Disable with success or with an error
whose gRPC code is NotFound, and returns the error of the driver unchanged for
every other answer.  Consequently, in a pass on an intent marked for deletion
that carries the intent finalizer, in which the driver answered Disable with
NotFound and the store accepted every write: the write that removes the
finalizer of the claim or of the volume group is in the trace when that object
carried it, the intent finalizer is removed by the last write of the pass, and
the pass returns an empty result with a nil error. -/
theorem Reconcile_disable_not_found (env : Env) (req : NamespacedName) :
    (∀ tr src id parameters secrets,
      ((disableVolumeReplication env tr src id parameters secrets).1 = none ↔
        ((env.client tr (Call.DisableVolumeReplication src id secrets parameters)).Error = none
          ∨ ∃ err message,
            (env.client tr (Call.DisableVolumeReplication src id secrets parameters)).Error = some err
            ∧ err.status = some (codes.NotFound, message)))
      ∧ (∀ err,
          (env.client tr (Call.DisableVolumeReplication src id secrets parameters)).Error = some err →
          (¬ ∃ message, err.status = some (codes.NotFound, message)) →
          (disableVolumeReplication env tr src id parameters secrets).1 = some err))
    ∧ (∀ inst0 t, env.getInstance req = Except.ok inst0 →
        inst0.DeletionTimestamp = some t →
        contains inst0.Finalizers volumeReplicationFinalizer = true →
        disableNotFound (Reconcile env req).trace = true →
        updatesSucceeded (Reconcile env req).trace = true →
        (Reconcile env req).exit = Exit.returned {} none
        ∧ (∃ inst, (Reconcile env req).inst = some inst
            ∧ inst.Finalizers = remove inst0.Finalizers volumeReplicationFinalizer
            ∧ (Reconcile env req).trace.getLast? = some (Event.update (Object.vr inst) none))
        ∧ (∀ pvc vg, ResolvedDataSource env req inst0 pvc vg →
            (∀ c, pvc = some c → contains c.Finalizers pvcReplicationFinalizer = true →
              Event.update (Object.pvc
                { c with Finalizers := remove c.Finalizers pvcReplicationFinalizer }) none ∈
                (Reconcile env req).trace)
            ∧ (∀ g, vg = some g → contains g.Finalizers vgReplicationFinalizer = true →
              Event.update (Object.vg
                { g with Finalizers := remove g.Finalizers vgReplicationFinalizer }) none ∈
                (Reconcile env req).trace))) := by
  constructor
  · intro tr src id parameters secrets
    obtain ⟨-, herr⟩ := disableVolumeReplication_eq env tr src id parameters secrets
    rw [herr]
    constructor
    · rw [← hasKnown_disable]
      by_cases hk : (env.client tr (Call.DisableVolumeReplication src id secrets parameters)).HasKnownGRPCError
          disableReplicationKnownErrors = true
      · simp [hk]
      · simp [hk]
    · intro err hE hno
      have hk : ¬ (env.client tr (Call.DisableVolumeReplication src id secrets parameters)).HasKnownGRPCError
          disableReplicationKnownErrors = true := by
        rw [hasKnown_disable]
        rintro ⟨e, message, he, hs⟩
        rw [hE] at he
        cases he
        exact hno ⟨message, hs⟩
      rw [if_neg hk, hE]
  · intro inst0 t hget hdel hfin hnf hw
    rcases Reconcile_prefix env req inst0 hget with hres |
      ⟨pvc, vg, src, handle, parameters, secret, hds, hout⟩
    · obtain ⟨hde, -⟩ := endsInResolution_facts hres
      simp [disableNotFound, hde] at hnf
    · rw [hout] at hnf hw ⊢
      rcases reconcileFinalizers_deleted env inst0 pvc vg src handle parameters secret t hdel
        (resolvedDataSource_one hds) with ⟨-, heq⟩ | ⟨-, r, -, hcase⟩
      · rw [heq] at hnf
        simp [disableNotFound] at hnf
      · rcases hcase with ⟨e, -, hk, heq⟩ | ⟨-, ds, hpvc, hvg, -, hcase2⟩
        · rw [heq] at hnf
          rw [disableNotFound_of_refused _ (Call.DisableVolumeReplication src handle secret parameters)
            r (by simp) hk] at hnf
          cases hnf
        · rcases hcase2 with ⟨o, e, w, hdse, -, heq⟩ | ⟨hdsok, heq⟩
          · rw [heq, hdse] at hw
            simp [updatesSucceeded] at hw
          · rw [heq] at hw ⊢
            have hX : env.update
                ([Event.rpc (Call.DisableVolumeReplication src handle secret parameters) r] ++ ds)
                (Object.vr { inst0 with
                  Finalizers := remove inst0.Finalizers volumeReplicationFinalizer }) = none := by
              simp [updatesSucceeded] at hw
              exact hw.2
            rw [hX]
            refine ⟨rfl, ⟨_, rfl, rfl, List.getLast?_concat _⟩, ?_⟩
            intro pvc1 vg1 hds1
            obtain ⟨hp, hv⟩ := resolvedDataSource_unique hds1 hds
            subst hp
            subst hv
            constructor
            · intro c hc htok
              have hds2 := hpvc c hc
              rw [if_pos htok] at hds2
              rcases hdsok with h | ⟨o, h, -⟩
              · rw [h] at hds2; cases hds2
              · rw [h] at hds2
                injection hds2 with h1 _
                injection h1 with ho hx
                rw [h, ho]
                simp
            · intro g hg htok
              have hds2 := hvg g hg
              rw [if_pos htok] at hds2
              rcases hdsok with h | ⟨o, h, -⟩
              · rw [h] at hds2; cases hds2
              · rw [h] at hds2
                injection hds2 with h1 _
                injection h1 with ho hx
                rw [h, ho]
                simp

/-- The deletion pass against a driver that answers Disable with NotFound, on
a claim that carries the claim finalizer. -/
theorem Reconcile_disable_not_found_witness :
    (deletedIntent [volumeReplicationFinalizer]).DeletionTimestamp = some 7
    ∧ contains (deletedIntent [volumeReplicationFinalizer]).Finalizers volumeReplicationFinalizer = true
    ∧ disableNotFound notFoundDisablePass.trace = true
    ∧ updatesSucceeded notFoundDisablePass.trace = true
    ∧ notFoundDisablePass.exit = Exit.returned {} none :=
  ⟨rfl, by decide, by decide, by decide,
   ((Reconcile_disable_not_found
      (claimEnv (deletedIntent [volumeReplicationFinalizer]) [pvcReplicationFinalizer]
        (failingDisableClient (statusError codes.NotFound)))
      sampleRequest).2 (deletedIntent [volumeReplicationFinalizer]) 7 rfl rfl
      (by decide) (by decide) (by decide)).1⟩

/-! ## Deletion retried after an interrupted pass -/

/-- C14, as the code has it: finalizer monotonicity under retry.  For an intent marked
for deletion that still carries the intent finalizer, whose claim or volume
group no longer carries its finalizer, a pass that gets through resolution
calls Disable again, exactly once, and writes nothing to the data source; when
the driver answers that Disable with success or NotFound and the store accepts
the write, the pass removes the intent finalizer and returns an empty result
with a nil error, so that deletion completes. -/
theorem Reconcile_deletion_retry (env : Env) (req : NamespacedName) (inst0 : VolumeReplication)
    (t : Time) (pvc : Option PersistentVolumeClaim) (vg : Option VolumeGroup)
    (src : Option ReplicationSource) (handle : String) (parameters secret : StringMap)
    (hdel : inst0.DeletionTimestamp = some t)
    (hfin : contains inst0.Finalizers volumeReplicationFinalizer = true)
    (hres : ResolvedDataSource env req inst0 pvc vg)
    (hout : Reconcile env req = reconcileFinalizers env [] inst0 pvc vg src handle parameters secret)
    (hpvc : ∀ c, pvc = some c → contains c.Finalizers pvcReplicationFinalizer = false)
    (hvg : ∀ g, vg = some g → contains g.Finalizers vgReplicationFinalizer = false) :
    driverEvents (Reconcile env req).trace =
        [(Call.DisableVolumeReplication src handle secret parameters,
          env.client [] (Call.DisableVolumeReplication src handle secret parameters))]
    ∧ (∀ o e, Event.update o e ∈ (Reconcile env req).trace → ∃ v, o = Object.vr v)
    ∧ (((env.client [] (Call.DisableVolumeReplication src handle secret parameters)).Error = none
        ∨ (env.client [] (Call.DisableVolumeReplication src handle secret parameters)).HasKnownGRPCError
            disableReplicationKnownErrors = true) →
        updatesSucceeded (Reconcile env req).trace = true →
        Reconcile env req =
          { exit := Exit.returned {} none
            inst := some { inst0 with
              Finalizers := remove inst0.Finalizers volumeReplicationFinalizer }
            trace :=
              [Event.rpc (Call.DisableVolumeReplication src handle secret parameters)
                (env.client [] (Call.DisableVolumeReplication src handle secret parameters)),
               Event.update (Object.vr { inst0 with
                 Finalizers := remove inst0.Finalizers volumeReplicationFinalizer }) none] }) := by
  rw [hout]
  rcases reconcileFinalizers_deleted env inst0 pvc vg src handle parameters secret t hdel
    (resolvedDataSource_one hres) with ⟨hno, -⟩ | ⟨-, r, hr, hcase⟩
  · rw [hfin] at hno; cases hno
  subst hr
  rcases hcase with ⟨e, hE, hk, heq⟩ | ⟨hok, ds, hpvcds, hvgds, hnone, hcase2⟩
  · rw [heq]
    refine ⟨rfl, ?_, ?_⟩
    · intro o e1 hmem; simp at hmem
    · intro hacc
      rcases hacc with h | h
      · rw [h] at hE; cases hE
      · rw [h] at hk; cases hk
  · have hds : ds = [] := by
      cases pvc with
      | some c =>
        have h := hpvcds c rfl
        rw [hpvc c rfl] at h
        simpa using h
      | none =>
        cases vg with
        | some g =>
          have h := hvgds g rfl
          rw [hvg g rfl] at h
          simpa using h
        | none => exact hnone rfl rfl
    subst hds
    rcases hcase2 with ⟨o, e, w, hdse, -, -⟩ | ⟨-, heq⟩
    · cases hdse
    · rw [heq]
      refine ⟨rfl, ?_, ?_⟩
      · intro o e1 hmem
        simp at hmem
        exact ⟨_, hmem.1⟩
      · intro _ hw
        simp [updatesSucceeded] at hw
        simp [hw]

/-- The retried deletion pass on a claim without its finalizer, against a
healthy driver. -/
theorem Reconcile_deletion_retry_witness :
    driverEvents retriedDeletionPass.trace =
      [(Call.DisableVolumeReplication (some (ReplicationSource.Volume "handle")) "" [] [],
        { Response := Payload.other, Error := none })]
    ∧ (∀ o e, Event.update o e ∈ retriedDeletionPass.trace → ∃ v, o = Object.vr v) :=
  ⟨(Reconcile_deletion_retry
      (claimEnv (deletedIntent [volumeReplicationFinalizer]) [] (healthyClient true))
      sampleRequest (deletedIntent [volumeReplicationFinalizer]) 7
      (some { Name := "pvc", Namespace := "ns", Finalizers := [] }) none
      (some (ReplicationSource.Volume "handle")) "" [] [] rfl (by decide)
      (Or.inl ⟨rfl, rfl, _, _, rfl, rfl⟩) (by decide)
      (by intro c h; cases h; rfl) (by intro g h; cases h)).1,
   (Reconcile_deletion_retry
      (claimEnv (deletedIntent [volumeReplicationFinalizer]) [] (healthyClient true))
      sampleRequest (deletedIntent [volumeReplicationFinalizer]) 7
      (some { Name := "pvc", Namespace := "ns", Finalizers := [] }) none
      (some (ReplicationSource.Volume "handle")) "" [] [] rfl (by decide)
      (Or.inl ⟨rfl, rfl, _, _, rfl, rfl⟩) (by decide)
      (by intro c h; cases h; rfl) (by intro g h; cases h)).2.1⟩

/-- C14 as stated fails: on an intent marked for deletion that carries the
intent finalizer, whose claim has lost its finalizer in an earlier pass, the
pass calls Disable again before it removes the intent finalizer. -/
theorem Reconcile_retry_disable_counterexample :
    (deletedIntent [volumeReplicationFinalizer]).DeletionTimestamp = some 7
    ∧ contains (deletedIntent [volumeReplicationFinalizer]).Finalizers volumeReplicationFinalizer = true
    ∧ (claimEnv (deletedIntent [volumeReplicationFinalizer]) [] (healthyClient true)).getPVCDataSource
        { Name := "pvc", Namespace := "ns" } =
        Except.ok ({ Name := "pvc", Namespace := "ns", Finalizers := [] },
          { Name := "pv", CSI := some "handle" })
    ∧ driverCalls retriedDeletionPass.trace =
        [Call.DisableVolumeReplication (some (ReplicationSource.Volume "handle")) "" [] []]
    ∧ retriedDeletionPass.inst.map (fun i => i.Finalizers) = some []
    ∧ retriedDeletionPass.exit = Exit.returned {} none := by
  refine ⟨rfl, by decide, rfl, by decide, by decide, by decide⟩

/-! ## The four shapes of a pass -/

theorem isDisable_of_mem_singleton {c : Call} {src : Option ReplicationSource} {handle : String}
    {secret parameters : StringMap}
    (h : c ∈ [Call.DisableVolumeReplication src handle secret parameters]) :
    c.isDisable = true := by
  rw [List.mem_singleton.mp h]
  rfl

/-- A pass on an intent marked for deletion is quiet. -/
theorem reconcileFinalizers_deleted_quiet (env : Env) (inst : VolumeReplication)
    (pvc : Option PersistentVolumeClaim) (vg : Option VolumeGroup)
    (src : Option ReplicationSource) (handle : String) (parameters secret : StringMap) (t : Time)
    (hdel : inst.DeletionTimestamp = some t) (hone : pvc = none ∨ vg = none) :
    QuietPass inst (reconcileFinalizers env [] inst pvc vg src handle parameters secret) := by
  rcases reconcileFinalizers_deleted env inst pvc vg src handle parameters secret t hdel hone
    with ⟨-, heq⟩ | ⟨-, r, -, hcase⟩
  · rw [heq]
    exact ⟨(by intro c hc; cases hc), rfl, inst, rfl, rfl, rfl⟩
  · rcases hcase with ⟨e, -, -, heq⟩ | ⟨-, ds, -, -, -, hcase2⟩
    · rw [heq]
      exact ⟨fun c hc => isDisable_of_mem_singleton hc, rfl, inst, rfl, rfl, rfl⟩
    · rcases hcase2 with ⟨o, e, w, hdse, -, heq⟩ | ⟨hdsok, heq⟩
      · rw [heq, hdse]
        exact ⟨fun c hc => isDisable_of_mem_singleton hc, rfl, inst, rfl, rfl, rfl⟩
      · have hdsU : OnlyUpdates ds := by
          rcases hdsok with h | ⟨o, h, -⟩
          · rw [h]; exact onlyUpdates_nil
          · rw [h]; intro ev hev; exact ⟨o, none, List.mem_singleton.mp hev⟩
        rw [heq]
        refine ⟨?_, ?_, _, rfl, rfl, rfl⟩
        · intro c hc
          simp [onlyUpdates_driverCalls hdsU] at hc
          rw [hc]
          rfl
        · simp [onlyUpdates_statusWrites hdsU]

/-- A pass that fetched its intent is quiet, or ended during resolution with
the failure written to the status, or ended on the failure of Enable, or ran
the switch on the desired state after a successful Enable. -/
theorem Reconcile_shape (env : Env) (req : NamespacedName) (inst0 : VolumeReplication)
    (hget : env.getInstance req = Except.ok inst0) :
    QuietPass inst0 (Reconcile env req)
    ∨ ResolutionFailed env inst0 (Reconcile env req)
    ∨ EnableFailed env inst0 (Reconcile env req)
    ∨ ReachesDesiredState env inst0 (Reconcile env req) := by
  rcases Reconcile_prefix env req inst0 hget with ⟨-, hcase⟩ |
    ⟨pvc, vg, src, handle, parameters, secret, hds, hout⟩
  · rcases hcase with ⟨htr, hi⟩ | ⟨msg, hi, htr⟩
    · left
      refine ⟨?_, ?_, inst0, hi, rfl, rfl⟩
      · rw [htr]; intro c hc; cases hc
      · rw [htr]; rfl
    · right; left; exact ⟨msg, hi, htr⟩
  · rw [hout]
    cases hdel : inst0.DeletionTimestamp with
    | some t =>
      left
      exact reconcileFinalizers_deleted_quiet env inst0 pvc vg src handle parameters secret t hdel
        (resolvedDataSource_one hds)
    | none =>
      rcases reconcileFinalizers_live env [] inst0 pvc vg src handle parameters secret
        onlyUpdates_nil hdel with ⟨err, fin, tr1, htr1, heq⟩ | ⟨fin, tr1, htr1, heq⟩
      · left
        rw [heq]
        refine ⟨?_, onlyUpdates_statusWrites htr1, _, rfl, rfl, rfl⟩
        intro c hc
        rw [show driverCalls tr1 = [] from onlyUpdates_driverCalls htr1] at hc
        cases hc
      · rw [heq]
        rcases reconcileReplication_cases env tr1 { inst0 with Finalizers := fin } src handle
          parameters secret with ⟨err, -, heq2⟩ | ⟨r, err, hE, heq2⟩ | ⟨r, hE, heq2⟩
        · left
          rw [heq2]
          have hU := onlyUpdates_snoc htr1
            (Object.vr (VolumeReplication.withLastStartTime { inst0 with Finalizers := fin }
              (env.now tr1))) (some err)
          refine ⟨?_, onlyUpdates_statusWrites hU, _, rfl, rfl, rfl⟩
          intro c hc
          rw [show driverCalls _ = [] from onlyUpdates_driverCalls hU] at hc
          cases hc
        · right; right; left
          have hU := onlyUpdates_snoc htr1
            (Object.vr (VolumeReplication.withLastStartTime { inst0 with Finalizers := fin }
              (env.now tr1))) none
          refine ⟨hdel, fin, env.now tr1, _, src, handle, parameters, secret, r, err, hU, hE, ?_⟩
          rw [heq2]
          simp
        · right; right; right
          have hU := onlyUpdates_snoc htr1
            (Object.vr (VolumeReplication.withLastStartTime { inst0 with Finalizers := fin }
              (env.now tr1))) none
          refine ⟨hdel, fin, env.now tr1,
            (tr1 ++ [Event.update (Object.vr (VolumeReplication.withLastStartTime
              { inst0 with Finalizers := fin } (env.now tr1))) none]) ++
              [Event.rpc (Call.EnableVolumeReplication src handle secret parameters) r],
            src, handle, parameters, secret, r, ?_, hE, ?_⟩
          · simp [onlyUpdates_driverEvents htr1]
          · rw [heq2]
            simp

/-! ## Enable comes first -/

theorem enableFailure_of_onlyDisable {tr : List Event}
    (h : ∀ c ∈ driverCalls tr, c.isDisable = true) : enableFailure tr = none := by
  unfold enableFailure
  rw [List.findSome?_eq_none_iff]
  intro cr hcr
  have hmem : cr.1 ∈ driverCalls tr := by
    rw [driverCalls_eq_map]
    exact List.mem_map_of_mem _ hcr
  have hd := h _ hmem
  cases hc : cr.1 <;> rw [hc] at hd <;> simp_all [Call.isDisable, Call.isEnable]

theorem findSome_enable_of_replication {l : List (Call × Response)}
    (h : ∀ cr ∈ l, cr.1.isReplication = true) :
    l.findSome? (fun cr => if cr.1.isEnable then cr.2.Error else none) = none := by
  rw [List.findSome?_eq_none_iff]
  intro cr hcr
  have hd := h _ hcr
  cases hc : cr.1 <;> rw [hc] at hd <;> simp_all [Call.isReplication, Call.isEnable]

theorem not_isReplication_of_isDisable {c : Call} (h : c.isDisable = true) :
    c.isReplication = false := by
  cases c <;> simp_all [Call.isReplication, Call.isDisable]

/-- What `recordFailure` leaves in the status: the message it was given, the
observed state (Unknown when it was empty), and the failure condition that
goes with the desired state when that state is one of the three supported
ones. -/
theorem recordFailure_status (env : Env) (tr : List Event) (inst : VolumeReplication)
    (msg : String) :
    (recordFailure env tr inst msg).inst.Status.Message = msg
    ∧ (recordFailure env tr inst msg).inst.Status.State =
        (if inst.Status.State = State.empty then State.UnknownState else inst.Status.State)
    ∧ (∀ k, failureKind inst.Spec.ReplicationState = some k →
        (recordFailure env tr inst msg).inst.Status.Conditions =
          inst.Status.Conditions ++ [{ kind := k, observedGeneration := inst.Generation }])
    ∧ (failureKind inst.Spec.ReplicationState = none →
        (recordFailure env tr inst msg).inst.Status.Conditions = inst.Status.Conditions) := by
  unfold recordFailure setFailureCondition
  cases hs : inst.Spec.ReplicationState <;>
    simp [failureKind, updateReplicationStatus, getCurrentReplicationState,
      VolumeReplication.withConditions, setFailedPromotionCondition, setFailedDemotionCondition,
      setFailedResyncCondition, setCondition]

/-- C16, as the code has it: Enable first.  In every pass, when a Promote, Demote or
Resync call is made, the first driver call of the pass is an Enable that the
driver answered with success and every later driver call is a Promote, a
Demote or a Resync: exactly one Enable precedes them.  When Enable fails with
the error e, Enable is the only driver call of the pass, the last event of the
pass is a status write with the message taken from e (the message of its gRPC
status when it carries one, its own text otherwise), with status.state at its
previously observed value, or Unknown when that was empty, and, for a desired
state Primary, Secondary or Resync, with the failure condition of that state
added; the pass returns e with an empty result. -/
theorem Reconcile_enable_first (env : Env) (req : NamespacedName) (inst0 : VolumeReplication)
    (hget : env.getInstance req = Except.ok inst0) :
    (∀ c ∈ driverCalls (Reconcile env req).trace, c.isReplication = true →
      ∃ src id secrets params r rest,
        driverEvents (Reconcile env req).trace =
          (Call.EnableVolumeReplication src id secrets params, r) :: rest
        ∧ r.Error = none ∧ ∀ cr ∈ rest, cr.1.isReplication = true)
    ∧ (∀ e, enableFailure (Reconcile env req).trace = some e →
        (∃ src id secrets params,
          driverCalls (Reconcile env req).trace =
            [Call.EnableVolumeReplication src id secrets params])
        ∧ (Reconcile env req).exit = Exit.returned {} (some e)
        ∧ ∃ inst werr, (Reconcile env req).inst = some inst
            ∧ (Reconcile env req).trace.getLast? = some (Event.statusUpdate inst werr)
            ∧ inst.Status.Message = GetMessageFromError e
            ∧ (∀ code message, e.status = some (code, message) →
                inst.Status.Message = message)
            ∧ (e.status = none → inst.Status.Message = e.text)
            ∧ inst.Status.State =
              (if inst0.Status.State = State.empty then State.UnknownState
                else inst0.Status.State)
            ∧ (∀ k, failureKind inst0.Spec.ReplicationState = some k →
                inst.Status.Conditions =
                  inst0.Status.Conditions ++
                    [{ kind := k, observedGeneration := inst0.Generation }])) := by
  rcases Reconcile_shape env req inst0 hget with hq | ⟨msg, -, htr⟩ |
    ⟨-, fin, t, tr, src, handle, parameters, secret, r, err, hU, hE, heq⟩ |
    ⟨-, fin, t, tr, src, handle, parameters, secret, r, hde, hE, heq⟩
  · obtain ⟨hdis, -, -⟩ := hq
    constructor
    · intro c hc hrep
      rw [not_isReplication_of_isDisable (hdis c hc)] at hrep
      cases hrep
    · intro e he
      rw [enableFailure_of_onlyDisable hdis] at he
      cases he
  · have hdc : driverCalls (Reconcile env req).trace = [] := by
      rw [htr, recordFailure_calls]; rfl
    constructor
    · intro c hc
      rw [hdc] at hc
      cases hc
    · intro e he
      rw [enableFailure_of_onlyDisable (by intro c hc; rw [hdc] at hc; cases hc)] at he
      cases he
  · have hdc : driverCalls (Reconcile env req).trace =
        [Call.EnableVolumeReplication src handle secret parameters] := by
      rw [heq]
      simp [recordFailure_calls, onlyUpdates_driverCalls hU]
    have hdev : driverEvents (Reconcile env req).trace =
        [(Call.EnableVolumeReplication src handle secret parameters, r)] := by
      rw [heq]
      simp [recordFailure_trace, onlyUpdates_driverEvents hU]
    constructor
    · intro c hc hrep
      rw [hdc] at hc
      rw [List.mem_singleton.mp hc] at hrep
      cases hrep
    · intro e he
      have hee : err = e := by
        simpa [enableFailure, hdev, Call.isEnable, hE] using he
      subst hee
      obtain ⟨s1, s2, s3, -⟩ := recordFailure_status env
        (tr ++ [Event.rpc (Call.EnableVolumeReplication src handle secret parameters) r])
        (VolumeReplication.withLastStartTime { inst0 with Finalizers := fin } t)
        (GetMessageFromError err)
      refine ⟨⟨_, _, _, _, hdc⟩, by rw [heq],
        (recordFailure env
          (tr ++ [Event.rpc (Call.EnableVolumeReplication src handle secret parameters) r])
          (VolumeReplication.withLastStartTime { inst0 with Finalizers := fin } t)
          (GetMessageFromError err)).inst,
        (recordFailure env
          (tr ++ [Event.rpc (Call.EnableVolumeReplication src handle secret parameters) r])
          (VolumeReplication.withLastStartTime { inst0 with Finalizers := fin } t)
          (GetMessageFromError err)).err,
        by rw [heq], ?_, s1, ?_, ?_, s2, s3⟩
      · rw [heq]
        dsimp only
        rw [recordFailure_trace]
        exact List.getLast?_concat _
      · intro code message hs
        rw [s1]
        exact (getMessageFromError_cases err).1 code message hs
      · intro hs
        rw [s1]
        exact (getMessageFromError_cases err).2 hs
  · obtain ⟨evs, inst1, werr, result, rerr, htr, hevs, -, -, -, -⟩ :=
      reconcileDesiredState_shape env tr
        (VolumeReplication.withLastStartTime { inst0 with Finalizers := fin } t)
        src handle parameters secret
    have hdev : driverEvents (Reconcile env req).trace =
        (Call.EnableVolumeReplication src handle secret parameters, r) :: driverEvents evs := by
      rw [heq, htr]
      simp [hde]
    constructor
    · intro c _ _
      exact ⟨src, handle, secret, parameters, r, _, hdev, hE,
        onlyReplication_driverEvents hevs⟩
    · intro e he
      have hnone : enableFailure (Reconcile env req).trace = none := by
        unfold enableFailure
        rw [hdev, List.findSome?_eq_none_iff]
        intro cr hcr
        rcases List.mem_cons.mp hcr with h | h
        · subst h
          simp [Call.isEnable, hE]
        · exact List.findSome?_eq_none_iff.mp
            (findSome_enable_of_replication (onlyReplication_driverEvents hevs)) cr h
      rw [hnone] at he
      cases he

/-- The pass on a never-reconciled intent against a driver whose Enable fails
with the gRPC code Internal. -/
theorem Reconcile_enable_first_witness :
    enableFailure failedEnablePass.trace = some (statusError 13)
    ∧ (∃ src id secrets params,
        driverCalls failedEnablePass.trace = [Call.EnableVolumeReplication src id secrets params])
    ∧ failedEnablePass.exit = Exit.returned {} (some (statusError 13))
    ∧ (statusError 13).status = some (13, "refused")
    ∧ failedEnablePass.inst.map (fun i => i.Status.Message) = some "refused"
    ∧ (Reconcile (sampleEnv (sampleIntent ReplicationState.Primary State.empty false)
          (failingEnableClient (GoError.new "connection lost"))) sampleRequest).inst.map
        (fun i => i.Status.Message) = some "connection lost" :=
  ⟨by decide,
   ((Reconcile_enable_first
      (sampleEnv (sampleIntent ReplicationState.Primary State.empty false)
        (failingEnableClient (statusError 13)))
      sampleRequest (sampleIntent ReplicationState.Primary State.empty false) rfl).2
      (statusError 13) (by decide)).1,
   ((Reconcile_enable_first
      (sampleEnv (sampleIntent ReplicationState.Primary State.empty false)
        (failingEnableClient (statusError 13)))
      sampleRequest (sampleIntent ReplicationState.Primary State.empty false) rfl).2
      (statusError 13) (by decide)).2.1,
   rfl, by decide, by decide⟩

/-- C16 as stated fails: on an intent never reconciled before, whose
status.state is empty, a pass in which Enable fails writes the state Unknown:
status.state does not keep its previously observed value. -/
theorem Reconcile_enable_failure_state_counterexample :
    (sampleIntent ReplicationState.Primary State.empty false).Status.State = State.empty
    ∧ enableFailure failedEnablePass.trace = some (statusError 13)
    ∧ failedEnablePass.inst.map (fun i => i.Status.State) = some State.UnknownState
    ∧ failedEnablePass.inst.map (fun i => i.Status.State) ≠
        some (sampleIntent ReplicationState.Primary State.empty false).Status.State
    ∧ getCurrentReplicationState (sampleIntent ReplicationState.Primary State.empty false) =
        State.UnknownState := by
  decide

/-! ## The observed generation -/

theorem statusWritten_snoc (tr : List Event) (inst : VolumeReplication) (werr : Option GoError) :
    statusWritten (tr ++ [Event.statusUpdate inst werr]) = true := by
  simp [statusWritten]

theorem not_enable_of_isDisable {c : Call} (h : c.isDisable = true) :
    ¬ (c.isEnable = true ∨ c.isReplication = true) := by
  cases c <;> simp_all [Call.isReplication, Call.isDisable, Call.isEnable]

/-- C19, as the code has it: the observed generation.  Every pass that writes the status
ends with a status write of the intent it leaves in memory, whose
status.observedGeneration is the current generation of the intent; a pass
that writes no status leaves the generation and the observed generation as
fetched.  Every pass that calls Enable, Promote, Demote or Resync writes the
status, whatever those calls returned, and so does a pass that fails to fetch
the class or whose class parameters are refused: after such a failing pass
the observed generation is the current generation. -/
theorem Reconcile_observed_generation (env : Env) (req : NamespacedName)
    (inst0 : VolumeReplication) (hget : env.getInstance req = Except.ok inst0) :
    (statusWritten (Reconcile env req).trace = true →
      ∃ inst werr, (Reconcile env req).inst = some inst
        ∧ (Reconcile env req).trace.getLast? = some (Event.statusUpdate inst werr)
        ∧ inst.Generation = inst0.Generation
        ∧ inst.Status.ObservedGeneration = inst0.Generation)
    ∧ (statusWritten (Reconcile env req).trace = false →
      ∃ inst, (Reconcile env req).inst = some inst
        ∧ inst.Generation = inst0.Generation
        ∧ inst.Status.ObservedGeneration = inst0.Status.ObservedGeneration)
    ∧ (∀ c ∈ driverCalls (Reconcile env req).trace,
        c.isEnable = true ∨ c.isReplication = true →
        statusWritten (Reconcile env req).trace = true)
    ∧ (∀ err, env.getClass { Name := inst0.Spec.VolumeReplicationClass } = Except.error err →
        statusWritten (Reconcile env req).trace = true)
    ∧ (∀ vrc err, env.getClass { Name := inst0.Spec.VolumeReplicationClass } = Except.ok vrc →
        env.DriverName = vrc.Spec.Provisioner →
        env.validatePrefixedParameters vrc.Spec.Parameters = some err →
        statusWritten (Reconcile env req).trace = true) := by
  have hclassfail : ∀ err,
      env.getClass { Name := inst0.Spec.VolumeReplicationClass } = Except.error err →
      statusWritten (Reconcile env req).trace = true := by
    intro err hclass
    have h : Reconcile env req =
        { exit := Exit.returned {} (some err),
          inst := some (recordFailure env [] inst0 err.text).inst,
          trace := (recordFailure env [] inst0 err.text).trace } := by
      unfold Reconcile
      simp [hget, getVolumeReplicationClass, hclass]
    rw [h]
    dsimp only
    rw [recordFailure_trace]
    exact statusWritten_snoc _ _ _
  have hvalfail : ∀ vrc err,
      env.getClass { Name := inst0.Spec.VolumeReplicationClass } = Except.ok vrc →
      env.DriverName = vrc.Spec.Provisioner →
      env.validatePrefixedParameters vrc.Spec.Parameters = some err →
      statusWritten (Reconcile env req).trace = true := by
    intro vrc err hclass hown hval
    have h : Reconcile env req =
        { exit := Exit.returned {} (some err),
          inst := some (recordFailure env [] inst0 err.text).inst,
          trace := (recordFailure env [] inst0 err.text).trace } := by
      unfold Reconcile
      simp [hget, getVolumeReplicationClass, hclass, hown, hval]
    rw [h]
    dsimp only
    rw [recordFailure_trace]
    exact statusWritten_snoc _ _ _
  refine ⟨?_, ?_, ?_, hclassfail, hvalfail⟩ <;>
  rcases Reconcile_shape env req inst0 hget with ⟨hdis, hsw, i, hi, hg, ho⟩ | ⟨msg, hi, htr⟩ |
    ⟨-, fin, t, tr, src, handle, parameters, secret, r, err, hU, hE, heq⟩ |
    ⟨-, fin, t, tr, src, handle, parameters, secret, r, hde, hE, heq⟩
  · intro hw
    simp [statusWritten, hsw] at hw
  · intro _
    obtain ⟨g1, g2, -⟩ := recordFailure_Generation env [] inst0 msg
    refine ⟨_, (recordFailure env [] inst0 msg).err, hi, ?_, g1, g2⟩
    rw [htr, recordFailure_trace]
    exact List.getLast?_concat _
  · intro _
    obtain ⟨g1, g2, -⟩ := recordFailure_Generation env
      (tr ++ [Event.rpc (Call.EnableVolumeReplication src handle secret parameters) r])
      (VolumeReplication.withLastStartTime { inst0 with Finalizers := fin } t)
      (GetMessageFromError err)
    refine ⟨_, (recordFailure env
      (tr ++ [Event.rpc (Call.EnableVolumeReplication src handle secret parameters) r])
      (VolumeReplication.withLastStartTime { inst0 with Finalizers := fin } t)
      (GetMessageFromError err)).err, by rw [heq], ?_, g1, g2⟩
    rw [heq]
    dsimp only
    rw [recordFailure_trace]
    exact List.getLast?_concat _
  · intro _
    obtain ⟨evs, inst1, werr, result, rerr, htr, -, hi, -, g1, g2⟩ :=
      reconcileDesiredState_shape env tr
        (VolumeReplication.withLastStartTime { inst0 with Finalizers := fin } t)
        src handle parameters secret
    refine ⟨inst1, werr, by rw [heq, hi], ?_, g1, g2⟩
    rw [heq, htr]
    exact List.getLast?_concat _
  · intro _
    exact ⟨i, hi, hg, ho⟩
  · intro hw
    rw [htr, recordFailure_trace, statusWritten_snoc] at hw
    cases hw
  · intro hw
    rw [heq] at hw
    dsimp only at hw
    rw [recordFailure_trace, statusWritten_snoc] at hw
    cases hw
  · intro hw
    obtain ⟨evs, inst1, werr, result, rerr, htr, -⟩ :=
      reconcileDesiredState_shape env tr
        (VolumeReplication.withLastStartTime { inst0 with Finalizers := fin } t)
        src handle parameters secret
    rw [heq, htr, statusWritten_snoc] at hw
    cases hw
  · intro c hc hcall
    exact absurd hcall (not_enable_of_isDisable (hdis c hc))
  · intro c hc _
    rw [htr, recordFailure_trace]
    exact statusWritten_snoc _ _ _
  · intro c hc _
    rw [heq]
    dsimp only
    rw [recordFailure_trace]
    exact statusWritten_snoc _ _ _
  · intro c hc _
    obtain ⟨evs, inst1, werr, result, rerr, htr, -⟩ :=
      reconcileDesiredState_shape env tr
        (VolumeReplication.withLastStartTime { inst0 with Finalizers := fin } t)
        src handle parameters secret
    rw [heq, htr]
    exact statusWritten_snoc _ _ _

/-- The pass on a never-reconciled intent of generation 2 against a driver
whose Enable fails: the status is written with observed generation 2. -/
theorem Reconcile_observed_generation_witness :
    statusWritten failedEnablePass.trace = true
    ∧ ∃ inst werr, failedEnablePass.inst = some inst
        ∧ failedEnablePass.trace.getLast? = some (Event.statusUpdate inst werr)
        ∧ inst.Generation = (sampleIntent ReplicationState.Primary State.empty false).Generation
        ∧ inst.Status.ObservedGeneration =
          (sampleIntent ReplicationState.Primary State.empty false).Generation :=
  ⟨by decide,
   (Reconcile_observed_generation
      (sampleEnv (sampleIntent ReplicationState.Primary State.empty false)
        (failingEnableClient (statusError 13)))
      sampleRequest (sampleIntent ReplicationState.Primary State.empty false) rfl).1
      (by decide)⟩

/-- C19 as stated fails: on an intent of generation 2 and observed generation
0, a pass in which Enable fails returns the error of Enable and leaves the
observed generation at 2: the two no longer differ. -/
theorem Reconcile_observed_generation_counterexample :
    (sampleIntent ReplicationState.Primary State.empty false).Generation = 2
    ∧ (sampleIntent ReplicationState.Primary State.empty false).Status.ObservedGeneration = 0
    ∧ enableFailure failedEnablePass.trace = some (statusError 13)
    ∧ failedEnablePass.exit = Exit.returned {} (some (statusError 13))
    ∧ failedEnablePass.inst.map (fun i => i.Generation) = some 2
    ∧ failedEnablePass.inst.map (fun i => i.Status.ObservedGeneration) = some 2
    ∧ statusWrites failedEnablePass.trace =
        failedEnablePass.inst.toList.map (fun i => (i, none)) := by
  decide

/-! ## finalizers.go: no-ops and repeated application -/

theorem contains_append_self (l : List String) (s : String) : contains (l ++ [s]) s = true := by
  simp [contains]

theorem contains_remove_self (l : List String) (s : String) : contains (remove l s) s = false := by
  simp [contains, remove]

/-- C20, as the code has it: the finalizer operations are idempotent no-ops.  Each of
addFinalizerToVR/PVC/VG on an object whose finalizer list contains the token
of the operation, and each of removeFinalizerFromVR/PVC/VG on an object whose
list does not contain it, issues no update call, leaves the list unchanged
and returns nil.  With a store that accepts every write, applying an
operation twice returns nil both times, yields the same list as applying it
once and performs at most one write: exactly one when the first application
changed the list (the token was absent for an add, present for a remove) and
none when the first application was a no-op already. -/
theorem finalizer_operations_idempotent (env : Env) :
    ((∀ (tr : List Event) (x : VolumeReplication), contains x.Finalizers volumeReplicationFinalizer = true →
      addFinalizerToVR env tr x = { err := none, inst := x, trace := tr })
    ∧ (∀ (tr : List Event) (x : VolumeReplication), contains x.Finalizers volumeReplicationFinalizer = false →
      removeFinalizerFromVR env tr x = { err := none, inst := x, trace := tr })
    ∧ (∀ (tr : List Event) (x : PersistentVolumeClaim), contains x.Finalizers pvcReplicationFinalizer = true →
      addFinalizerToPVC env tr x = (none, x, tr))
    ∧ (∀ (tr : List Event) (x : PersistentVolumeClaim), contains x.Finalizers pvcReplicationFinalizer = false →
      removeFinalizerFromPVC env tr x = (none, x, tr))
    ∧ (∀ (tr : List Event) (x : VolumeGroup), contains x.Finalizers vgReplicationFinalizer = true →
      addFinalizerToVG env tr x = (none, x, tr))
    ∧ (∀ (tr : List Event) (x : VolumeGroup), contains x.Finalizers vgReplicationFinalizer = false →
      removeFinalizerFromVG env tr x = (none, x, tr)))
    ∧ ((∀ tr o, env.update tr o = none) →
      ((∀ (tr : List Event) (x : VolumeReplication),
        (addFinalizerToVR env (addFinalizerToVR env tr x).trace (addFinalizerToVR env tr x).inst).inst.Finalizers =
          (addFinalizerToVR env tr x).inst.Finalizers
        ∧ (addFinalizerToVR env tr x).err = none
        ∧ (addFinalizerToVR env (addFinalizerToVR env tr x).trace (addFinalizerToVR env tr x).inst).err = none
        ∧ (storeWrites (addFinalizerToVR env (addFinalizerToVR env tr x).trace (addFinalizerToVR env tr x).inst).trace).length =
          (storeWrites tr).length + (if contains x.Finalizers volumeReplicationFinalizer then 0 else 1))
      ∧ (∀ (tr : List Event) (x : VolumeReplication),
        (removeFinalizerFromVR env (removeFinalizerFromVR env tr x).trace (removeFinalizerFromVR env tr x).inst).inst.Finalizers =
          (removeFinalizerFromVR env tr x).inst.Finalizers
        ∧ (removeFinalizerFromVR env tr x).err = none
        ∧ (removeFinalizerFromVR env (removeFinalizerFromVR env tr x).trace (removeFinalizerFromVR env tr x).inst).err = none
        ∧ (storeWrites (removeFinalizerFromVR env (removeFinalizerFromVR env tr x).trace (removeFinalizerFromVR env tr x).inst).trace).length =
          (storeWrites tr).length + (if contains x.Finalizers volumeReplicationFinalizer then 1 else 0))
      ∧ (∀ (tr : List Event) (x : PersistentVolumeClaim),
        (addFinalizerToPVC env (addFinalizerToPVC env tr x).2.2 (addFinalizerToPVC env tr x).2.1).2.1.Finalizers =
          (addFinalizerToPVC env tr x).2.1.Finalizers
        ∧ (addFinalizerToPVC env tr x).1 = none
        ∧ (addFinalizerToPVC env (addFinalizerToPVC env tr x).2.2 (addFinalizerToPVC env tr x).2.1).1 = none
        ∧ (storeWrites (addFinalizerToPVC env (addFinalizerToPVC env tr x).2.2 (addFinalizerToPVC env tr x).2.1).2.2).length =
          (storeWrites tr).length + (if contains x.Finalizers pvcReplicationFinalizer then 0 else 1))
      ∧ (∀ (tr : List Event) (x : PersistentVolumeClaim),
        (removeFinalizerFromPVC env (removeFinalizerFromPVC env tr x).2.2 (removeFinalizerFromPVC env tr x).2.1).2.1.Finalizers =
          (removeFinalizerFromPVC env tr x).2.1.Finalizers
        ∧ (removeFinalizerFromPVC env tr x).1 = none
        ∧ (removeFinalizerFromPVC env (removeFinalizerFromPVC env tr x).2.2 (removeFinalizerFromPVC env tr x).2.1).1 = none
        ∧ (storeWrites (removeFinalizerFromPVC env (removeFinalizerFromPVC env tr x).2.2 (removeFinalizerFromPVC env tr x).2.1).2.2).length =
          (storeWrites tr).length + (if contains x.Finalizers pvcReplicationFinalizer then 1 else 0))
      ∧ (∀ (tr : List Event) (x : VolumeGroup),
        (addFinalizerToVG env (addFinalizerToVG env tr x).2.2 (addFinalizerToVG env tr x).2.1).2.1.Finalizers =
          (addFinalizerToVG env tr x).2.1.Finalizers
        ∧ (addFinalizerToVG env tr x).1 = none
        ∧ (addFinalizerToVG env (addFinalizerToVG env tr x).2.2 (addFinalizerToVG env tr x).2.1).1 = none
        ∧ (storeWrites (addFinalizerToVG env (addFinalizerToVG env tr x).2.2 (addFinalizerToVG env tr x).2.1).2.2).length =
          (storeWrites tr).length + (if contains x.Finalizers vgReplicationFinalizer then 0 else 1))
      ∧ (∀ (tr : List Event) (x : VolumeGroup),
        (removeFinalizerFromVG env (removeFinalizerFromVG env tr x).2.2 (removeFinalizerFromVG env tr x).2.1).2.1.Finalizers =
          (removeFinalizerFromVG env tr x).2.1.Finalizers
        ∧ (removeFinalizerFromVG env tr x).1 = none
        ∧ (removeFinalizerFromVG env (removeFinalizerFromVG env tr x).2.2 (removeFinalizerFromVG env tr x).2.1).1 = none
        ∧ (storeWrites (removeFinalizerFromVG env (removeFinalizerFromVG env tr x).2.2 (removeFinalizerFromVG env tr x).2.1).2.2).length =
          (storeWrites tr).length + (if contains x.Finalizers vgReplicationFinalizer then 1 else 0)))) := by
  refine ⟨⟨?_, ?_, ?_, ?_, ?_, ?_⟩, fun hstore => ⟨?_, ?_, ?_, ?_, ?_, ?_⟩⟩
  · intro tr x h
    simp [addFinalizerToVR, h]
  · intro tr x h
    simp [removeFinalizerFromVR, h]
  · intro tr x h
    simp [addFinalizerToPVC, h]
  · intro tr x h
    simp [removeFinalizerFromPVC, h]
  · intro tr x h
    simp [addFinalizerToVG, h]
  · intro tr x h
    simp [removeFinalizerFromVG, h]
  · intro tr x
    by_cases h : contains x.Finalizers volumeReplicationFinalizer = true
    · simp [addFinalizerToVR, h]
    · have h1 : contains x.Finalizers volumeReplicationFinalizer = false := by simpa using h
      simp [addFinalizerToVR, h1, contains_append_self, hstore]
  · intro tr x
    by_cases h : contains x.Finalizers volumeReplicationFinalizer = true
    · simp [removeFinalizerFromVR, h, contains_remove_self, hstore]
    · have h1 : contains x.Finalizers volumeReplicationFinalizer = false := by simpa using h
      simp [removeFinalizerFromVR, h1]
  · intro tr x
    by_cases h : contains x.Finalizers pvcReplicationFinalizer = true
    · simp [addFinalizerToPVC, h]
    · have h1 : contains x.Finalizers pvcReplicationFinalizer = false := by simpa using h
      simp [addFinalizerToPVC, h1, contains_append_self, hstore]
  · intro tr x
    by_cases h : contains x.Finalizers pvcReplicationFinalizer = true
    · simp [removeFinalizerFromPVC, h, contains_remove_self, hstore]
    · have h1 : contains x.Finalizers pvcReplicationFinalizer = false := by simpa using h
      simp [removeFinalizerFromPVC, h1]
  · intro tr x
    by_cases h : contains x.Finalizers vgReplicationFinalizer = true
    · simp [addFinalizerToVG, h]
    · have h1 : contains x.Finalizers vgReplicationFinalizer = false := by simpa using h
      simp [addFinalizerToVG, h1, contains_append_self, hstore]
  · intro tr x
    by_cases h : contains x.Finalizers vgReplicationFinalizer = true
    · simp [removeFinalizerFromVG, h, contains_remove_self, hstore]
    · have h1 : contains x.Finalizers vgReplicationFinalizer = false := by simpa using h
      simp [removeFinalizerFromVG, h1]

/-- The method `addFinalizerToVR` applied twice to an intent without the
finalizer, with a store that accepts every write: one write. -/
theorem finalizer_operations_idempotent_witness :
    (∀ tr o, (sampleEnv (sampleIntent ReplicationState.Primary State.empty false)
        (healthyClient true)).update tr o = none)
    ∧ (storeWrites (addFinalizerToVR
          (sampleEnv (sampleIntent ReplicationState.Primary State.empty false) (healthyClient true))
          (addFinalizerToVR
            (sampleEnv (sampleIntent ReplicationState.Primary State.empty false) (healthyClient true))
            [] (sampleIntent ReplicationState.Primary State.empty false)).trace
          (addFinalizerToVR
            (sampleEnv (sampleIntent ReplicationState.Primary State.empty false) (healthyClient true))
            [] (sampleIntent ReplicationState.Primary State.empty false)).inst).trace).length =
        (storeWrites []).length +
          (if contains (sampleIntent ReplicationState.Primary State.empty false).Finalizers
            volumeReplicationFinalizer then 0 else 1) :=
  ⟨fun _ _ => rfl,
   (((finalizer_operations_idempotent
      (sampleEnv (sampleIntent ReplicationState.Primary State.empty false)
        (healthyClient true))).2 (fun _ _ => rfl)).1 []
      (sampleIntent ReplicationState.Primary State.empty false)).2.2.2⟩

/-- C20 as stated fails: `addFinalizerToVR` applied twice, with a store that
accepts every write, to an intent that carries the finalizer already performs
no write at all, not exactly one. -/
theorem addFinalizerToVR_twice_counterexample :
    contains protectedIntent.Finalizers volumeReplicationFinalizer = true
    ∧ (∀ tr o, (sampleEnv protectedIntent (healthyClient true)).update tr o = none)
    ∧ addedTwice.err = none
    ∧ addedTwice.inst.Finalizers = protectedIntent.Finalizers
    ∧ storeWrites addedTwice.trace = []
    ∧ (storeWrites addedTwice.trace).length ≠ 1 :=
  ⟨by decide, fun _ _ => rfl, by decide, by decide, by decide, by decide⟩

/-! ## An unsupported kind of data source -/

/-- C18: unsupported data-source kind.  For every intent owned by this driver
whose class, parameters and secret resolve and whose dataSource.kind is
neither PersistentVolumeClaim nor VolumeGroup, the pass makes no driver call
and no write through `r.Client.Update` (no finalizer is added or removed),
writes the status once with the message "unsupported datasource kind", and
returns an empty result with a nil error.  The failure condition of the
desired state is added when that state is Primary, Secondary or Resync; for
any other desired state the call of `setFailureCondition` adds nothing and the
conditions stay as they were, which is where the code departs from the
claim. -/
theorem Reconcile_unsupported_kind (env : Env) (req : NamespacedName) (inst0 : VolumeReplication)
    (vrc : VolumeReplicationClass)
    (hget : env.getInstance req = Except.ok inst0)
    (hclass : env.getClass { Name := inst0.Spec.VolumeReplicationClass } = Except.ok vrc)
    (hown : env.DriverName = vrc.Spec.Provisioner)
    (hval : env.validatePrefixedParameters vrc.Spec.Parameters = none)
    (hsec : ∀ err, env.getSecret
        (vrc.Spec.Parameters.get env.prefixedReplicationSecretNameKey)
        (vrc.Spec.Parameters.get env.prefixedReplicationSecretNamespaceKey) ≠ Except.error err)
    (hpvc : inst0.Spec.DataSource.Kind ≠ pvcDataSource)
    (hvg : inst0.Spec.DataSource.Kind ≠ volumeGroupDataSource) :
    driverCalls (Reconcile env req).trace = []
    ∧ storeWrites (Reconcile env req).trace = []
    ∧ (Reconcile env req).exit = Exit.returned {} none
    ∧ ∃ inst werr, (Reconcile env req).inst = some inst
        ∧ (Reconcile env req).trace = [Event.statusUpdate inst werr]
        ∧ inst.Finalizers = inst0.Finalizers
        ∧ inst.Status.Message = "unsupported datasource kind"
        ∧ (∀ k, failureKind inst0.Spec.ReplicationState = some k →
            inst.Status.Conditions =
              inst0.Status.Conditions ++ [{ kind := k, observedGeneration := inst0.Generation }])
        ∧ (failureKind inst0.Spec.ReplicationState = none →
            inst.Status.Conditions = inst0.Status.Conditions) := by
  have h : Reconcile env req =
      { exit := Exit.returned {} none,
        inst := some (recordFailure env [] inst0 "unsupported datasource kind").inst,
        trace := (recordFailure env [] inst0 "unsupported datasource kind").trace } := by
    unfold Reconcile
    simp only [hget, getVolumeReplicationClass, hclass, hown, hval, ne_eq, not_true_eq_false,
      if_false]
    split
    · cases hs : env.getSecret
          (vrc.Spec.Parameters.get env.prefixedReplicationSecretNameKey)
          (vrc.Spec.Parameters.get env.prefixedReplicationSecretNamespaceKey) with
      | error err => exact absurd hs (hsec err)
      | ok secret => exact reconcileDataSource_unsupported_kind env req inst0 _ _ hpvc hvg
    · exact reconcileDataSource_unsupported_kind env req inst0 _ _ hpvc hvg
  obtain ⟨s1, -, s3, s4⟩ := recordFailure_status env [] inst0 "unsupported datasource kind"
  obtain ⟨-, -, g3⟩ := recordFailure_Generation env [] inst0 "unsupported datasource kind"
  rw [h]
  refine ⟨?_, ?_, rfl, _, (recordFailure env [] inst0 "unsupported datasource kind").err, rfl,
    ?_, g3, s1, s3, s4⟩
  · exact recordFailure_calls env [] inst0 _
  · simp [recordFailure_trace]
  · simp [recordFailure_trace]

/-- The pass on an intent whose data source has the kind `Snapshot` and whose
desired state is the unsupported value "paused": the message is written and
no condition is recorded. -/
theorem Reconcile_unsupported_kind_witness :
    driverCalls snapshotPass.trace = []
    ∧ storeWrites snapshotPass.trace = []
    ∧ snapshotPass.exit = Exit.returned {} none
    ∧ snapshotPass.inst.map (fun i => i.Status.Message) = some "unsupported datasource kind"
    ∧ snapshotPass.inst.map (fun i => i.Status.Conditions) = some []
    ∧ failureKind (snapshotIntent (ReplicationState.other "paused")).Spec.ReplicationState = none :=
  ⟨(Reconcile_unsupported_kind
      (sampleEnv (snapshotIntent (ReplicationState.other "paused")) (healthyClient true))
      sampleRequest (snapshotIntent (ReplicationState.other "paused"))
      { Name := "class", Spec := { Provisioner := "driver", Parameters := [] } }
      rfl rfl rfl rfl (by intro err h; cases h) (by decide) (by decide)).1,
   (Reconcile_unsupported_kind
      (sampleEnv (snapshotIntent (ReplicationState.other "paused")) (healthyClient true))
      sampleRequest (snapshotIntent (ReplicationState.other "paused"))
      { Name := "class", Spec := { Provisioner := "driver", Parameters := [] } }
      rfl rfl rfl rfl (by intro err h; cases h) (by decide) (by decide)).2.1,
   by decide, by decide, by decide, rfl⟩

/-! ## Passes that end early, run -/

/-- The pass on an intent whose desired state is "paused", against a healthy
driver: Enable is the one driver call and the pass ends with a nil error. -/
theorem Reconcile_unsupported_state_witness :
    enableSucceeded unsupportedStatePass.trace = true
    ∧ (∃ src id secrets params,
        driverCalls unsupportedStatePass.trace =
          [Call.EnableVolumeReplication src id secrets params])
    ∧ unsupportedStatePass.exit = Exit.returned {} none :=
  ⟨by decide,
   ((Reconcile_unsupported_state
      (sampleEnv (sampleIntent (ReplicationState.other "paused") State.empty false)
        (healthyClient true))
      sampleRequest (sampleIntent (ReplicationState.other "paused") State.empty false) "paused"
      rfl rfl rfl).2 (by decide)).1,
   ((Reconcile_unsupported_state
      (sampleEnv (sampleIntent (ReplicationState.other "paused") State.empty false)
        (healthyClient true))
      sampleRequest (sampleIntent (ReplicationState.other "paused") State.empty false) "paused"
      rfl rfl rfl).2 (by decide)).2.2⟩

/-- The pass on an intent whose class names the provisioner `other-driver`
while the configured driver is `driver`. -/
theorem Reconcile_ownership_filter_witness :
    (foreignClassEnv (sampleIntent ReplicationState.Primary State.empty false)
        (healthyClient true)).DriverName = "driver"
    ∧ foreignClassPass.trace = []
    ∧ foreignClassPass.exit = Exit.returned {} none :=
  ⟨rfl,
   (Reconcile_ownership_filter
      (foreignClassEnv (sampleIntent ReplicationState.Primary State.empty false)
        (healthyClient true))
      sampleRequest (sampleIntent ReplicationState.Primary State.empty false)
      { Name := "class", Spec := { Provisioner := "other-driver", Parameters := [] } }
      rfl rfl (by decide)).1,
   (Reconcile_ownership_filter
      (foreignClassEnv (sampleIntent ReplicationState.Primary State.empty false)
        (healthyClient true))
      sampleRequest (sampleIntent ReplicationState.Primary State.empty false)
      { Name := "class", Spec := { Provisioner := "other-driver", Parameters := [] } }
      rfl rfl (by decide)).2.2.2.2.2⟩

/-- The pass on an intent whose class parameters are refused with the error
"unknown parameter key". -/
theorem Reconcile_invalid_parameters_witness :
    invalidParametersPass.exit = Exit.returned {} (some (GoError.new "unknown parameter key"))
    ∧ driverCalls invalidParametersPass.trace = []
    ∧ storeWrites invalidParametersPass.trace = [] :=
  ⟨(Reconcile_invalid_parameters
      (invalidParametersEnv (sampleIntent ReplicationState.Primary State.empty false)
        (healthyClient true))
      sampleRequest (sampleIntent ReplicationState.Primary State.empty false)
      { Name := "class", Spec := { Provisioner := "driver", Parameters := [] } }
      (GoError.new "unknown parameter key") rfl rfl rfl rfl).1,
   (Reconcile_invalid_parameters
      (invalidParametersEnv (sampleIntent ReplicationState.Primary State.empty false)
        (healthyClient true))
      sampleRequest (sampleIntent ReplicationState.Primary State.empty false)
      { Name := "class", Spec := { Provisioner := "driver", Parameters := [] } }
      (GoError.new "unknown parameter key") rfl rfl rfl rfl).2.1,
   (Reconcile_invalid_parameters
      (invalidParametersEnv (sampleIntent ReplicationState.Primary State.empty false)
        (healthyClient true))
      sampleRequest (sampleIntent ReplicationState.Primary State.empty false)
      { Name := "class", Spec := { Provisioner := "driver", Parameters := [] } }
      (GoError.new "unknown parameter key") rfl rfl rfl rfl).2.2.1⟩

/-- C17 as stated fails: when the parameters of the class are refused, the
pass returns the validation error itself, not a nil error. -/
theorem Reconcile_validation_error_counterexample :
    (invalidParametersEnv (sampleIntent ReplicationState.Primary State.empty false)
        (healthyClient true)).validatePrefixedParameters [] =
      some (GoError.new "unknown parameter key")
    ∧ driverCalls invalidParametersPass.trace = []
    ∧ invalidParametersPass.inst.map (fun i => i.Status.Message) = some "unknown parameter key"
    ∧ invalidParametersPass.exit =
        Exit.returned {} (some (GoError.new "unknown parameter key"))
    ∧ invalidParametersPass.exit ≠ Exit.returned {} none := by
  decide

/-! ## replication.go: the five operations -/

/-- C23: the session operations are single pass-through calls.  Each of
Enable, Disable, Promote, Demote and Resync asks the client once, for the
operation of the same name, with the replication source, the replication ID,
the secrets and the parameters of its Params (and its Force flag for Promote
and Resync): the trace grows by that one call and nothing else, and the
Response handed back is the answer of the client, response and error alike. -/
theorem Replication_operations_pass_through (env : Env) (tr : List Event) (r : Replication) :
    ((r.Enable env tr).1 =
        env.client tr (Call.EnableVolumeReplication r.Params.ReplicationSource
          r.Params.ReplicationID r.Params.Secrets r.Params.Parameters)
      ∧ (r.Enable env tr).2 =
        tr ++ [Event.rpc (Call.EnableVolumeReplication r.Params.ReplicationSource
          r.Params.ReplicationID r.Params.Secrets r.Params.Parameters) (r.Enable env tr).1])
    ∧ ((r.Disable env tr).1 =
        env.client tr (Call.DisableVolumeReplication r.Params.ReplicationSource
          r.Params.ReplicationID r.Params.Secrets r.Params.Parameters)
      ∧ (r.Disable env tr).2 =
        tr ++ [Event.rpc (Call.DisableVolumeReplication r.Params.ReplicationSource
          r.Params.ReplicationID r.Params.Secrets r.Params.Parameters) (r.Disable env tr).1])
    ∧ ((r.Promote env tr).1 =
        env.client tr (Call.PromoteVolume r.Params.ReplicationSource
          r.Params.ReplicationID r.Force r.Params.Secrets r.Params.Parameters)
      ∧ (r.Promote env tr).2 =
        tr ++ [Event.rpc (Call.PromoteVolume r.Params.ReplicationSource
          r.Params.ReplicationID r.Force r.Params.Secrets r.Params.Parameters)
          (r.Promote env tr).1])
    ∧ ((r.Demote env tr).1 =
        env.client tr (Call.DemoteVolume r.Params.ReplicationSource
          r.Params.ReplicationID r.Params.Secrets r.Params.Parameters)
      ∧ (r.Demote env tr).2 =
        tr ++ [Event.rpc (Call.DemoteVolume r.Params.ReplicationSource
          r.Params.ReplicationID r.Params.Secrets r.Params.Parameters) (r.Demote env tr).1])
    ∧ ((r.Resync env tr).1 =
        env.client tr (Call.ResyncVolume r.Params.ReplicationSource
          r.Params.ReplicationID r.Force r.Params.Secrets r.Params.Parameters)
      ∧ (r.Resync env tr).2 =
        tr ++ [Event.rpc (Call.ResyncVolume r.Params.ReplicationSource
          r.Params.ReplicationID r.Force r.Params.Secrets r.Params.Parameters)
          (r.Resync env tr).1])
    ∧ (∀ op ∈ [Replication.Enable, Replication.Disable, Replication.Promote,
          Replication.Demote, Replication.Resync],
        (op env tr r).2.length = tr.length + 1
        ∧ (driverCalls (op env tr r).2).length = (driverCalls tr).length + 1) := by
  refine ⟨⟨rfl, rfl⟩, ⟨rfl, rfl⟩, ⟨rfl, rfl⟩, ⟨rfl, rfl⟩, ⟨rfl, rfl⟩, ?_⟩
  intro op hop
  simp only [List.mem_cons, List.mem_singleton, List.not_mem_nil, or_false] at hop
  rcases hop with h | h | h | h | h <;> subst h <;>
    simp [Replication.Enable, Replication.Disable, Replication.Promote, Replication.Demote,
      Replication.Resync, Env.invoke]

/-! ## volumereplicationclass.go and vg.go -/

/-- C24: `getVolumeReplicationClass` looks the name up with an empty
namespace; when the store holds a class under that key it returns the class
with a nil error, and otherwise it returns no class and the error of the
store unchanged, so a NotFound of the store is still a NotFound. -/
theorem getVolumeReplicationClass_store (env : Env) (vrcName : String) :
    (∀ vrc, env.getClass { Name := vrcName, Namespace := "" } = Except.ok vrc →
      getVolumeReplicationClass env vrcName = Except.ok vrc)
    ∧ (∀ err, env.getClass { Name := vrcName, Namespace := "" } = Except.error err →
      getVolumeReplicationClass env vrcName = Except.error err)
    ∧ (∀ err, getVolumeReplicationClass env vrcName = Except.error err →
      env.getClass { Name := vrcName, Namespace := "" } = Except.error err)
    ∧ (∀ err, env.getClass { Name := vrcName, Namespace := "" } = Except.error err →
      err.notFound = true →
      ∃ e, getVolumeReplicationClass env vrcName = Except.error e ∧ e.notFound = true) := by
  unfold getVolumeReplicationClass
  refine ⟨?_, ?_, ?_, ?_⟩
  · intro vrc h; rw [h]
  · intro err h; rw [h]
  · intro err h
    cases hc : env.getClass { Name := vrcName, Namespace := "" } with
    | error e => rw [hc] at h; exact h
    | ok v => rw [hc] at h; cases h
  · intro err h hnf
    rw [h]
    exact ⟨err, rfl, hnf⟩

/-- The lookup of the class `class` in a store that holds no class. -/
theorem getVolumeReplicationClass_store_witness :
    getVolumeReplicationClass
        (missingClassEnv (sampleIntent ReplicationState.Primary State.empty false)
          (healthyClient true)) "class" =
      Except.error { text := "class not found", notFound := true } :=
  (getVolumeReplicationClass_store
    (missingClassEnv (sampleIntent ReplicationState.Primary State.empty false)
      (healthyClient true)) "class").2.1 { text := "class not found", notFound := true } rfl

/-- C25: the resolution of a volume group.  When the lookup of the group fails
`getVGDataSource` returns (nil, nil, err) with the error of the store; when the
group names its content and the lookup of the content fails it returns
(group, nil, err) with the error of the store, and when that lookup succeeds it
returns (group, content, nil).  When the content reference of the group is
unset the function returns nothing: it dereferences the nil pointer, which is
where the code departs from the claim. -/
theorem getVGDataSource_resolution (env : Env) (req : NamespacedName) :
    (∀ err, env.getVolumeGroup req = Except.error err →
      getVGDataSource env req = VGDataSource.returned none none (some err))
    ∧ (∀ vg name, env.getVolumeGroup req = Except.ok vg →
        vg.VolumeGroupContentName = some name →
        (∀ err, env.getVolumeGroupContent { Name := name, Namespace := vg.Namespace } =
            Except.error err →
          getVGDataSource env req = VGDataSource.returned (some vg) none (some err))
        ∧ (∀ vgc, env.getVolumeGroupContent { Name := name, Namespace := vg.Namespace } =
            Except.ok vgc →
          getVGDataSource env req = VGDataSource.returned (some vg) (some vgc) none))
    ∧ (∀ vg, env.getVolumeGroup req = Except.ok vg → vg.VolumeGroupContentName = none →
        getVGDataSource env req = VGDataSource.panicked) := by
  unfold getVGDataSource
  refine ⟨?_, ?_, ?_⟩
  · intro err h; rw [h]
  · intro vg name h hn
    rw [h]
    dsimp only
    rw [hn]
    constructor
    · intro err hc; dsimp only; rw [hc]
    · intro vgc hc; dsimp only; rw [hc]
  · intro vg h hn
    rw [h]
    dsimp only
    rw [hn]

/-- The resolution of a volume group whose content reference is unset, and the
pass on an intent that names this group: both abort. -/
theorem getVGDataSource_resolution_witness :
    (groupEnv none (healthyClient true)).getVolumeGroup { Name := "group", Namespace := "ns" } =
      Except.ok { Name := "group", Namespace := "ns", Finalizers := [],
                  VolumeGroupContentName := none }
    ∧ getVGDataSource (groupEnv none (healthyClient true)) { Name := "group", Namespace := "ns" } =
      VGDataSource.panicked
    ∧ unboundGroupPass.exit = Exit.panicked
    ∧ unboundGroupPass.trace = [] :=
  ⟨rfl,
   (getVGDataSource_resolution (groupEnv none (healthyClient true))
      { Name := "group", Namespace := "ns" }).2.2
      { Name := "group", Namespace := "ns", Finalizers := [], VolumeGroupContentName := none }
      rfl rfl,
   by decide, by decide⟩

/-! ## Finalizers in place before the driver is called -/

theorem updatesSucceeded_nil : updatesSucceeded [] = true := rfl

theorem updatesSucceeded_append (xs ys : List Event) :
    updatesSucceeded (xs ++ ys) = (updatesSucceeded xs && updatesSucceeded ys) := by
  simp [updatesSucceeded, List.all_append]

theorem updatesSucceeded_snoc {tr : List Event} (h : updatesSucceeded tr = true) (o : Object) :
    updatesSucceeded (tr ++ [Event.update o none]) = true := by
  rw [updatesSucceeded_append, h]
  rfl

theorem not_mem_of_updatesSucceeded {tr : List Event} (h : updatesSucceeded tr = true)
    (o : Object) (e : GoError) : Event.update o (some e) ∉ tr := by
  intro hmem
  have hm := mem_storeWrites_of_mem hmem
  unfold updatesSucceeded at h
  rw [List.all_eq_true] at h
  have := h _ hm
  simp at this

theorem not_mem_of_storeWrites_nil {tr : List Event} (h : storeWrites tr = [])
    (o : Object) (e : Option GoError) : Event.update o e ∉ tr := by
  intro hmem
  have hm := mem_storeWrites_of_mem hmem
  rw [h] at hm
  cases hm

/-- The two ways `addFinalizerToVR` goes on an empty trace: the write that
appends the finalizer fails, and its error comes back wrapped; or the intent
it hands back carries the finalizer, after no write or after that one write,
accepted. -/
theorem addFinalizerToVR_step (env : Env) (inst : VolumeReplication) :
    (∃ e head, addFinalizerToVR env [] inst =
        { err := some (GoError.wrapf head e)
          inst := { inst with Finalizers := inst.Finalizers ++ [volumeReplicationFinalizer] }
          trace := [Event.update (Object.vr
            { inst with Finalizers := inst.Finalizers ++ [volumeReplicationFinalizer] })
            (some e)] })
    ∨ (∃ pre fin, addFinalizerToVR env [] inst =
          { err := none, inst := { inst with Finalizers := fin }, trace := pre }
        ∧ OnlyUpdates pre ∧ updatesSucceeded pre = true
        ∧ contains fin volumeReplicationFinalizer = true
        ∧ (contains inst.Finalizers volumeReplicationFinalizer = true ∨
            Event.update (Object.vr
              { inst with Finalizers := inst.Finalizers ++ [volumeReplicationFinalizer] })
              none ∈ pre)) := by
  unfold addFinalizerToVR
  by_cases h : contains inst.Finalizers volumeReplicationFinalizer = true
  · right
    refine ⟨[], inst.Finalizers, ?_, onlyUpdates_nil, rfl, h, Or.inl h⟩
    simp [h]
  · have h1 : contains inst.Finalizers volumeReplicationFinalizer = false := by simpa using h
    cases hu : env.update [] (Object.vr
        { inst with Finalizers := inst.Finalizers ++ [volumeReplicationFinalizer] }) with
    | some e =>
      left
      refine ⟨e, "failed to add finalizer (" ++ volumeReplicationFinalizer ++
        ") to VolumeReplication resource (" ++ inst.Namespace ++ "/" ++ inst.Name ++ ") ", ?_⟩
      simp [h1, hu]
    | none =>
      right
      refine ⟨[Event.update (Object.vr
          { inst with Finalizers := inst.Finalizers ++ [volumeReplicationFinalizer] }) none],
        inst.Finalizers ++ [volumeReplicationFinalizer], ?_,
        onlyUpdates_snoc onlyUpdates_nil _ _, rfl, contains_append_self _ _,
        Or.inr (List.mem_singleton.mpr rfl)⟩
      simp [h1, hu]

/-- The two ways `addFinalizerToPVC` goes: the write fails, and its error
comes back wrapped; or the claim carries the finalizer, after no write or
after that one write, accepted. -/
theorem addFinalizerToPVC_step (env : Env) (tr : List Event) (c : PersistentVolumeClaim) :
    (∃ e head, (addFinalizerToPVC env tr c).1 = some (GoError.wrapf head e)
        ∧ (addFinalizerToPVC env tr c).2.2 =
          tr ++ [Event.update (Object.pvc
            { c with Finalizers := c.Finalizers ++ [pvcReplicationFinalizer] }) (some e)])
    ∨ (∃ post, (addFinalizerToPVC env tr c).1 = none
        ∧ (addFinalizerToPVC env tr c).2.2 = tr ++ post
        ∧ OnlyUpdates post ∧ updatesSucceeded post = true
        ∧ (contains c.Finalizers pvcReplicationFinalizer = true ∨
            Event.update (Object.pvc
              { c with Finalizers := c.Finalizers ++ [pvcReplicationFinalizer] }) none ∈ post)) := by
  unfold addFinalizerToPVC
  by_cases h : contains c.Finalizers pvcReplicationFinalizer = true
  · right
    refine ⟨[], ?_, ?_, onlyUpdates_nil, rfl, Or.inl h⟩ <;> simp [h]
  · have h1 : contains c.Finalizers pvcReplicationFinalizer = false := by simpa using h
    cases hu : env.update tr (Object.pvc
        { c with Finalizers := c.Finalizers ++ [pvcReplicationFinalizer] }) with
    | some e =>
      left
      refine ⟨e, "failed to add finalizer (" ++ pvcReplicationFinalizer ++
        ") to PersistentVolumeClaim resource (" ++ c.Namespace ++ "/" ++ c.Name ++ ") ", ?_, ?_⟩
      · simp [h1, hu]
      · simp [h1, hu]
    | none =>
      right
      refine ⟨[Event.update (Object.pvc
          { c with Finalizers := c.Finalizers ++ [pvcReplicationFinalizer] }) none],
        ?_, ?_, onlyUpdates_snoc onlyUpdates_nil _ _, rfl,
        Or.inr (List.mem_singleton.mpr rfl)⟩ <;> simp [h1, hu]

/-- The two ways `addFinalizerToVG` goes: the write fails, and its error comes
back wrapped; or the volume group carries the finalizer, after no write or
after that one write, accepted. -/
theorem addFinalizerToVG_step (env : Env) (tr : List Event) (g : VolumeGroup) :
    (∃ e head, (addFinalizerToVG env tr g).1 = some (GoError.wrapf head e)
        ∧ (addFinalizerToVG env tr g).2.2 =
          tr ++ [Event.update (Object.vg
            { g with Finalizers := g.Finalizers ++ [vgReplicationFinalizer] }) (some e)])
    ∨ (∃ post, (addFinalizerToVG env tr g).1 = none
        ∧ (addFinalizerToVG env tr g).2.2 = tr ++ post
        ∧ OnlyUpdates post ∧ updatesSucceeded post = true
        ∧ (contains g.Finalizers vgReplicationFinalizer = true ∨
            Event.update (Object.vg
              { g with Finalizers := g.Finalizers ++ [vgReplicationFinalizer] }) none ∈ post)) := by
  unfold addFinalizerToVG
  by_cases h : contains g.Finalizers vgReplicationFinalizer = true
  · right
    refine ⟨[], ?_, ?_, onlyUpdates_nil, rfl, Or.inl h⟩ <;> simp [h]
  · have h1 : contains g.Finalizers vgReplicationFinalizer = false := by simpa using h
    cases hu : env.update tr (Object.vg
        { g with Finalizers := g.Finalizers ++ [vgReplicationFinalizer] }) with
    | some e =>
      left
      refine ⟨e, "failed to add finalizer (" ++ vgReplicationFinalizer ++
        ") to VolumeGroup resource (" ++ g.Namespace ++ "/" ++ g.Name ++ ") ", ?_, ?_⟩
      · simp [h1, hu]
      · simp [h1, hu]
    | none =>
      right
      refine ⟨[Event.update (Object.vg
          { g with Finalizers := g.Finalizers ++ [vgReplicationFinalizer] }) none],
        ?_, ?_, onlyUpdates_snoc onlyUpdates_nil _ _, rfl,
        Or.inr (List.mem_singleton.mpr rfl)⟩ <;> simp [h1, hu]

theorem onlyUpdates_append {xs ys : List Event} (hx : OnlyUpdates xs) (hy : OnlyUpdates ys) :
    OnlyUpdates (xs ++ ys) := by
  intro ev hev
  rcases List.mem_append.mp hev with h | h
  · exact hx ev h
  · exact hy ev h

theorem updatesSucceeded_append_of {xs ys : List Event} (hx : updatesSucceeded xs = true)
    (hy : updatesSucceeded ys = true) : updatesSucceeded (xs ++ ys) = true := by
  rw [updatesSucceeded_append, hx, hy]
  rfl

/-- On a live intent the finalizer phase either ends on a finalizer write that
the store refused, after writes that were all accepted, and returns the error
of that write, wrapped; or it goes on with `reconcileReplication` once the
finalizers of the intent and of its data source are in place, after writes
that were all accepted. -/
theorem reconcileFinalizers_ensured (env : Env) (inst : VolumeReplication)
    (pvc : Option PersistentVolumeClaim) (vg : Option VolumeGroup)
    (src : Option ReplicationSource) (handle : String) (parameters secret : StringMap)
    (hlive : inst.DeletionTimestamp = none) :
    (∃ pre o e head fin, OnlyUpdates pre ∧ updatesSucceeded pre = true ∧
        reconcileFinalizers env [] inst pvc vg src handle parameters secret =
          { exit := Exit.returned {} (some (GoError.wrapf head e)),
            inst := some { inst with Finalizers := fin },
            trace := pre ++ [Event.update o (some e)] })
    ∨ (∃ pre fin, OnlyUpdates pre ∧ updatesSucceeded pre = true ∧
        FinalizersEnsured inst pvc vg pre ∧ contains fin volumeReplicationFinalizer = true ∧
        reconcileFinalizers env [] inst pvc vg src handle parameters secret =
          reconcileReplication env pre { inst with Finalizers := fin } src handle
            parameters secret) := by
  rcases addFinalizerToVR_step env inst with ⟨e, head, hA⟩ | ⟨pre, fin, hA, hU, hS, hfin, hens⟩
  · left
    refine ⟨[], Object.vr { inst with
        Finalizers := inst.Finalizers ++ [volumeReplicationFinalizer] }, e, head,
      inst.Finalizers ++ [volumeReplicationFinalizer], onlyUpdates_nil,
      rfl, ?_⟩
    unfold reconcileFinalizers
    simp only [hlive, hA, List.nil_append]
  · cases pvc with
    | none =>
      cases vg with
      | none =>
        right
        refine ⟨pre, fin, hU, hS, ⟨hens, (by intro c h; cases h), (by intro g h; cases h)⟩,
          hfin, ?_⟩
        unfold reconcileFinalizers
        simp only [hlive, hA]
      | some g =>
        rcases addFinalizerToVG_step env pre g with ⟨e, head, h1, h2⟩ |
          ⟨post, h1, h2, hU2, hS2, hens2⟩
        · left
          refine ⟨pre, Object.vg { g with Finalizers := g.Finalizers ++ [vgReplicationFinalizer] },
            e, head, fin, hU, hS, ?_⟩
          unfold reconcileFinalizers
          simp only [hlive, hA, h1, h2]
        · right
          refine ⟨pre ++ post, fin, onlyUpdates_append hU hU2, updatesSucceeded_append_of hS hS2,
            ⟨?_, (by intro c h; cases h), ?_⟩, hfin, ?_⟩
          · rcases hens with h | h
            · exact Or.inl h
            · exact Or.inr (List.mem_append_left _ h)
          · intro g1 hg
            cases hg
            rcases hens2 with h | h
            · exact Or.inl h
            · exact Or.inr (List.mem_append_right _ h)
          · unfold reconcileFinalizers
            simp only [hlive, hA, h1, h2]
    | some c =>
      rcases addFinalizerToPVC_step env pre c with ⟨e, head, h1, h2⟩ |
        ⟨post, h1, h2, hU2, hS2, hens2⟩
      · left
        refine ⟨pre, Object.pvc { c with Finalizers := c.Finalizers ++ [pvcReplicationFinalizer] },
          e, head, fin, hU, hS, ?_⟩
        unfold reconcileFinalizers
        simp only [hlive, hA, h1, h2]
      · cases vg with
        | none =>
          right
          refine ⟨pre ++ post, fin, onlyUpdates_append hU hU2, updatesSucceeded_append_of hS hS2,
            ⟨?_, ?_, (by intro g h; cases h)⟩, hfin, ?_⟩
          · rcases hens with h | h
            · exact Or.inl h
            · exact Or.inr (List.mem_append_left _ h)
          · intro c1 hc
            cases hc
            rcases hens2 with h | h
            · exact Or.inl h
            · exact Or.inr (List.mem_append_right _ h)
          · unfold reconcileFinalizers
            simp only [hlive, hA, h1, h2]
        | some g =>
          rcases addFinalizerToVG_step env (pre ++ post) g with ⟨e, head, k1, k2⟩ |
            ⟨post2, k1, k2, hU3, hS3, hens3⟩
          · left
            refine ⟨pre ++ post, Object.vg { g with Finalizers := g.Finalizers ++ [vgReplicationFinalizer] },
              e, head, fin, onlyUpdates_append hU hU2,
              updatesSucceeded_append_of hS hS2, ?_⟩
            unfold reconcileFinalizers
            simp only [hlive, hA, h1, h2, k1, k2]
          · right
            refine ⟨pre ++ post ++ post2, fin,
              onlyUpdates_append (onlyUpdates_append hU hU2) hU3,
              updatesSucceeded_append_of (updatesSucceeded_append_of hS hS2) hS3,
              ⟨?_, ?_, ?_⟩, hfin, ?_⟩
            · rcases hens with h | h
              · exact Or.inl h
              · exact Or.inr (List.mem_append_left _ (List.mem_append_left _ h))
            · intro c1 hc
              cases hc
              rcases hens2 with h | h
              · exact Or.inl h
              · exact Or.inr (List.mem_append_left _ (List.mem_append_right _ h))
            · intro g1 hg
              cases hg
              rcases hens3 with h | h
              · exact Or.inl h
              · exact Or.inr (List.mem_append_right _ h)
            · unfold reconcileFinalizers
              simp only [hlive, hA, h1, h2, k1, k2]

theorem finalizersEnsured_append {inst : VolumeReplication} {pvc : Option PersistentVolumeClaim}
    {vg : Option VolumeGroup} {pre : List Event} (h : FinalizersEnsured inst pvc vg pre)
    (post : List Event) : FinalizersEnsured inst pvc vg (pre ++ post) := by
  obtain ⟨h1, h2, h3⟩ := h
  refine ⟨?_, ?_, ?_⟩
  · rcases h1 with h | h
    · exact Or.inl h
    · exact Or.inr (List.mem_append_left _ h)
  · intro c hc
    rcases h2 c hc with h | h
    · exact Or.inl h
    · exact Or.inr (List.mem_append_left _ h)
  · intro g hg
    rcases h3 g hg with h | h
    · exact Or.inl h
    · exact Or.inr (List.mem_append_left _ h)

/-- C21: finalizers are in place before any driver operation.  In a pass on an
intent not marked for deletion that calls the driver at all, everything before
the first driver call is a write through `r.Client.Update` that the store
accepted, nothing is written through `r.Client.Update` after it, and before it
the finalizers are in place: the intent carried its finalizer or the write that
appends it was accepted, and likewise the claim or the volume group the intent
refers to.  When a write through `r.Client.Update` is refused, it is the last
event of the pass, no driver call is made, and the pass returns the error of
that write with an empty result: wrapped with the text of the finalizer
operation, or as it is when the write is that of the start time, made once the
finalizers are in place. -/
theorem Reconcile_finalizers_first (env : Env) (req : NamespacedName)
    (inst0 : VolumeReplication)
    (hget : env.getInstance req = Except.ok inst0)
    (hlive : inst0.DeletionTimestamp = none) :
    (driverCalls (Reconcile env req).trace ≠ [] →
      ∃ pre c r post, (Reconcile env req).trace = pre ++ Event.rpc c r :: post
        ∧ OnlyUpdates pre ∧ updatesSucceeded pre = true ∧ storeWrites post = []
        ∧ ∀ pvc vg, ResolvedDataSource env req inst0 pvc vg →
            FinalizersEnsured inst0 pvc vg pre)
    ∧ (∀ o e, Event.update o (some e) ∈ (Reconcile env req).trace →
        driverCalls (Reconcile env req).trace = []
        ∧ (Reconcile env req).trace.getLast? = some (Event.update o (some e))
        ∧ ∃ err, (Reconcile env req).exit = Exit.returned {} (some err)
            ∧ ((∃ head, err = GoError.wrapf head e)
              ∨ (err = e ∧ ∃ fin t, contains fin volumeReplicationFinalizer = true
                  ∧ o = Object.vr
                    (VolumeReplication.withLastStartTime { inst0 with Finalizers := fin } t)))) := by
  rcases Reconcile_prefix env req inst0 hget with hres |
    ⟨pvc, vg, src, handle, parameters, secret, hds, hout⟩
  · obtain ⟨hde, hsw, -, -⟩ := endsInResolution_facts hres
    have hdc : driverCalls (Reconcile env req).trace = [] := by
      rw [driverCalls_eq_map, hde]; rfl
    constructor
    · intro h; exact absurd hdc h
    · intro o e hmem
      exact absurd hmem (not_mem_of_storeWrites_nil hsw o (some e))
  · rw [hout]
    rcases reconcileFinalizers_ensured env inst0 pvc vg src handle parameters secret hlive with
      ⟨pre, o1, e1, head, fin, hU, hS, heq⟩ | ⟨pre, fin, hU, hS, hens, hfin, heq⟩
    · rw [heq]
      have hdc : driverCalls (pre ++ [Event.update o1 (some e1)]) = [] :=
        onlyUpdates_driverCalls (onlyUpdates_snoc hU _ _)
      constructor
      · intro h; exact absurd hdc h
      · intro o e hmem
        rcases List.mem_append.mp hmem with h | h
        · exact absurd h (not_mem_of_updatesSucceeded hS o e)
        · cases List.mem_singleton.mp h
          exact ⟨hdc, List.getLast?_concat _, _, rfl, Or.inl ⟨head, rfl⟩⟩
    · rw [heq]
      have hens1 : ∀ post pvc1 vg1, ResolvedDataSource env req inst0 pvc1 vg1 →
          FinalizersEnsured inst0 pvc1 vg1 (pre ++ post) := by
        intro post pvc1 vg1 h1
        obtain ⟨hp, hv⟩ := resolvedDataSource_unique h1 hds
        subst hp
        subst hv
        exact finalizersEnsured_append hens post
      rcases reconcileReplication_cases env pre { inst0 with Finalizers := fin } src handle
        parameters secret with ⟨err, -, heq2⟩ | ⟨r, err, hE, heq2⟩ | ⟨r, hE, heq2⟩
      · rw [heq2]
        have hdc : driverCalls (pre ++ [Event.update (Object.vr
            (VolumeReplication.withLastStartTime { inst0 with Finalizers := fin } (env.now pre)))
            (some err)]) = [] :=
          onlyUpdates_driverCalls (onlyUpdates_snoc hU _ _)
        constructor
        · intro h; exact absurd hdc h
        · intro o e hmem
          rcases List.mem_append.mp hmem with h | h
          · exact absurd h (not_mem_of_updatesSucceeded hS o e)
          · cases List.mem_singleton.mp h
            exact ⟨hdc, List.getLast?_concat _, _, rfl,
              Or.inr ⟨rfl, fin, env.now pre, hfin, rfl⟩⟩
      · rw [heq2]
        dsimp only
        rw [recordFailure_trace]
        generalize (recordFailure env _ _ _).inst = ri
        generalize (recordFailure env _ _ _).err = re
        constructor
        · intro _
          refine ⟨pre ++ [Event.update (Object.vr
              (VolumeReplication.withLastStartTime { inst0 with Finalizers := fin }
                (env.now pre))) none],
            Call.EnableVolumeReplication src handle secret parameters, r,
            [Event.statusUpdate ri re],
            ?_, onlyUpdates_snoc hU _ _, updatesSucceeded_snoc hS _, ?_, hens1 _⟩
          · simp
          · rfl
        · intro o e hmem
          exfalso
          simp only [List.mem_append, List.mem_cons, List.mem_singleton, List.not_mem_nil,
            or_false] at hmem
          rcases hmem with (h | h | h) | h
          · exact not_mem_of_updatesSucceeded hS o e h
          · cases h
          · cases h
          · cases h
      · obtain ⟨evs, inst1, werr, result, rerr, htr, hevs, -, -, -, -⟩ :=
          reconcileDesiredState_shape env
            (pre ++ [Event.update (Object.vr
              (VolumeReplication.withLastStartTime { inst0 with Finalizers := fin }
                (env.now pre))) none,
              Event.rpc (Call.EnableVolumeReplication src handle secret parameters) r])
            (VolumeReplication.withLastStartTime { inst0 with Finalizers := fin } (env.now pre))
            src handle parameters secret
        rw [heq2, htr]
        obtain ⟨hw1, -⟩ := onlyReplication_writes hevs
        constructor
        · intro _
          refine ⟨pre ++ [Event.update (Object.vr
              (VolumeReplication.withLastStartTime { inst0 with Finalizers := fin }
                (env.now pre))) none],
            Call.EnableVolumeReplication src handle secret parameters, r,
            evs ++ [Event.statusUpdate inst1 werr], ?_,
            onlyUpdates_snoc hU _ _, updatesSucceeded_snoc hS _, ?_, hens1 _⟩
          · simp
          · simp [hw1]
        · intro o e hmem
          exfalso
          simp only [List.mem_append, List.mem_cons, List.mem_singleton, List.not_mem_nil,
            or_false] at hmem
          rcases hmem with ((h | h | h) | h) | h
          · exact not_mem_of_updatesSucceeded hS o e h
          · cases h
          · cases h
          · exact not_mem_of_storeWrites_nil hw1 o (some e) h
          · cases h

/-- The pass on a never-reconciled intent against a healthy driver, and the
pass in which the store refuses the write of the claim finalizer. -/
theorem Reconcile_finalizers_first_witness :
    driverCalls promotedPass.trace ≠ []
    ∧ (∃ pre c r post, promotedPass.trace = pre ++ Event.rpc c r :: post
        ∧ OnlyUpdates pre ∧ updatesSucceeded pre = true ∧ storeWrites post = []
        ∧ ∀ pvc vg,
            ResolvedDataSource
              (sampleEnv (sampleIntent ReplicationState.Primary State.empty false)
                (healthyClient true))
              sampleRequest (sampleIntent ReplicationState.Primary State.empty false) pvc vg →
            FinalizersEnsured (sampleIntent ReplicationState.Primary State.empty false) pvc vg pre)
    ∧ Event.update (Object.pvc
          { Name := "pvc", Namespace := "ns", Finalizers := [pvcReplicationFinalizer] })
        (some (GoError.new "conflict")) ∈ refusedClaimWritePass.trace
    ∧ driverCalls refusedClaimWritePass.trace = [] :=
  ⟨by decide,
   (Reconcile_finalizers_first
      (sampleEnv (sampleIntent ReplicationState.Primary State.empty false) (healthyClient true))
      sampleRequest (sampleIntent ReplicationState.Primary State.empty false) rfl rfl).1
      (by decide),
   by decide,
   ((Reconcile_finalizers_first
      (refusingClaimWritesEnv (sampleIntent ReplicationState.Primary State.empty false)
        (healthyClient true))
      sampleRequest (sampleIntent ReplicationState.Primary State.empty false) rfl rfl).2
      (Object.pvc { Name := "pvc", Namespace := "ns", Finalizers := [pvcReplicationFinalizer] })
      (GoError.new "conflict") (by decide)).1⟩

/-! ## Full success -/

/-- The last block of Reconcile, lines 375-390, reached with no replication
error and no requeue for resync: one status write, of the intent handed back,
with the completion time stamped, the state of the desired state and the
message of the desired state; the pass returns the error of that write. -/
theorem reconcileOutcome_completed (env : Env) (tr : List Event) (inst : VolumeReplication) :
    ∃ i werr,
      (reconcileOutcome env tr inst none false).trace = tr ++ [Event.statusUpdate i werr]
      ∧ (reconcileOutcome env tr inst none false).inst = some i
      ∧ (reconcileOutcome env tr inst none false).exit = Exit.returned {} werr
      ∧ i.Status.LastCompletionTime = some (env.now tr)
      ∧ i.Status.State = getReplicationState inst
      ∧ i.Status.Message =
        (if inst.Spec.ReplicationState = ReplicationState.Resync
          then "volume is marked for resyncing"
          else "volume is marked " ++ env.stateString inst.Spec.ReplicationState) := by
  unfold reconcileOutcome
  dsimp only
  simp only [Bool.false_eq_true, if_false]
  split
  next err herr =>
    refine ⟨_, some err, ?_, rfl, rfl, rfl, rfl, rfl⟩
    simp only [updateReplicationStatus] at herr ⊢
    rw [herr]
  next herr =>
    refine ⟨_, none, ?_, rfl, rfl, rfl, rfl, rfl⟩
    simp only [updateReplicationStatus] at herr ⊢
    rw [herr]

theorem getReplicationState_withConditions (inst : VolumeReplication) (cs : List Condition) :
    getReplicationState (inst.withConditions cs) = getReplicationState inst := rfl

/-- A Resync that the driver answers with success and `ready = true`: no
requeue, no error, the resync and not-degraded conditions recorded. -/
theorem resyncVolume_ready (env : Env) (tr : List Event) (inst : VolumeReplication)
    (src : Option ReplicationSource) (id : String) (force : Bool) (parameters secrets : StringMap)
    (hE : (env.client tr (Call.ResyncVolume src id force secrets parameters)).Error = none)
    (hR : (env.client tr (Call.ResyncVolume src id force secrets parameters)).Response =
      Payload.ResyncVolumeResponse true) :
    resyncVolume env tr inst src id force parameters secrets =
      { requeue := false, err := none
        inst := inst.withConditions
          (setNotDegradedCondition (setResyncCondition inst.Status.Conditions inst.Generation)
            inst.Generation)
        trace := tr ++ [Event.rpc (Call.ResyncVolume src id force secrets parameters)
          (env.client tr (Call.ResyncVolume src id force secrets parameters))] } := by
  simp only [resyncVolume, Replication.Resync, Env.invoke, hE, hR]
  rfl

/-- How the switch on the desired state ends, by its last driver call: with
the last block of Reconcile after a call that completes the state operation;
with something else after a last call that does not; or without any call. -/
theorem reconcileDesiredState_last (env : Env) (tr : List Event) (inst : VolumeReplication)
    (src : Option ReplicationSource) (handle : String) (parameters secret : StringMap) :
    (∃ pre c r cs, c.completes r = true
        ∧ reconcileDesiredState env tr inst src handle parameters secret =
          reconcileOutcome env (tr ++ pre ++ [Event.rpc c r]) (inst.withConditions cs) none false
        ∧ (∀ raw, inst.Spec.ReplicationState ≠ ReplicationState.other raw)
        ∧ (inst.Spec.ReplicationState = ReplicationState.Secondary →
            inst.Status.State = State.SecondaryState))
    ∨ (∃ pre c r post, c.completes r = false
        ∧ (reconcileDesiredState env tr inst src handle parameters secret).trace =
          tr ++ pre ++ [Event.rpc c r] ++ post
        ∧ driverEvents post = [])
    ∨ (∃ post, (reconcileDesiredState env tr inst src handle parameters secret).trace = tr ++ post
        ∧ driverEvents post = []) := by
  unfold reconcileDesiredState
  cases hs : inst.Spec.ReplicationState with
  | Primary =>
    dsimp only
    obtain ⟨pre, force, r, cs, htrace, herr, hinst⟩ :=
      markVolumeAsPrimary_last env tr inst src handle parameters secret
    cases hE : r.Error with
    | none =>
      left
      refine ⟨pre, Call.PromoteVolume src handle force secret parameters, r, cs, ?_, ?_,
        (by intro raw h; cases h), (by intro h; cases h)⟩
      · simp [Call.completes, hE]
      · rw [htrace, hinst, ← herr, hE]
    | some e =>
      right; left
      obtain ⟨i, werr, h⟩ := reconcileOutcome_trace env
        (markVolumeAsPrimary env tr inst src handle parameters secret).trace
        (markVolumeAsPrimary env tr inst src handle parameters secret).inst
        (markVolumeAsPrimary env tr inst src handle parameters secret).err false
      refine ⟨pre, Call.PromoteVolume src handle force secret parameters, r,
        [Event.statusUpdate i werr], ?_, ?_, rfl⟩
      · simp [Call.completes, hE]
      · rw [h, htrace]
  | Secondary =>
    dsimp only
    have hinst := markVolumeAsSecondary_inst env tr inst src handle parameters secret
    simp only [markVolumeAsSecondary_err, markVolumeAsSecondary_trace]
    cases hd : (env.client tr (Call.DemoteVolume src handle secret parameters)).Error with
    | some err =>
      right; left
      obtain ⟨i, werr, h⟩ := reconcileOutcome_trace env
        (tr ++ [Event.rpc (Call.DemoteVolume src handle secret parameters)
          (env.client tr (Call.DemoteVolume src handle secret parameters))])
        (markVolumeAsSecondary env tr inst src handle parameters secret).inst (some err) false
      refine ⟨[], Call.DemoteVolume src handle secret parameters,
        env.client tr (Call.DemoteVolume src handle secret parameters),
        [Event.statusUpdate i werr], rfl, ?_, rfl⟩
      split <;> simp [h]
    | none =>
      dsimp only
      split
      · right; left
        split
        · exact ⟨[], Call.DemoteVolume src handle secret parameters,
            env.client tr (Call.DemoteVolume src handle secret parameters), _, rfl,
            by simp; rfl, by simp⟩
        · exact ⟨[], Call.DemoteVolume src handle secret parameters,
            env.client tr (Call.DemoteVolume src handle secret parameters), _, rfl,
            by simp; rfl, by simp⟩
      next hobs =>
        have hobs1 : inst.Status.State = State.SecondaryState := by
          simpa using hobs
        cases hc : Call.completes (Call.ResyncVolume src handle inst.Spec.AutoResync secret parameters)
            (env.client (tr ++ [Event.rpc (Call.DemoteVolume src handle secret parameters)
              (env.client tr (Call.DemoteVolume src handle secret parameters))])
              (Call.ResyncVolume src handle inst.Spec.AutoResync secret parameters)) with
        | false =>
          right; left
          obtain ⟨i, werr, h⟩ := reconcileOutcome_trace env
            (resyncVolume env
              (tr ++ [Event.rpc (Call.DemoteVolume src handle secret parameters)
                (env.client tr (Call.DemoteVolume src handle secret parameters))])
              (markVolumeAsSecondary env tr inst src handle parameters secret).inst
              src handle inst.Spec.AutoResync parameters secret).trace
            (resyncVolume env
              (tr ++ [Event.rpc (Call.DemoteVolume src handle secret parameters)
                (env.client tr (Call.DemoteVolume src handle secret parameters))])
              (markVolumeAsSecondary env tr inst src handle parameters secret).inst
              src handle inst.Spec.AutoResync parameters secret).inst
            (resyncVolume env
              (tr ++ [Event.rpc (Call.DemoteVolume src handle secret parameters)
                (env.client tr (Call.DemoteVolume src handle secret parameters))])
              (markVolumeAsSecondary env tr inst src handle parameters secret).inst
              src handle inst.Spec.AutoResync parameters secret).err
            (resyncVolume env
              (tr ++ [Event.rpc (Call.DemoteVolume src handle secret parameters)
                (env.client tr (Call.DemoteVolume src handle secret parameters))])
              (markVolumeAsSecondary env tr inst src handle parameters secret).inst
              src handle inst.Spec.AutoResync parameters secret).requeue
          refine ⟨[Event.rpc (Call.DemoteVolume src handle secret parameters)
              (env.client tr (Call.DemoteVolume src handle secret parameters))],
            Call.ResyncVolume src handle inst.Spec.AutoResync secret parameters, _,
            [Event.statusUpdate i werr], hc, ?_, rfl⟩
          rw [h, resyncVolume_trace]
        | true =>
          left
          obtain ⟨hrE, hrR⟩ : (env.client (tr ++ [Event.rpc (Call.DemoteVolume src handle secret parameters)
                (env.client tr (Call.DemoteVolume src handle secret parameters))])
                (Call.ResyncVolume src handle inst.Spec.AutoResync secret parameters)).Error = none
              ∧ (env.client (tr ++ [Event.rpc (Call.DemoteVolume src handle secret parameters)
                (env.client tr (Call.DemoteVolume src handle secret parameters))])
                (Call.ResyncVolume src handle inst.Spec.AutoResync secret parameters)).Response =
                Payload.ResyncVolumeResponse true := by
            simpa [Call.completes] using hc
          refine ⟨[Event.rpc (Call.DemoteVolume src handle secret parameters)
              (env.client tr (Call.DemoteVolume src handle secret parameters))],
            Call.ResyncVolume src handle inst.Spec.AutoResync secret parameters, _,
            setNotDegradedCondition (setResyncCondition
              (inst.Status.Conditions ++
                [{ kind := if (env.client tr (Call.DemoteVolume src handle secret parameters)).Error
                      = none then ConditionKind.Demoted else ConditionKind.FailedDemotion,
                   observedGeneration := inst.Generation }]) inst.Generation) inst.Generation,
            hc, ?_, (by intro raw h; cases h), fun _ => hobs1⟩
          rw [resyncVolume_ready env _ _ src handle inst.Spec.AutoResync parameters secret hrE hrR,
            hinst]
          rfl
  | Resync =>
    dsimp only
    cases hc : Call.completes (Call.ResyncVolume src handle true secret parameters)
        (env.client tr (Call.ResyncVolume src handle true secret parameters)) with
    | false =>
      right; left
      obtain ⟨i, werr, h⟩ := reconcileOutcome_trace env
        (resyncVolume env tr inst src handle true parameters secret).trace
        (resyncVolume env tr inst src handle true parameters secret).inst
        (resyncVolume env tr inst src handle true parameters secret).err
        (resyncVolume env tr inst src handle true parameters secret).requeue
      refine ⟨[], Call.ResyncVolume src handle true secret parameters, _,
        [Event.statusUpdate i werr], hc, ?_, rfl⟩
      rw [h, resyncVolume_trace, List.append_nil]
    | true =>
      left
      obtain ⟨hrE, hrR⟩ : (env.client tr (Call.ResyncVolume src handle true secret parameters)).Error = none
          ∧ (env.client tr (Call.ResyncVolume src handle true secret parameters)).Response =
            Payload.ResyncVolumeResponse true := by
        simpa [Call.completes] using hc
      refine ⟨[], Call.ResyncVolume src handle true secret parameters, _,
        setNotDegradedCondition (setResyncCondition inst.Status.Conditions inst.Generation)
          inst.Generation,
        hc, ?_, (by intro raw h; cases h), (by intro h; cases h)⟩
      rw [resyncVolume_ready env tr inst src handle true parameters secret hrE hrR,
        List.append_nil]
  | other raw =>
    right; right
    exact ⟨_, by simp [recordFailure]; rfl, by simp⟩

theorem isReplication_of_completes {c : Call} {r : Response} (h : c.completes r = true) :
    c.isReplication = true := by
  cases c <;> simp_all [Call.completes, Call.isReplication]

theorem replicationDone_exists {tr : List Event} (h : replicationDone tr = true) :
    ∃ cr ∈ driverEvents tr,
      (cr.1.isEnable = true ∧ cr.2.Error = none) ∨ cr.1.isReplication = true := by
  unfold replicationDone at h
  cases hl : (driverEvents tr).getLast? with
  | none => rw [hl] at h; cases h
  | some cr =>
    rw [hl] at h
    exact ⟨cr, List.mem_of_getLast?_eq_some hl, Or.inr (isReplication_of_completes h)⟩

theorem replicationDone_snoc (tr post : List Event) (c : Call) (r : Response)
    (hpost : driverEvents post = []) :
    replicationDone (tr ++ [Event.rpc c r] ++ post) = c.completes r := by
  unfold replicationDone
  simp [hpost]

/-- C22: the full success outcome.  In a pass whose last driver call completes
the state operation (a Promote answered with success; a Resync answered with
success and ready = true, which for desired Secondary is made only on an intent
already observed as Secondary, after a Demote that succeeded) and whose status
write is accepted, Reconcile returns an empty result with a nil error; the last
event of the pass is the status write of the intent it leaves, with
lastCompletionTime stamped, with status.state Primary for desired Primary and
Secondary for desired Secondary or Resync, and with the message "volume is
marked for resyncing" for Resync and "volume is marked " followed by the name
of the desired state otherwise. -/
theorem Reconcile_full_success (env : Env) (req : NamespacedName) (inst0 : VolumeReplication)
    (hget : env.getInstance req = Except.ok inst0)
    (hdone : replicationDone (Reconcile env req).trace = true)
    (hw : statusWritesSucceeded (Reconcile env req).trace = true) :
    (Reconcile env req).exit = Exit.returned {} none
    ∧ ∃ inst pre, (Reconcile env req).inst = some inst
        ∧ (Reconcile env req).trace = pre ++ [Event.statusUpdate inst none]
        ∧ inst.Status.LastCompletionTime = some (env.now pre)
        ∧ ((inst0.Spec.ReplicationState = ReplicationState.Primary
              ∧ inst.Status.State = State.PrimaryState
              ∧ inst.Status.Message =
                "volume is marked " ++ env.stateString ReplicationState.Primary)
          ∨ (inst0.Spec.ReplicationState = ReplicationState.Secondary
              ∧ inst0.Status.State = State.SecondaryState
              ∧ inst.Status.State = State.SecondaryState
              ∧ inst.Status.Message =
                "volume is marked " ++ env.stateString ReplicationState.Secondary)
          ∨ (inst0.Spec.ReplicationState = ReplicationState.Resync
              ∧ inst.Status.State = State.SecondaryState
              ∧ inst.Status.Message = "volume is marked for resyncing")) := by
  obtain ⟨inst1, hget1, -, fin, t, tr0, src, handle, parameters, secret, r, hde, hE, heq⟩ :=
    Reconcile_enabled env req (replicationDone_exists hdone)
  rw [hget] at hget1
  cases hget1
  rcases reconcileDesiredState_last env tr0
      (VolumeReplication.withLastStartTime { inst0 with Finalizers := fin } t)
      src handle parameters secret with
    ⟨pre, c, r1, cs, -, heq2, hno, hsec⟩ | ⟨pre, c, r1, post, hc, htr, hpost⟩ | ⟨post, htr, hpost⟩
  · obtain ⟨i, werr, h1, h2, h3, h4, h5, h6⟩ := reconcileOutcome_completed env
      (tr0 ++ pre ++ [Event.rpc c r1])
      ((VolumeReplication.withLastStartTime { inst0 with Finalizers := fin } t).withConditions cs)
    rw [heq, heq2] at hw ⊢
    rw [h1] at hw
    have hwerr : werr = none := by
      cases werr with
      | none => rfl
      | some e => simp at hw
    subst hwerr
    refine ⟨h3, i, _, h2, h1, h4, ?_⟩
    rw [h5, h6]
    simp only [withConditions_Spec, withLastStartTime_Spec, getReplicationState] at hno hsec ⊢
    cases hs : inst0.Spec.ReplicationState with
    | Primary => left; simp
    | Secondary =>
      right; left
      have := hsec hs
      simp at this
      simp [this]
    | Resync => right; right; simp
    | other raw => exact absurd hs (hno raw)
  · exfalso
    rw [heq, htr, replicationDone_snoc _ _ _ _ hpost, hc] at hdone
    cases hdone
  · exfalso
    rw [heq, htr] at hdone
    unfold replicationDone at hdone
    simp [hde, hpost, Call.completes] at hdone

/-- The pass on a never-reconciled intent, desired Primary, against a healthy
driver. -/
theorem Reconcile_full_success_witness :
    replicationDone promotedPass.trace = true
    ∧ statusWritesSucceeded promotedPass.trace = true
    ∧ promotedPass.exit = Exit.returned {} none
    ∧ promotedPass.inst.map (fun i => i.Status.State) = some State.PrimaryState
    ∧ promotedPass.inst.map (fun i => i.Status.Message) = some "volume is marked primary"
    ∧ promotedPass.inst.map (fun i => i.Status.LastCompletionTime.isSome) = some true :=
  ⟨by decide, by decide,
   (Reconcile_full_success
      (sampleEnv (sampleIntent ReplicationState.Primary State.empty false) (healthyClient true))
      sampleRequest (sampleIntent ReplicationState.Primary State.empty false) rfl
      (by decide) (by decide)).1,
   by decide, by decide, by decide⟩

end VolRep
